import Mathlib

/-!
# OpenVPNConnection: management-channel driver

A shallow embedding of `src/backend/engine/engine/connectionmanager/openvpnconnection.cpp`.

* A `QString` is a list of Unicode scalar values (`List Char`); UTF-16 surrogate
  handling and UTF-8 decoding errors are outside the model. Text written to the
  socket is given as characters as well; NUL is the character U+0000, the only
  one whose UTF-8 encoding has a zero byte.
* Every member function becomes a function from the object state `Conn` (plus
  the answers of the environment: socket results, helper results, clock) to the
  new state and the list of externally visible effects it performed, in order.
  The debug output on `LOG_CONNECTION` is not an effect of the model; the
  logging of the received line on `LOG_OPENVPN` is.
* `sprintf` into `char message[1024]` has undefined behaviour when the text
  does not fit; the functions that format a message return `none` there.
* The `io_service_` queue is not part of the state: a session is any sequence
  of public calls, timer events and handler runs (`Input`), so every property
  proved for all sequences holds for the sequences the reactor can produce.
-/

namespace OpenVPN

/-! ## The Qt string operations used by the source -/

/-- A `QString`, as its sequence of characters. -/
abbrev QString := List Char

/-- Case folding used by `Qt::CaseInsensitive` comparisons, on the ASCII
letters (the patterns of the source are ASCII; non-ASCII folding is not
modelled). -/
def foldCase (c : Char) : Char :=
  if 65 ≤ c.toNat ∧ c.toNat ≤ 90 then Char.ofNat (c.toNat + 32) else c

/-- The function `QChar::isSpace`: the ASCII white space 9..13 and 32, U+0085, U+00A0 and
the Unicode separators (categories Zs, Zl, Zp). -/
def isSpace (c : Char) : Bool :=
  c.toNat = 32 || (9 ≤ c.toNat && c.toNat ≤ 13) || c.toNat = 0x85 || c.toNat = 0xA0 ||
  c.toNat = 0x1680 || (0x2000 ≤ c.toNat && c.toNat ≤ 0x200A) || c.toNat = 0x2028 ||
  c.toNat = 0x2029 || c.toNat = 0x202F || c.toNat = 0x205F || c.toNat = 0x3000

/-- The function `QString::trimmed`: white space removed from both ends. -/
def trimmed (s : QString) : QString :=
  ((s.dropWhile isSpace).reverse.dropWhile isSpace).reverse

/-- Infix test on character lists (case-sensitive). -/
def containsCS : List Char → List Char → Bool
  | [], p => p.isPrefixOf []
  | c :: s, p => p.isPrefixOf (c :: s) || containsCS s p

/-- The test `s.contains(p, Qt::CaseInsensitive)`. -/
def containsCI (s : QString) (p : String) : Bool :=
  containsCS (s.map foldCase) (p.toList.map foldCase)

/-- The test `s.startsWith(p)` (case-sensitive, the Qt default). -/
def startsWith (s : QString) (p : String) : Bool :=
  p.toList.isPrefixOf s

/-- The test `s.startsWith(p, Qt::CaseInsensitive)`. -/
def startsWithCI (s : QString) (p : String) : Bool :=
  (p.toList.map foldCase).isPrefixOf (s.map foldCase)

/-- The function `QString::split(sep)` for a one-character separator, empty parts kept. -/
def split (sep : Char) : QString → List QString
  | [] => [[]]
  | c :: s =>
    if c = sep then [] :: split sep s
    else match split sep s with
      | [] => [[c]]
      | h :: t => (c :: h) :: t

/-- Position of the first `ch` at or after offset `i` of the original string,
or `-1`. -/
def indexOfFrom (ch : Char) : QString → Nat → Int
  | [], _ => -1
  | c :: s, i => if c = ch then (i : Int) else indexOfFrom ch s (i + 1)

/-- The function `s.indexOf(ch)`: position of the first occurrence, `-1` when absent. -/
def indexOf (s : QString) (ch : Char) : Int := indexOfFrom ch s 0

/-- The function `s.mid(pos, n)` for `0 ≤ pos`, `0 ≤ n`. -/
def mid (s : QString) (pos n : Nat) : QString := (s.drop pos).take n

/-- Decimal digit test. -/
def isDigit (c : Char) : Bool := 48 ≤ c.toNat && c.toNat ≤ 57

/-- Value of a string of decimal digits, most significant first. -/
def decimalValue (s : List Char) : Nat :=
  s.foldl (fun acc c => 10 * acc + (c.toNat - 48)) 0

/-- The function `QString::toULongLong()` (base 10): surrounding white space is skipped;
a non-empty string of decimal digits whose value fits 64 bits gives that value;
the conversion fails, returning 0, on overflow and on an empty string. Signs
and other characters are not modelled and also give 0. -/
def toULongLong (s : QString) : Nat :=
  let t := trimmed s
  if t ≠ [] ∧ t.all isDigit = true ∧ decimalValue t < 2 ^ 64 then decimalValue t else 0

/-- Subtraction of `quint64` values: modulo `2^64`. -/
def subU64 (a b : Nat) : Nat := (a + 2 ^ 64 - b % 2 ^ 64) % 2 ^ 64

/-! ## The C string and buffer operations used by the source -/

/-- The NUL character. -/
def NUL : Char := Char.ofNat 0

/-- The call `boost::asio::buffer("...")` on a string literal: the array overload takes
the whole array `const char[N]`, that is the characters of the literal and its
terminating NUL. -/
def bufferLiteral (lit : String) : List Char := lit.toList ++ [NUL]

/-- What `%s` reads from `v.toUtf8().data()`: the text up to the first NUL. -/
def cStr (v : QString) : List Char := v.takeWhile (fun ch => ch != NUL)

/-- Number of bytes of the UTF-8 encoding. -/
def utf8Len (s : List Char) : Nat := (s.map Char.utf8Size).sum

/-- The text `sprintf` produces for the format `"<pre>%s\n"`: the fixed part,
the argument up to its first NUL, a line feed. -/
def formatted (pre : String) (v : QString) : List Char :=
  pre.toList ++ cStr v ++ ['\n']

/-- The call `sprintf(message, "<pre>%s\n", v.toUtf8().data())` followed by
`boost::asio::buffer(message, strlen(message))`: the text handed to the
write, or `none` when the text and its terminating NUL do not fit the
1024-byte array (undefined behaviour in the source). -/
def sprintfMessage (pre : String) (v : QString) : Option (List Char) :=
  if utf8Len (formatted pre v) < 1024 then some (formatted pre v) else none

/-! ## Data model -/

/-- The connection status of `OpenVPNConnection`. -/
inductive CONNECTION_STATUS
  | STATUS_DISCONNECTED
  | STATUS_CONNECTING
  | STATUS_CONNECTED_TO_SOCKET
  | STATUS_CONNECTED
  deriving DecidableEq, Repr

/-- The error kinds emitted through `error(...)`. -/
inductive CONNECTION_ERROR
  | CANT_RUN_OPENVPN
  | NO_OPENVPN_SOCKET
  | AUTH_ERROR
  | CONNECTED_ERROR
  | UDP_CANT_ASSIGN
  | UDP_NO_BUFFER_SPACE
  | UDP_NETWORK_DOWN
  | TCP_ERROR
  | INITIALIZATION_SEQUENCE_COMPLETED_WITH_ERRORS
  | NO_INSTALLED_TUN_TAP
  | ALL_TAP_IN_USE
  deriving DecidableEq, Repr

/-- The Qt signals of the connection object. -/
inductive Signal
  | connected
  | reconnecting
  | disconnected
  | error (err : CONNECTION_ERROR)
  | requestUsername
  | requestPassword
  | statisticsUpdated (bytesIn bytesOut : Nat) (isTotalBytes : Bool)
  deriving DecidableEq, Repr

/-- The member functions posted to `io_service_`. -/
inductive Task
  | funcRunOpenVPN
  | funcDisconnect
  | continueWithUsernameImpl
  | continueWithPasswordImpl
  deriving DecidableEq, Repr

/-- Externally visible actions, in the order the code performs them. -/
inductive Effect
  /-- A `boost::asio::write` of `data`; `failed` is whether it set an error. -/
  | write (data : List Char) (failed : Bool)
  /-- An `emit` of a signal. -/
  | emit (s : Signal)
  /-- The call `qCDebug(LOG_OPENVPN) << serverReply`. -/
  | log (line : QString)
  /-- The call `boost::asio::async_read_until(..., "\n", handleRead)`. -/
  | asyncRead
  /-- The call `socket->async_connect(endpoint, funcConnectToOpenVPN)`. -/
  | asyncConnect (port : Nat)
  /-- The call `io_service_.post(task)`. -/
  | post (t : Task)
  /-- The call `killControllerTimer_.start(ms)`. -/
  | timerStart (ms : Nat)
  /-- The call `QTimer::singleShot(0, &killControllerTimer_, SLOT(stop()))`. -/
  | timerStopQueued
  /-- The call `helper_->executeTaskKill(...)` or `executeRootCommand("pkill -f ...")`. -/
  | forceKill
  /-- The call `runOpenVPN(...)`, with the answer of the helper. -/
  | runOpenVPN (port : Nat) (ok : Bool)
  /-- The call `helper_->clearUnblockingCmd(lastCmdId)`. -/
  | clearUnblockingCmd
  /-- The call `msleep(ms)`. -/
  | msleep (ms : Nat)
  /-- The call `wait()` for the reactor thread. -/
  | waitThread
  /-- The formatted text overran `char message[1024]`. -/
  | bufferOverrun
  deriving DecidableEq, Repr

/-- The session variables `stateVariables_` read or written by the source
(the socket, the stream buffer, the elapsed timer and the helper's command id
are held by the environment). -/
structure StateVariables where
  openVpnPort : Nat
  bWasStateNotification : Bool
  isAcceptSigTermCommand_ : Bool
  bSigTermSent : Bool
  bNeedSendSigTerm : Bool
  bTapErrorEmited : Bool
  bFirstCalcStat : Bool
  prevBytesRcved : Nat
  prevBytesXmited : Nat
  bWasSecondAttemptToStartOpenVpn : Bool
  deriving DecidableEq, Repr

/-- Modelled from the spec: `StateVariables::reset()` is declared in
`openvpnconnection.h`, which is not among the sources. The spec's session
variables start a session with every flag false, except `firstByteSample`
which is true, and with zero baselines. -/
def StateVariables.reset : StateVariables :=
  { openVpnPort := 0
    bWasStateNotification := false
    isAcceptSigTermCommand_ := false
    bSigTermSent := false
    bNeedSendSigTerm := false
    bTapErrorEmited := false
    bFirstCalcStat := true
    prevBytesRcved := 0
    prevBytesXmited := 0
    bWasSecondAttemptToStartOpenVpn := false }

/-- The part of `ProxySettings` read on the management channel. -/
structure ProxySettings where
  getUsername : QString
  getPassword : QString
  deriving DecidableEq, Repr

/-- The constants of the missing headers, taken as parameters. -/
structure Tunables where
  KILL_TIMEOUT : Nat
  MAX_WAIT_OPENVPN_ON_START : Nat
  deriving DecidableEq, Repr

/-- The members of `OpenVPNConnection`. -/
structure Conn where
  currentState_ : CONNECTION_STATUS
  bStopThread_ : Bool
  /-- Value of `killControllerTimer_.isActive()`. -/
  killControllerTimerActive : Bool
  configPath_ : QString
  username_ : QString
  password_ : QString
  proxySettings_ : ProxySettings
  tapAdapter_ : QString
  stateVariables_ : StateVariables
  deriving DecidableEq, Repr

/-- The object after its constructor: `bStopThread_(false)`,
`currentState_(STATUS_DISCONNECTED)`. -/
def Conn.init : Conn :=
  { currentState_ := .STATUS_DISCONNECTED
    bStopThread_ := false
    killControllerTimerActive := false
    configPath_ := []
    username_ := []
    password_ := []
    proxySettings_ := { getUsername := [], getPassword := [] }
    tapAdapter_ := []
    stateVariables_ := StateVariables.reset }

/-! ## State changes and the controller-side operations -/

/-- Source function `setCurrentState`. -/
def setCurrentState (c : Conn) (state : CONNECTION_STATUS) : Conn :=
  { c with currentState_ := state }

/-- Source function `setCurrentStateAndEmitDisconnected`: queue a stop of the
kill timer, set the state, emit `disconnected`. -/
def setCurrentStateAndEmitDisconnected (c : Conn) (state : CONNECTION_STATUS) :
    Conn × List Effect :=
  ({ c with currentState_ := state }, [.timerStopQueued, .emit .disconnected])

/-- Source function `setCurrentStateAndEmitError`: set the state, emit
`error(err)`. -/
def setCurrentStateAndEmitError (c : Conn) (state : CONNECTION_STATUS)
    (err : CONNECTION_ERROR) : Conn × List Effect :=
  ({ c with currentState_ := state }, [.emit (.error err)])

/-- Source function `isDisconnected`. -/
def isDisconnected (c : Conn) : Bool :=
  decide (c.currentState_ = .STATUS_DISCONNECTED)

/-- Source function `startConnect`; starting the thread makes `run()` post
`funcRunOpenVPN`. -/
def startConnect (c : Conn) (configPathOrUrl username password : QString)
    (proxySettings : ProxySettings) : Conn × List Effect :=
  ({ c with
      bStopThread_ := false
      currentState_ := .STATUS_CONNECTING
      configPath_ := configPathOrUrl
      username_ := username
      password_ := password
      proxySettings_ := proxySettings
      stateVariables_ := StateVariables.reset
      tapAdapter_ := [] },
   [.waitThread, .post .funcRunOpenVPN])

/-- Source function `startDisconnect`. -/
def startDisconnect (t : Tunables) (c : Conn) : Conn × List Effect :=
  if isDisconnected c then
    (c, [.emit .disconnected])
  else
    let r : Conn × List Effect :=
      if !c.killControllerTimerActive then
        ({ c with killControllerTimerActive := true }, [.timerStart t.KILL_TIMEOUT])
      else (c, [])
    ({ r.1 with bStopThread_ := true }, r.2 ++ [.post .funcDisconnect])

/-- Source function `continueWithUsernameAndPassword`. -/
def continueWithUsernameAndPassword (c : Conn) (username password : QString) :
    Conn × List Effect :=
  ({ c with username_ := username, password_ := password },
   [.post .continueWithUsernameImpl])

/-- Source function `continueWithPassword`. -/
def continueWithPassword (c : Conn) (password : QString) : Conn × List Effect :=
  ({ c with password_ := password }, [.post .continueWithPasswordImpl])

/-- Source function `onKillControllerTimer`: stop the timer, kill the child. -/
def onKillControllerTimer (c : Conn) : Conn × List Effect :=
  ({ c with killControllerTimerActive := false }, [.forceKill])

/-- Delivery of the `stop()` queued by `QTimer::singleShot(0, ...)`. -/
def killTimerStop (c : Conn) : Conn × List Effect :=
  ({ c with killControllerTimerActive := false }, [])

/-! ## Reactor-side operations -/

/-- Source function `funcDisconnect`; `writeFails` is the outcome of its
write (which the source does not inspect). -/
def funcDisconnect (c : Conn) (writeFails : Bool) : Conn × List Effect :=
  if !c.stateVariables_.bSigTermSent &&
      (decide (c.currentState_ = .STATUS_CONNECTED_TO_SOCKET) ||
       decide (c.currentState_ = .STATUS_CONNECTED)) then
    if c.stateVariables_.isAcceptSigTermCommand_ then
      ({ c with stateVariables_.bSigTermSent := true },
       [.write (bufferLiteral "signal SIGTERM\n") writeFails])
    else
      ({ c with stateVariables_.bNeedSendSigTerm := true }, [])
  else (c, [])

/-- Source function `checkErrorAndContinue`; `flushFails` is the outcome of the
pending-SIGTERM write (which the source does not inspect). -/
def checkErrorAndContinue (c : Conn) (write_error bWithAsyncReadCall flushFails : Bool) :
    Conn × List Effect :=
  let r : Conn × List Effect :=
    if write_error then setCurrentStateAndEmitDisconnected c .STATUS_DISCONNECTED
    else (c, if bWithAsyncReadCall then [.asyncRead] else [])
  if r.1.stateVariables_.bNeedSendSigTerm && r.1.stateVariables_.isAcceptSigTermCommand_ &&
      !r.1.stateVariables_.bSigTermSent then
    ({ r.1 with stateVariables_.bSigTermSent := true },
     r.2 ++ [.write (bufferLiteral "signal SIGTERM\n") flushFails])
  else r

/-- Source function `continueWithUsernameImpl`. -/
def continueWithUsernameImpl (c : Conn) (writeFails flushFails : Bool) :
    Option (Conn × List Effect) :=
  match sprintfMessage "username \"Auth\" " c.username_ with
  | none => none
  | some message =>
    let r := checkErrorAndContinue c writeFails false flushFails
    some (r.1, .write message writeFails :: r.2)

/-- Source function `continueWithPasswordImpl`. -/
def continueWithPasswordImpl (c : Conn) (writeFails flushFails : Bool) :
    Option (Conn × List Effect) :=
  match sprintfMessage "password \"Auth\" " c.password_ with
  | none => none
  | some message =>
    let r := checkErrorAndContinue c writeFails false flushFails
    some (r.1, .write message writeFails :: r.2)

/-- The `>BYTECOUNT:` branch of `handleRead` (source lines 393-418). -/
def handleByteCount (c : Conn) (serverReply : QString) : Conn × List Effect :=
  let pars := split ':' serverReply
  if pars.length > 1 then
    let pars2 := split ',' (pars.getD 1 [])
    if pars2.length = 2 then
      let l1 := toULongLong (pars2.getD 0 [])
      let l2 := toULongLong (pars2.getD 1 [])
      if c.stateVariables_.bFirstCalcStat then
        ({ c with
            stateVariables_.prevBytesRcved := l1
            stateVariables_.prevBytesXmited := l2
            stateVariables_.bFirstCalcStat := false },
         [.emit (.statisticsUpdated l1 l2 false)])
      else
        ({ c with
            stateVariables_.prevBytesRcved := l1
            stateVariables_.prevBytesXmited := l2 },
         [.emit (.statisticsUpdated (subU64 l1 c.stateVariables_.prevBytesRcved)
                  (subU64 l2 c.stateVariables_.prevBytesXmited) false)])
    else (c, [])
  else (c, [])

/-- The `>STATE:` branch of `handleRead` (source lines 419-438). -/
def handleState (c : Conn) (serverReply : QString) : Conn × List Effect :=
  if containsCI serverReply "CONNECTED,SUCCESS" then
    (setCurrentState c .STATUS_CONNECTED, [.emit .connected])
  else if containsCI serverReply "CONNECTED,ERROR" then
    (setCurrentState c .STATUS_CONNECTED, [.emit (.error .CONNECTED_ERROR)])
  else if containsCI serverReply "RECONNECTING" then
    (setCurrentState
      { c with
          stateVariables_.isAcceptSigTermCommand_ := false
          stateVariables_.bWasStateNotification := false }
      .STATUS_CONNECTED_TO_SOCKET,
     [.emit .reconnecting])
  else (c, [])

/-- The `>LOG:` branch of `handleRead` (source lines 439-485). -/
def handleLog (c : Conn) (serverReply : QString) : Conn × List Effect :=
  let bContainsUDPWord := containsCI serverReply "UDP"
  if bContainsUDPWord &&
      containsCI serverReply "No buffer space available (WSAENOBUFS) (code=10055)" then
    (c, [.emit (.error .UDP_CANT_ASSIGN)])
  else if bContainsUDPWord &&
      containsCI serverReply "No Route to Host (WSAEHOSTUNREACH) (code=10065)" then
    (c, [.emit (.error .UDP_CANT_ASSIGN)])
  else if bContainsUDPWord &&
      containsCI serverReply "Can't assign requested address (code=49)" then
    (c, [.emit (.error .UDP_CANT_ASSIGN)])
  else if bContainsUDPWord && containsCI serverReply "No buffer space available (code=55)" then
    (c, [.emit (.error .UDP_NO_BUFFER_SPACE)])
  else if bContainsUDPWord && containsCI serverReply "Network is down (code=50)" then
    (c, [.emit (.error .UDP_NETWORK_DOWN)])
  else if containsCI serverReply "TCP" && containsCI serverReply "failed" then
    (c, [.emit (.error .TCP_ERROR)])
  else if containsCI serverReply "Initialization Sequence Completed With Errors" then
    (c, [.emit (.error .INITIALIZATION_SEQUENCE_COMPLETED_WITH_ERRORS)])
  else if containsCI serverReply "TAP-WIN32 device" && containsCI serverReply "opened" then
    let b := indexOf serverReply (Char.ofNat 123)
    let e := indexOf serverReply (Char.ofNat 125)
    if b ≠ -1 ∧ e ≠ -1 ∧ b < e then
      ({ c with tapAdapter_ := mid serverReply b.toNat (e - b + 1).toNat }, [])
    else
      ({ c with tapAdapter_ := [] }, [])
  else (c, [])

/-- The arms of the if-else chain of `handleRead`, in source order. -/
inductive Branch
  | holdWaiting
  | endLine
  | stateNotificationOn
  | logNotificationOn
  | bytecountIntervalChanged
  | needAuth
  | needHttpProxy
  | httpProxyUsernameEntered
  | authUsernameEntered
  | verificationFailed
  | noTapAdapters
  | bytecount
  | state
  | log
  | fatalAllTapInUse
  | other
  deriving DecidableEq, Repr

/-- The conditions of the if-else chain of `handleRead` (source lines 312-489),
tested in source order on the trimmed line: the arm that is taken. -/
def selectBranch (c : Conn) (serverReply : QString) : Branch :=
  if containsCI serverReply "HOLD:Waiting for hold release" then .holdWaiting
  else if startsWith serverReply "END" && c.stateVariables_.bWasStateNotification then .endLine
  else if containsCI serverReply "SUCCESS: real-time state notification set to ON" then
    .stateNotificationOn
  else if containsCI serverReply "SUCCESS: real-time log notification set to ON" then
    .logNotificationOn
  else if containsCI serverReply "SUCCESS: bytecount interval changed" then
    .bytecountIntervalChanged
  else if containsCI serverReply "PASSWORD:Need 'Auth' username/password" then .needAuth
  else if containsCI serverReply "PASSWORD:Need 'HTTP Proxy' username/password" then
    .needHttpProxy
  else if containsCI serverReply "'HTTP Proxy' username entered, but not yet verified" then
    .httpProxyUsernameEntered
  else if containsCI serverReply "'Auth' username entered, but not yet verified" then
    .authUsernameEntered
  else if containsCI serverReply "PASSWORD:Verification Failed: 'Auth'" then .verificationFailed
  else if containsCI serverReply "There are no TAP-Windows adapters on this system" then
    .noTapAdapters
  else if startsWithCI serverReply ">BYTECOUNT:" then .bytecount
  else if startsWithCI serverReply ">STATE:" then .state
  else if startsWithCI serverReply ">LOG:" then .log
  else if containsCI serverReply
      ">FATAL:All TAP-Windows adapters on this system are currently in use" then
    .fatalAllTapInUse
  else .other

/-- The bodies of the arms of the if-else chain of `handleRead` (source lines
312-489). The result is the new state, the effects, and the local
`write_error`, which is set only by a write of the chain; `none` when a
formatted message overruns its array. -/
def handleReadChain (c : Conn) (serverReply : QString) (writeFails : Bool) :
    Option (Conn × List Effect × Bool) :=
  match selectBranch c serverReply with
  | .holdWaiting =>
    some (c, [.write (bufferLiteral "state on all\n") writeFails], writeFails)
  | .endLine =>
    some (c, [.write (bufferLiteral "log on\n") writeFails], writeFails)
  | .stateNotificationOn =>
    some ({ c with
              stateVariables_.bWasStateNotification := true
              stateVariables_.isAcceptSigTermCommand_ := true }, [], false)
  | .logNotificationOn =>
    some (c, [.write (bufferLiteral "bytecount 1\n") writeFails], writeFails)
  | .bytecountIntervalChanged =>
    some (c, [.write (bufferLiteral "hold release\n") writeFails], writeFails)
  | .needAuth =>
    if !c.username_.isEmpty then
      match sprintfMessage "username \"Auth\" " c.username_ with
      | none => none
      | some message => some (c, [.write message writeFails], writeFails)
    else some (c, [.emit .requestUsername], false)
  | .needHttpProxy =>
    match sprintfMessage "username \"HTTP Proxy\" " c.proxySettings_.getUsername with
    | none => none
    | some message => some (c, [.write message writeFails], writeFails)
  | .httpProxyUsernameEntered =>
    match sprintfMessage "password \"HTTP Proxy\" " c.proxySettings_.getPassword with
    | none => none
    | some message => some (c, [.write message writeFails], writeFails)
  | .authUsernameEntered =>
    if !c.password_.isEmpty then
      match sprintfMessage "password \"Auth\" " c.password_ with
      | none => none
      | some message => some (c, [.write message writeFails], writeFails)
    else some (c, [.emit .requestPassword], false)
  | .verificationFailed =>
    if !c.stateVariables_.bSigTermSent then
      some ({ c with stateVariables_.bSigTermSent := true },
            [.emit (.error .AUTH_ERROR),
             .write (bufferLiteral "signal SIGTERM\n") writeFails], writeFails)
    else some (c, [.emit (.error .AUTH_ERROR)], false)
  | .noTapAdapters =>
    if !c.stateVariables_.bTapErrorEmited then
      if !c.stateVariables_.bSigTermSent then
        some ({ c with
                  stateVariables_.bTapErrorEmited := true
                  stateVariables_.bSigTermSent := true },
              [.emit (.error .NO_INSTALLED_TUN_TAP),
               .write (bufferLiteral "signal SIGTERM\n") writeFails], writeFails)
      else
        some ({ c with stateVariables_.bTapErrorEmited := true },
              [.emit (.error .NO_INSTALLED_TUN_TAP)], false)
    else some (c, [], false)
  | .bytecount =>
    let r := handleByteCount c serverReply
    some (r.1, r.2, false)
  | .state =>
    let r := handleState c serverReply
    some (r.1, r.2, false)
  | .log =>
    let r := handleLog c serverReply
    some (r.1, r.2, false)
  | .fatalAllTapInUse => some (c, [.emit (.error .ALL_TAP_IN_USE)], false)
  | .other => some (c, [], false)

/-- The logging at the head of `handleRead` (source lines 307-311): the line is
logged unless it contains `>BYTECOUNT:`. -/
def logLine (serverReply : QString) : List Effect :=
  if !containsCI serverReply ">BYTECOUNT:" then [.log serverReply] else []

/-- Source function `handleRead`. `err` is whether the read completed with an
error, `resultLine` the line taken from the stream buffer by `std::getline`,
`writeFails` the outcome of the write of the if-else chain and `flushFails`
that of the pending-SIGTERM write. -/
def handleRead (c : Conn) (err : Bool) (resultLine : QString) (writeFails flushFails : Bool) :
    Option (Conn × List Effect) :=
  if !err then
    let serverReply := trimmed resultLine
    match handleReadChain c serverReply writeFails with
    | none => none
    | some (c1, effs, write_error) =>
      let r := checkErrorAndContinue c1 write_error true flushFails
      some (r.1, logLine serverReply ++ effs ++ r.2)
  else
    some (setCurrentStateAndEmitDisconnected c .STATUS_DISCONNECTED)

/-- How the launch loop of `funcRunOpenVPN` ends. -/
inductive LaunchExit
  | launched
  | cantRun
  | stopped
  deriving DecidableEq, Repr

/-- The `while(!runOpenVPN(...))` loop of `funcRunOpenVPN` (source lines
191-211), entered with the current value of `retries`. `launch i` is the
helper's answer to the launch made after `i` failures and `stop i` the value of
`bStopThread_` read after that launch failed (the controller thread may set
the flag during the pauses). -/
def launchLoop (port : Nat) (launch stop : Nat → Bool) (retries : Nat) :
    LaunchExit × List Effect :=
  if launch retries then (.launched, [.runOpenVPN port true])
  else if retries ≥ 2 then (.cantRun, [.runOpenVPN port false])
  else if stop retries then (.stopped, [.runOpenVPN port false])
  else
    let r := launchLoop port launch stop (retries + 1)
    (r.1, [.runOpenVPN port false, .msleep 1000] ++ r.2)
termination_by 3 - retries
decreasing_by omega

/-- Source function `funcRunOpenVPN`; `port` is the answer of
`AvailablePort::getAvailablePort(DEFAULT_PORT)`. -/
def funcRunOpenVPN (c : Conn) (port : Nat) (launch stop : Nat → Bool) : Conn × List Effect :=
  let c1 : Conn := { c with stateVariables_.openVpnPort := port }
  let r := launchLoop port launch stop 0
  match r.1 with
  | .cantRun =>
    let q := setCurrentStateAndEmitError c1 .STATUS_DISCONNECTED .CANT_RUN_OPENVPN
    (q.1, r.2 ++ q.2)
  | .stopped =>
    let q := setCurrentStateAndEmitDisconnected c1 .STATUS_DISCONNECTED
    (q.1, r.2 ++ q.2)
  | .launched => (c1, r.2 ++ [.asyncConnect port])

/-- Source function `funcConnectToOpenVPN`. `err` is whether the connect
failed, `elapsed` the reading of the elapsed timer, `bFinished` the helper's
answer to `getUnblockingCmdStatus`, `writeFails` the outcome of the write of
the nested `funcDisconnect`. -/
def funcConnectToOpenVPN (t : Tunables) (c : Conn) (err : Bool) (elapsed : Nat)
    (bFinished writeFails : Bool) : Conn × List Effect :=
  if !err then
    let c1 := setCurrentState c .STATUS_CONNECTED_TO_SOCKET
    if c1.bStopThread_ then
      let r := funcDisconnect c1 writeFails
      (r.1, [.clearUnblockingCmd, .asyncRead] ++ r.2)
    else (c1, [.clearUnblockingCmd, .asyncRead])
  else if elapsed > t.MAX_WAIT_OPENVPN_ON_START then
    let r := setCurrentStateAndEmitError c .STATUS_DISCONNECTED .NO_OPENVPN_SOCKET
    (r.1, .clearUnblockingCmd :: r.2)
  else if bFinished then
    if c.bStopThread_ then
      setCurrentStateAndEmitDisconnected c .STATUS_DISCONNECTED
    else if !c.stateVariables_.bWasSecondAttemptToStartOpenVpn then
      ({ c with stateVariables_.bWasSecondAttemptToStartOpenVpn := true },
       [.msleep 2000, .post .funcRunOpenVPN])
    else
      setCurrentStateAndEmitError c .STATUS_DISCONNECTED .NO_OPENVPN_SOCKET
  else (c, [.asyncConnect c.stateVariables_.openVpnPort])

/-! ## Sessions: sequences of calls and completions -/

/-- What can happen to the object during a session: a public call from the
controller, the kill timer, or a handler run by the reactor together with the
answers of the environment it reads. -/
inductive Input
  | startDisconnect
  | continueWithUsernameAndPassword (username password : QString)
  | continueWithPassword (password : QString)
  | onKillControllerTimer
  | killTimerStop
  | funcRunOpenVPN (port : Nat) (launch stop : Nat → Bool)
  | funcConnectToOpenVPN (err : Bool) (elapsed : Nat) (bFinished writeFails : Bool)
  | handleRead (err : Bool) (resultLine : QString) (writeFails flushFails : Bool)
  | funcDisconnect (writeFails : Bool)
  | continueWithUsernameImpl (writeFails flushFails : Bool)
  | continueWithPasswordImpl (writeFails flushFails : Bool)

/-- One input handled by the object; `none` when a formatted message overruns
its array. -/
def step (t : Tunables) (c : Conn) : Input → Option (Conn × List Effect)
  | .startDisconnect => some (startDisconnect t c)
  | .continueWithUsernameAndPassword u p => some (continueWithUsernameAndPassword c u p)
  | .continueWithPassword p => some (continueWithPassword c p)
  | .onKillControllerTimer => some (onKillControllerTimer c)
  | .killTimerStop => some (killTimerStop c)
  | .funcRunOpenVPN port launch stop => some (funcRunOpenVPN c port launch stop)
  | .funcConnectToOpenVPN err elapsed fin wf =>
    some (funcConnectToOpenVPN t c err elapsed fin wf)
  | .handleRead err line wf ff => handleRead c err line wf ff
  | .funcDisconnect wf => some (funcDisconnect c wf)
  | .continueWithUsernameImpl wf ff => continueWithUsernameImpl c wf ff
  | .continueWithPasswordImpl wf ff => continueWithPasswordImpl c wf ff

/-- The inputs handled in order, with the effects of all of them. The run ends
at an input whose formatted message overruns its array, recording
`bufferOverrun`: the behaviour of the source is undefined from there on. -/
def run (t : Tunables) : Conn → List Input → Conn × List Effect
  | c, [] => (c, [])
  | c, i :: rest =>
    match step t c i with
    | none => (c, [.bufferOverrun])
    | some (c1, effs) =>
      let r := run t c1 rest
      (r.1, effs ++ r.2)

/-- The effects of each input of a run, input by input. -/
def runEach (t : Tunables) : Conn → List Input → List (List Effect)
  | _, [] => []
  | c, i :: rest =>
    match step t c i with
    | none => [[.bufferOverrun]]
    | some (c1, effs) => effs :: runEach t c1 rest

/-- The lines of a list read without error, every write succeeding. -/
def readLines (lines : List String) : List Input :=
  lines.map (fun l => Input.handleRead false l.toList false false)

/-- The writes of a trace, as the data written. -/
def writesOf : List Effect → List (List Char)
  | [] => []
  | .write d _ :: es => d :: writesOf es
  | _ :: es => writesOf es

/-- The signals emitted in a trace. -/
def signalsOf : List Effect → List Signal
  | [] => []
  | .emit s :: es => s :: signalsOf es
  | _ :: es => signalsOf es

/-- The writes and the signals of a trace, in order. -/
def commandsAndSignals : List Effect → List Effect
  | [] => []
  | .write d f :: es => .write d f :: commandsAndSignals es
  | .emit s :: es => .emit s :: commandsAndSignals es
  | _ :: es => commandsAndSignals es

/-- Number of writes of the `signal SIGTERM` command in a trace. -/
def sigTermWrites (es : List Effect) : Nat :=
  (writesOf es).count (bufferLiteral "signal SIGTERM\n")

/-- Number of `disconnected` signals in a trace. -/
def disconnectedCount (es : List Effect) : Nat :=
  (signalsOf es).count Signal.disconnected

/-! ## Quantities used to state the properties -/

/-- The SIGTERM budget of a state: one write while `bSigTermSent` is false. -/
def sigTermBudget (c : Conn) : Nat := if c.stateVariables_.bSigTermSent then 0 else 1

/-- Number of `error(CANT_RUN_OPENVPN)` and `error(NO_OPENVPN_SOCKET)` signals
in a trace: the errors emitted by `setCurrentStateAndEmitError`. -/
def structuralErrorCount (es : List Effect) : Nat :=
  (signalsOf es).count (Signal.error .CANT_RUN_OPENVPN) +
  (signalsOf es).count (Signal.error .NO_OPENVPN_SOCKET)

/-- The effects of a handler result, none when the result is undefined. -/
def effectsOf (r : Option (Conn × List Effect)) : List Effect :=
  match r with
  | none => []
  | some x => x.2

/-- Example tunables: a 5 s kill deadline and a 10 s dial budget. -/
def exampleTunables : Tunables := { KILL_TIMEOUT := 5000, MAX_WAIT_OPENVPN_ON_START := 10000 }

/-- The object right after `startConnect` with empty credentials and no proxy
credentials. -/
def startedConn : Conn := (startConnect Conn.init [] [] [] ⟨[], []⟩).1

/-- The started object once the reactor is attached to the management socket. -/
def attachedConn : Conn := setCurrentState startedConn .STATUS_CONNECTED_TO_SOCKET

/-- The lines of scenario S1 (happy path), in order. -/
def scenarioS1 : List String :=
  [">HOLD:Waiting for hold release",
   "SUCCESS: real-time state notification set to ON",
   "END",
   "SUCCESS: real-time log notification set to ON",
   "SUCCESS: bytecount interval changed",
   ">STATE:1700000000,CONNECTED,SUCCESS,10.8.0.6,198.51.100.7,1194,,",
   ">BYTECOUNT:500,600",
   ">BYTECOUNT:700,900"]

/-- A decimal numeral of a `quint64`: a non-empty string of decimal digits whose
value fits 64 bits. -/
def isNumeral (a : List Char) : Prop :=
  a ≠ [] ∧ a.all isDigit = true ∧ decimalValue a < 2 ^ 64

instance (a : List Char) : Decidable (isNumeral a) := by
  unfold isNumeral
  infer_instance

/-- A well-formed byte-count line `>BYTECOUNT:a,b`. -/
def byteCountLine (a b : List Char) : QString :=
  ">BYTECOUNT:".toList ++ a ++ ',' :: b

/-- The statistics the spec expects from a sequence of samples: the first
sample as it is, every later one as the 64-bit difference to the sample before
it. `first` tells whether the next sample is the first one, `prevRx` and
`prevTx` are the sample before it. -/
def expectedStatistics (first : Bool) (prevRx prevTx : Nat) : List (Nat × Nat) → List Signal
  | [] => []
  | (a, b) :: rest =>
    (if first then Signal.statisticsUpdated a b false
     else Signal.statisticsUpdated (subU64 a prevRx) (subU64 b prevTx) false)
      :: expectedStatistics false a b rest

/-- A byte-count sample as it arrives: the two numerals and the outcomes of the
writes of the step. -/
structure Sample where
  rx : List Char
  tx : List Char
  writeFails : Bool
  flushFails : Bool

/-- The read completion that delivers a sample. -/
def Sample.input (p : Sample) : Input :=
  Input.handleRead false (byteCountLine p.rx p.tx) p.writeFails p.flushFails

/-- The byte-count sequence `(100,200), (150,260), (150,260)` of the spec's
round-trip property, every write succeeding. -/
def roundTripSamples : List Sample :=
  [⟨"100".toList, "200".toList, false, false⟩,
   ⟨"150".toList, "260".toList, false, false⟩,
   ⟨"150".toList, "260".toList, false, false⟩]

/-- The pending-SIGTERM gate of `checkErrorAndContinue` is closed: it is not
the case that a SIGTERM is pending and acceptable but not yet sent. -/
def sigTermGateClosed (c : Conn) : Prop :=
  ¬ (c.stateVariables_.bNeedSendSigTerm = true ∧
     c.stateVariables_.isAcceptSigTermCommand_ = true ∧
     c.stateVariables_.bSigTermSent = false)

/-- The state reached in a session: the object `c0` with freshly reset session
variables, after the inputs `ins`. -/
def sessionState (t : Tunables) (c0 : Conn) (ins : List Input) : Conn :=
  (run t { c0 with stateVariables_ := StateVariables.reset } ins).1

/-- The error rows of the spec's `>LOG:` table, in table order: the substrings
that must all be present, and the error kind of the row. -/
def logErrorTable : List (List String × CONNECTION_ERROR) :=
  [(["UDP", "No buffer space available (WSAENOBUFS) (code=10055)"], .UDP_CANT_ASSIGN),
   (["UDP", "No Route to Host (WSAEHOSTUNREACH) (code=10065)"], .UDP_CANT_ASSIGN),
   (["UDP", "Can't assign requested address (code=49)"], .UDP_CANT_ASSIGN),
   (["UDP", "No buffer space available (code=55)"], .UDP_NO_BUFFER_SPACE),
   (["UDP", "Network is down (code=50)"], .UDP_NETWORK_DOWN),
   (["TCP", "failed"], .TCP_ERROR),
   (["Initialization Sequence Completed With Errors"],
     .INITIALIZATION_SEQUENCE_COMPLETED_WITH_ERRORS)]

/-- A line matches a row of the table: it contains, case-insensitively, all
substrings of the row. -/
def rowMatches (s : QString) (row : List String × CONNECTION_ERROR) : Bool :=
  row.1.all (containsCI s)

/-- The error kind of the first row of the table, in table order, that the
line matches. -/
def firstMatchingKind (s : QString) : Option CONNECTION_ERROR :=
  (logErrorTable.find? (rowMatches s)).map (fun row => row.2)

/-- The inputs of a session that attaches to the management socket, is asked
to disconnect while SIGTERM is not yet acceptable, and whose kill timer then
expires. -/
def killTimerExpired : List Input :=
  [.funcRunOpenVPN 1194 (fun _ => true) (fun _ => false),
   .funcConnectToOpenVPN false 100 false false,
   .startDisconnect,
   .funcDisconnect false,
   .onKillControllerTimer]

/-- Number of queued stops of the kill timer in a trace. -/
def stopQueuedCount (es : List Effect) : Nat := es.count Effect.timerStopQueued

/-- The inputs that disarm the kill timer: its expiry and the delivery of a
queued stop. -/
def Input.disarmsTimer : Input → Prop
  | .onKillControllerTimer => True
  | .killTimerStop => True
  | _ => False

/-- The inputs of a session in which `startDisconnect` is called while the dial
is still in progress and the dial then runs out of time. -/
def dialTimeoutAfterDisconnect : List Input :=
  [.funcRunOpenVPN 1194 (fun _ => true) (fun _ => false),
   .startDisconnect,
   .funcConnectToOpenVPN true 10001 false false]

/-- The inputs of a session that attaches to the management socket and is then
asked to disconnect. -/
def attachThenDisconnect : List Input :=
  [.funcRunOpenVPN 1194 (fun _ => true) (fun _ => false),
   .funcConnectToOpenVPN false 100 false false,
   .startDisconnect]

/-- The inputs of an attached session in which the username is requested, the
write of the username continuation fails, and a `>STATE:` line that was still
to be read is then handled. -/
def lineAfterFailedContinuation : List Input :=
  [.handleRead false ">PASSWORD:Need 'Auth' username/password".toList false false,
   .continueWithUsernameAndPassword "u".toList "p".toList,
   .continueWithUsernameImpl true false,
   .handleRead false ">STATE:1700000000,CONNECTED,SUCCESS,10.8.0.6,198.51.100.7,1194,,".toList
     false false]

/-- The inputs of an attached session that enables state notifications and whose
disconnect task then fails to write `signal SIGTERM`. -/
def failedSigTermWrite : List Input :=
  [.handleRead false ">HOLD:Waiting for hold release".toList false false,
   .handleRead false "SUCCESS: real-time state notification set to ON".toList false false,
   .funcDisconnect true]

/-- The inputs of an attached session whose disconnect task runs before SIGTERM
is acceptable and whose pending SIGTERM then fails to be written by the
flush. -/
def failedSigTermFlush : List Input :=
  [.funcDisconnect false,
   .handleRead false "SUCCESS: real-time state notification set to ON".toList false true]

/-- The values carried by the `statisticsUpdated` signals of a list, as
integers. -/
def statisticsValues : List Signal → List (Int × Int)
  | [] => []
  | .statisticsUpdated a b _ :: rest => ((a : Int), (b : Int)) :: statisticsValues rest
  | _ :: rest => statisticsValues rest

/-- The exact integer differences between consecutive samples, the first sample
being compared with the baselines `prevRx`, `prevTx`. -/
def integerDifferences (prevRx prevTx : Int) : List (Nat × Nat) → List (Int × Int)
  | [] => []
  | (a, b) :: rest => ((a : Int) - prevRx, (b : Int) - prevTx) :: integerDifferences a b rest

/-- The receive values and the transmit values of the samples are each
non-decreasing, starting from `prevRx`, `prevTx`. -/
def nonDecreasing (prevRx prevTx : Nat) : List (Nat × Nat) → Prop
  | [] => True
  | (a, b) :: rest => prevRx ≤ a ∧ prevTx ≤ b ∧ nonDecreasing a b rest

/-- Number of `error(NO_INSTALLED_TUN_TAP)` signals in a trace. -/
def noTapErrors (es : List Effect) : Nat :=
  (signalsOf es).count (Signal.error .NO_INSTALLED_TUN_TAP)

/-- The no-TAP budget of a state: one error while `bTapErrorEmited` is false. -/
def noTapBudget (c : Conn) : Nat := if c.stateVariables_.bTapErrorEmited then 0 else 1

/-- A line that reports the missing TAP adapter, as the child logs it. -/
def noTapLine : QString :=
  ">LOG:1700000000,F,There are no TAP-Windows adapters on this system.".toList

/-- The attached session after the child has acknowledged `state on all`:
SIGTERM is acceptable. -/
def notifiedConn : Conn :=
  sessionState exampleTunables attachedConn
    (readLines [">HOLD:Waiting for hold release",
      "SUCCESS: real-time state notification set to ON"])

/-- A received line with the outcomes of the writes of its step. -/
structure ReadLine where
  line : QString
  writeFails : Bool
  flushFails : Bool

/-- The read completion that delivers a line. -/
def ReadLine.input (l : ReadLine) : Input :=
  Input.handleRead false l.line l.writeFails l.flushFails

/-- A line that neither sets `isAcceptSigTermCommand_` nor is answered with
`signal SIGTERM` by its own arm: its trimmed text contains none of `SUCCESS:
real-time state notification set to ON`, `PASSWORD:Verification Failed:
'Auth'`, `There are no TAP-Windows adapters on this system`. -/
def ReadLine.quiet (l : ReadLine) : Prop :=
  containsCI (trimmed l.line) "SUCCESS: real-time state notification set to ON" = false ∧
  containsCI (trimmed l.line) "PASSWORD:Verification Failed: 'Auth'" = false ∧
  containsCI (trimmed l.line) "There are no TAP-Windows adapters on this system" = false

instance (l : ReadLine) : Decidable l.quiet := by
  unfold ReadLine.quiet
  infer_instance

/-- The acknowledgement of `state on all`, as the child sends it. -/
def stateNotificationLine : QString :=
  "SUCCESS: real-time state notification set to ON".toList

/-- A `>STATE:` line that reports a reconnect, as the child sends it. -/
def reconnectingLine : QString :=
  ">STATE:1700000000,RECONNECTING,ping-restart,,,,,".toList

/-- Number of launches asked of the helper in a trace. -/
def launchAttempts : List Effect → Nat
  | [] => 0
  | .runOpenVPN _ _ :: es => launchAttempts es + 1
  | _ :: es => launchAttempts es

/-- Number of times `funcRunOpenVPN` is posted to the reactor in a trace. -/
def relaunchPosts (es : List Effect) : Nat := es.count (Effect.post Task.funcRunOpenVPN)

/-- The relaunch budget of a state: one more post of `funcRunOpenVPN` while
`bWasSecondAttemptToStartOpenVpn` is false. -/
def relaunchBudget (c : Conn) : Nat :=
  if c.stateVariables_.bWasSecondAttemptToStartOpenVpn then 0 else 1

/-- A `>LOG:` line that reports the opened TAP adapter, as the child logs it. -/
def tapOpenedLine : QString :=
  ">LOG:1700000000,I,TAP-WIN32 device [Ethernet 2] opened: \x7b4FA0C8E2-7A3B\x7d.tap".toList

/-- A `>LOG:` line that reports the opened TAP adapter and also carries the
hold text. -/
def tapOpenedHoldLine : QString :=
  (">LOG:1700000000,I,TAP-WIN32 device [Ethernet 2] opened: \x7b4FA0C8E2-7A3B\x7d.tap " ++
    "(HOLD:Waiting for hold release)").toList

/-- The greeting of the management interface, which no arm of the chain
recognises. -/
def greetingLine : QString :=
  ">INFO:OpenVPN Management Interface Version 1 -- type 'help' for more info".toList

/-- Sum of the receive values carried by the `statisticsUpdated` signals of a
list. -/
def rxTotal : List Signal → Nat
  | [] => 0
  | .statisticsUpdated a _ _ :: rest => a + rxTotal rest
  | _ :: rest => rxTotal rest

/-- Sum of the transmit values carried by the `statisticsUpdated` signals of a
list. -/
def txTotal : List Signal → Nat
  | [] => 0
  | .statisticsUpdated _ b _ :: rest => b + txTotal rest
  | _ :: rest => txTotal rest

/-- The `statisticsUpdated` signals of a list of signals. -/
def statisticsOf : List Signal → List Signal
  | [] => []
  | .statisticsUpdated a b f :: rest => .statisticsUpdated a b f :: statisticsOf rest
  | _ :: rest => statisticsOf rest

/-- An input that is not a byte-count sample: any call, timer event or handler
run, except the read of a line that starts with `>BYTECOUNT:` and has the two
fields of a sample. -/
def Input.notSample : Input → Prop
  | .handleRead false line _ _ =>
    startsWithCI (trimmed line) ">BYTECOUNT:" = false ∨
    (split ':' (trimmed line)).length ≤ 1 ∨
    (split ',' ((split ':' (trimmed line)).getD 1 [])).length ≠ 2
  | _ => True

instance (i : Input) : Decidable i.notSample := by
  cases i with
  | handleRead err line wf ff =>
    cases err <;> unfold Input.notSample <;> infer_instance
  | _ => exact isTrue trivial

/-- What a session is made of, as far as the byte statistics go: the
well-formed byte-count samples and, between them, any other inputs. -/
inductive SessionItem
  | sample (p : Sample)
  | other (i : Input)

/-- The input that delivers an item. -/
def SessionItem.input : SessionItem → Input
  | .sample p => p.input
  | .other i => i

/-- A sample is well formed when its two fields are numerals; another input
when it is not a sample. -/
def SessionItem.wellFormed : SessionItem → Prop
  | .sample p => isNumeral p.rx ∧ isNumeral p.tx
  | .other i => i.notSample

instance (x : SessionItem) : Decidable x.wellFormed := by
  cases x <;> unfold SessionItem.wellFormed <;> infer_instance

/-- The numeric values of the samples among the items, in order. -/
def itemValues : List SessionItem → List (Nat × Nat)
  | [] => []
  | .sample p :: rest => (decimalValue p.rx, decimalValue p.tx) :: itemValues rest
  | .other _ :: rest => itemValues rest

/-- Every input of the list is handled: no formatted message overruns its
array on the way. -/
def completes (t : Tunables) : Conn → List Input → Bool
  | _, [] => true
  | c, i :: rest =>
    match step t c i with
    | none => false
    | some (c1, _) => completes t c1 rest

/-- The byte-count baselines of a state are those of another. -/
def baselinesKept (c c1 : Conn) : Prop :=
  c1.stateVariables_.bFirstCalcStat = c.stateVariables_.bFirstCalcStat ∧
  c1.stateVariables_.prevBytesRcved = c.stateVariables_.prevBytesRcved ∧
  c1.stateVariables_.prevBytesXmited = c.stateVariables_.prevBytesXmited

/-- A session in which other inputs come between the samples `(100,200)`,
`(150,260)`, `(150,260)`: the child reports `CONNECTED`, then `RECONNECTING`,
a malformed byte-count line arrives, and the controller asks to disconnect. -/
def interleavedSession : List SessionItem :=
  [.sample ⟨"100".toList, "200".toList, false, false⟩,
   .other (.handleRead false
     ">STATE:1700000000,CONNECTED,SUCCESS,10.8.0.6,198.51.100.7,1194,,".toList false false),
   .sample ⟨"150".toList, "260".toList, false, false⟩,
   .other (.handleRead false reconnectingLine false false),
   .other (.handleRead false ">BYTECOUNT:77".toList false false),
   .other .startDisconnect,
   .sample ⟨"150".toList, "260".toList, false, false⟩]

/-- A session whose counters restart after a reconnect: the samples
`(500,600)`, `(100,50)`, `(200,80)` with a `RECONNECTING` line and the
acknowledgement of `state on all` after the first one. -/
def restartSession : List SessionItem :=
  [.sample ⟨"500".toList, "600".toList, false, false⟩,
   .other (.handleRead false reconnectingLine false false),
   .other (.handleRead false stateNotificationLine false false),
   .sample ⟨"100".toList, "50".toList, false, false⟩,
   .sample ⟨"200".toList, "80".toList, false, false⟩]

theorem writesOf_append (a b : List Effect) : writesOf (a ++ b) = writesOf a ++ writesOf b := by
  induction a with
  | nil => rfl
  | cons e es ih => cases e <;> simp [writesOf, ih]

theorem signalsOf_append (a b : List Effect) :
    signalsOf (a ++ b) = signalsOf a ++ signalsOf b := by
  induction a with
  | nil => rfl
  | cons e es ih => cases e <;> simp [signalsOf, ih]

theorem sigTermWrites_append (a b : List Effect) :
    sigTermWrites (a ++ b) = sigTermWrites a + sigTermWrites b := by
  simp [sigTermWrites, writesOf_append]

theorem disconnectedCount_append (a b : List Effect) :
    disconnectedCount (a ++ b) = disconnectedCount a + disconnectedCount b := by
  simp [disconnectedCount, signalsOf_append]

/-- A formatted message ends in a line feed, a literal buffer in NUL. -/
theorem sprintfMessage_ne_literal (r : String) (v : QString) (m : List Char)
    (h : sprintfMessage r v = some m) (lit : String) : m ≠ bufferLiteral lit := by
  unfold sprintfMessage at h
  split at h
  · injection h with h
    subst h
    intro hc
    have h2 := congrArg List.getLast? hc
    simp [bufferLiteral, NUL, formatted] at h2
  · cases h

theorem sigTermWrites_sprintf (r : String) (v : QString) (m : List Char) (f : Bool)
    (h : sprintfMessage r v = some m) : sigTermWrites [.write m f] = 0 := by
  have := sprintfMessage_ne_literal r v m h "signal SIGTERM\n"
  simp [sigTermWrites, writesOf, List.count_singleton, this]

/-! ## SIGTERM is written at most once -/

theorem funcDisconnect_budget (c : Conn) (wf : Bool) :
    sigTermWrites (funcDisconnect c wf).2 + sigTermBudget (funcDisconnect c wf).1
      ≤ sigTermBudget c := by
  unfold funcDisconnect sigTermBudget
  split_ifs <;> simp_all [sigTermWrites, writesOf]

theorem checkErrorAndContinue_budget (c : Conn) (we rd ff : Bool) :
    sigTermWrites (checkErrorAndContinue c we rd ff).2
      + sigTermBudget (checkErrorAndContinue c we rd ff).1 ≤ sigTermBudget c := by
  unfold checkErrorAndContinue sigTermBudget setCurrentStateAndEmitDisconnected
  cases we <;> cases rd <;> simp <;> split_ifs <;> simp_all [sigTermWrites, writesOf]

theorem handleByteCount_sv (c : Conn) (s : QString) :
    (handleByteCount c s).1.stateVariables_.bSigTermSent = c.stateVariables_.bSigTermSent ∧
    writesOf (handleByteCount c s).2 = [] := by
  unfold handleByteCount
  simp only
  split_ifs <;> simp [writesOf]

theorem handleState_sv (c : Conn) (s : QString) :
    (handleState c s).1.stateVariables_.bSigTermSent = c.stateVariables_.bSigTermSent ∧
    writesOf (handleState c s).2 = [] := by
  unfold handleState setCurrentState
  split_ifs <;> simp [writesOf]

theorem handleLog_sv (c : Conn) (s : QString) :
    (handleLog c s).1.stateVariables_ = c.stateVariables_ ∧
    writesOf (handleLog c s).2 = [] := by
  unfold handleLog
  simp only
  split_ifs <;> simp [writesOf]

theorem handleReadChain_budget (c c1 : Conn) (s : QString) (wf we : Bool) (effs : List Effect)
    (h : handleReadChain c s wf = some (c1, effs, we)) :
    sigTermWrites effs + sigTermBudget c1 ≤ sigTermBudget c := by
  unfold handleReadChain at h
  have hbc := handleByteCount_sv c s
  have hst := handleState_sv c s
  have hlg := handleLog_sv c s
  cases hb : selectBranch c s <;> rw [hb] at h <;> simp only at h
  all_goals (repeat' split at h)
  all_goals (try cases h)
  all_goals (try simp_all [sigTermWrites, writesOf, sigTermBudget, List.count_singleton])
  all_goals first
    | decide
    | exact sprintfMessage_ne_literal _ _ _ (by assumption) _


theorem handleRead_budget (c c1 : Conn) (err : Bool) (line : QString) (wf ff : Bool)
    (effs : List Effect) (h : handleRead c err line wf ff = some (c1, effs)) :
    sigTermWrites effs + sigTermBudget c1 ≤ sigTermBudget c := by
  unfold handleRead at h
  cases err
  · simp only [Bool.not_false, if_true] at h
    cases hc : handleReadChain c (trimmed line) wf with
    | none => rw [hc] at h; cases h
    | some r =>
      obtain ⟨c2, effs2, we⟩ := r
      rw [hc] at h
      simp only [Option.some.injEq, Prod.mk.injEq] at h
      obtain ⟨rfl, rfl⟩ := h
      have h1 := handleReadChain_budget c c2 _ wf we effs2 hc
      have h2 := checkErrorAndContinue_budget c2 we true ff
      have h3 : sigTermWrites (logLine (trimmed line)) = 0 := by
        unfold logLine
        split <;> rfl
      rw [sigTermWrites_append, sigTermWrites_append, h3]
      omega
  · simp [setCurrentStateAndEmitDisconnected] at h
    obtain ⟨rfl, rfl⟩ := h
    simp [sigTermWrites, writesOf, sigTermBudget]

theorem continueWithUsernameImpl_budget (c c1 : Conn) (wf ff : Bool) (effs : List Effect)
    (h : continueWithUsernameImpl c wf ff = some (c1, effs)) :
    sigTermWrites effs + sigTermBudget c1 ≤ sigTermBudget c := by
  unfold continueWithUsernameImpl at h
  split at h
  · cases h
  · rename_i m hm
    simp only [Option.some.injEq, Prod.mk.injEq] at h
    obtain ⟨rfl, rfl⟩ := h
    have h2 := checkErrorAndContinue_budget c wf false ff
    have h3 := sigTermWrites_sprintf _ _ m wf hm
    have h4 := sigTermWrites_append [Effect.write m wf] (checkErrorAndContinue c wf false ff).2
    simp only [List.singleton_append] at h4
    omega

theorem continueWithPasswordImpl_budget (c c1 : Conn) (wf ff : Bool) (effs : List Effect)
    (h : continueWithPasswordImpl c wf ff = some (c1, effs)) :
    sigTermWrites effs + sigTermBudget c1 ≤ sigTermBudget c := by
  unfold continueWithPasswordImpl at h
  split at h
  · cases h
  · rename_i m hm
    simp only [Option.some.injEq, Prod.mk.injEq] at h
    obtain ⟨rfl, rfl⟩ := h
    have h2 := checkErrorAndContinue_budget c wf false ff
    have h3 := sigTermWrites_sprintf _ _ m wf hm
    have h4 := sigTermWrites_append [Effect.write m wf] (checkErrorAndContinue c wf false ff).2
    simp only [List.singleton_append] at h4
    omega

theorem launchLoop_writes (port : Nat) (launch stop : Nat → Bool) (retries : Nat) :
    writesOf (launchLoop port launch stop retries).2 = [] := by
  generalize hn : 3 - retries = n
  induction n generalizing retries with
  | zero =>
    unfold launchLoop
    have : retries ≥ 2 := by omega
    split_ifs <;> simp_all [writesOf]
  | succ n ih =>
    unfold launchLoop
    split_ifs <;> simp [writesOf]
    exact ih (retries + 1) (by omega)

theorem funcRunOpenVPN_budget (c : Conn) (port : Nat) (launch stop : Nat → Bool) :
    sigTermWrites (funcRunOpenVPN c port launch stop).2
      + sigTermBudget (funcRunOpenVPN c port launch stop).1 ≤ sigTermBudget c := by
  have hw := launchLoop_writes port launch stop 0
  unfold funcRunOpenVPN
  simp only
  split <;>
    simp [sigTermWrites, writesOf_append, hw, writesOf, sigTermBudget,
      setCurrentStateAndEmitError, setCurrentStateAndEmitDisconnected]

theorem funcConnectToOpenVPN_budget (t : Tunables) (c : Conn) (err : Bool) (elapsed : Nat)
    (fin wf : Bool) :
    sigTermWrites (funcConnectToOpenVPN t c err elapsed fin wf).2
      + sigTermBudget (funcConnectToOpenVPN t c err elapsed fin wf).1 ≤ sigTermBudget c := by
  have hd := funcDisconnect_budget (setCurrentState c .STATUS_CONNECTED_TO_SOCKET) wf
  unfold funcConnectToOpenVPN
  simp only []
  split_ifs
  · rw [sigTermWrites_append]
    simpa [sigTermWrites, writesOf, sigTermBudget, setCurrentState] using hd
  all_goals
    simp [sigTermWrites, writesOf, sigTermBudget, setCurrentState,
      setCurrentStateAndEmitError, setCurrentStateAndEmitDisconnected]

theorem startDisconnect_budget (t : Tunables) (c : Conn) :
    sigTermWrites (startDisconnect t c).2 + sigTermBudget (startDisconnect t c).1
      ≤ sigTermBudget c := by
  unfold startDisconnect
  simp only []
  split_ifs <;> simp [sigTermWrites, writesOf, sigTermBudget]

/-- Every input spends at most the remaining SIGTERM budget. -/
theorem step_budget (t : Tunables) (c c1 : Conn) (i : Input) (effs : List Effect)
    (h : step t c i = some (c1, effs)) :
    sigTermWrites effs + sigTermBudget c1 ≤ sigTermBudget c := by
  cases i with
  | startDisconnect =>
    have hb := startDisconnect_budget t c
    simp only [step, Option.some.injEq] at h
    rw [h] at hb
    exact hb
  | continueWithUsernameAndPassword u p =>
    simp only [step, Option.some.injEq, continueWithUsernameAndPassword, Prod.mk.injEq] at h
    obtain ⟨rfl, rfl⟩ := h
    simp [sigTermWrites, writesOf, sigTermBudget]
  | continueWithPassword p =>
    simp only [step, Option.some.injEq, continueWithPassword, Prod.mk.injEq] at h
    obtain ⟨rfl, rfl⟩ := h
    simp [sigTermWrites, writesOf, sigTermBudget]
  | onKillControllerTimer =>
    simp only [step, Option.some.injEq, onKillControllerTimer, Prod.mk.injEq] at h
    obtain ⟨rfl, rfl⟩ := h
    simp [sigTermWrites, writesOf, sigTermBudget]
  | killTimerStop =>
    simp only [step, Option.some.injEq, killTimerStop, Prod.mk.injEq] at h
    obtain ⟨rfl, rfl⟩ := h
    simp [sigTermWrites, writesOf, sigTermBudget]
  | funcRunOpenVPN port launch stop =>
    have hb := funcRunOpenVPN_budget c port launch stop
    simp only [step, Option.some.injEq] at h
    rw [h] at hb
    exact hb
  | funcConnectToOpenVPN err elapsed fin wf =>
    have hb := funcConnectToOpenVPN_budget t c err elapsed fin wf
    simp only [step, Option.some.injEq] at h
    rw [h] at hb
    exact hb
  | handleRead err line wf ff => exact handleRead_budget c c1 err line wf ff effs h
  | funcDisconnect wf =>
    have hb := funcDisconnect_budget c wf
    simp only [step, Option.some.injEq] at h
    rw [h] at hb
    exact hb
  | continueWithUsernameImpl wf ff => exact continueWithUsernameImpl_budget c c1 wf ff effs h
  | continueWithPasswordImpl wf ff => exact continueWithPasswordImpl_budget c c1 wf ff effs h

theorem run_budget (t : Tunables) (ins : List Input) (c : Conn) :
    sigTermWrites (run t c ins).2 + sigTermBudget (run t c ins).1 ≤ sigTermBudget c := by
  induction ins generalizing c with
  | nil => simp [run, sigTermWrites, writesOf]
  | cons i rest ih =>
    unfold run
    cases hs : step t c i with
    | none => simp [sigTermWrites, writesOf]
    | some r =>
      obtain ⟨c1, effs⟩ := r
      simp only
      have h1 := step_budget t c c1 i effs hs
      have h2 := ih c1
      rw [sigTermWrites_append]
      omega

theorem run_budget_mono (t : Tunables) (ins₁ ins₂ : List Input) (c : Conn) :
    sigTermBudget (run t c (ins₁ ++ ins₂)).1 ≤ sigTermBudget (run t c ins₁).1 := by
  induction ins₁ generalizing c with
  | nil =>
    have := run_budget t ins₂ c
    simp only [List.nil_append, run]
    omega
  | cons i rest ih =>
    simp only [List.cons_append]
    unfold run
    cases hs : step t c i with
    | none => simp
    | some r =>
      obtain ⟨c1, effs⟩ := r
      simp only
      exact ih c1

/-- C1: in every sequence of inputs of a session that starts from freshly
reset session variables, `signal SIGTERM` is written at most once, and once
`bSigTermSent` has become true after a prefix of the inputs it is true after
every longer sequence. -/
theorem C1_sigterm_at_most_once (t : Tunables) (c : Conn) (ins₁ ins₂ : List Input) :
    sigTermWrites
        (run t { c with stateVariables_ := StateVariables.reset } (ins₁ ++ ins₂)).2 ≤ 1 ∧
    ((run t { c with stateVariables_ := StateVariables.reset } ins₁).1.stateVariables_.bSigTermSent
        = true →
      (run t { c with stateVariables_ := StateVariables.reset }
        (ins₁ ++ ins₂)).1.stateVariables_.bSigTermSent = true) := by
  constructor
  · have h := run_budget t (ins₁ ++ ins₂) { c with stateVariables_ := StateVariables.reset }
    have hb : sigTermBudget { c with stateVariables_ := StateVariables.reset } = 1 := rfl
    omega
  · intro h1
    have h := run_budget_mono t ins₁ ins₂ { c with stateVariables_ := StateVariables.reset }
    unfold sigTermBudget at h
    rw [h1] at h
    simp only [if_true] at h
    by_contra hne
    simp [hne] at h


/-! ## The terminal signal of a session -/

theorem launchLoop_signals (port : Nat) (launch stop : Nat → Bool) (retries : Nat) :
    signalsOf (launchLoop port launch stop retries).2 = [] := by
  generalize hn : 3 - retries = n
  induction n generalizing retries with
  | zero =>
    unfold launchLoop
    have : retries ≥ 2 := by omega
    split_ifs <;> simp_all [signalsOf]
  | succ n ih =>
    unfold launchLoop
    split_ifs <;> simp [signalsOf]
    exact ih (retries + 1) (by omega)

theorem handleByteCount_terminal (c : Conn) (s : QString) :
    (handleByteCount c s).1.currentState_ = c.currentState_ ∧
    disconnectedCount (handleByteCount c s).2 = 0 ∧
    structuralErrorCount (handleByteCount c s).2 = 0 := by
  unfold handleByteCount
  simp only
  split_ifs <;> simp [disconnectedCount, structuralErrorCount, signalsOf]

theorem handleLog_terminal (c : Conn) (s : QString) :
    (handleLog c s).1.currentState_ = c.currentState_ ∧
    disconnectedCount (handleLog c s).2 = 0 ∧
    structuralErrorCount (handleLog c s).2 = 0 := by
  unfold handleLog
  simp only
  split_ifs <;> simp [disconnectedCount, structuralErrorCount, signalsOf]

theorem signalsOf_write_cons (m : List Char) (f : Bool) (es : List Effect) :
    signalsOf (Effect.write m f :: es) = signalsOf es := rfl

theorem ite_ne_branch {p : Prop} [Decidable p] {a b x : Branch} (ha : a ≠ x) (hb : b ≠ x) :
    (if p then a else b) ≠ x := by
  split <;> assumption

theorem selectBranch_endLine (c : Conn) (s : QString) (h : selectBranch c s = .endLine) :
    startsWith s "END" = true ∧ c.stateVariables_.bWasStateNotification = true := by
  unfold selectBranch at h
  by_cases h1 : containsCI s "HOLD:Waiting for hold release" = true
  · rw [if_pos h1] at h
    cases h
  · rw [if_neg h1] at h
    by_cases h2 : (startsWith s "END" && c.stateVariables_.bWasStateNotification) = true
    · simpa using h2
    · rw [if_neg h2] at h
      refine absurd h ?_
      repeat' apply ite_ne_branch
      all_goals decide

theorem handleReadChain_writes_log_on (c c1 : Conn) (s : QString) (wf we : Bool)
    (effs : List Effect) (h : handleReadChain c s wf = some (c1, effs, we))
    (hw : bufferLiteral "log on\n" ∈ writesOf effs) : selectBranch c s = .endLine := by
  have hbc := (handleByteCount_sv c s).2
  have hst := (handleState_sv c s).2
  have hlg := (handleLog_sv c s).2
  unfold handleReadChain at h
  cases hb : selectBranch c s <;> rw [hb] at h <;> simp only at h
  all_goals (repeat' split at h)
  all_goals (try cases h)
  all_goals (try simp_all [writesOf])
  all_goals first
    | (revert hw; decide)
    | exact absurd hw.symm (sprintfMessage_ne_literal _ _ _ (by assumption) _)

theorem checkErrorAndContinue_writes (c : Conn) (we rd ff : Bool) :
    writesOf (checkErrorAndContinue c we rd ff).2 = [] ∨
    writesOf (checkErrorAndContinue c we rd ff).2 = [bufferLiteral "signal SIGTERM\n"] := by
  unfold checkErrorAndContinue setCurrentStateAndEmitDisconnected
  cases we <;> cases rd <;> simp only [] <;> split_ifs <;> simp [writesOf, writesOf_append]

set_option maxRecDepth 100000 in
set_option maxHeartbeats 4000000 in
/-- C3: from freshly reset session variables the lines of scenario S1, read in
order with every write succeeding, produce line by line exactly the commands
`state on all`, nothing, `log on`, `bytecount 1`, `hold release` and then the
signals `connected`, `statisticsUpdated(500,600,false)`,
`statisticsUpdated(200,300,false)`; and in every state, if handling a line
that starts with `END` writes `log on`, then `bWasStateNotification` was set. -/
theorem C3_happy_path_and_end_gate (t : Tunables) (c : Conn) :
    (runEach t { c with stateVariables_ := StateVariables.reset }
        (readLines scenarioS1)).map commandsAndSignals
      = [[.write (bufferLiteral "state on all\n") false],
         [],
         [.write (bufferLiteral "log on\n") false],
         [.write (bufferLiteral "bytecount 1\n") false],
         [.write (bufferLiteral "hold release\n") false],
         [.emit .connected],
         [.emit (.statisticsUpdated 500 600 false)],
         [.emit (.statisticsUpdated 200 300 false)]] ∧
    ∀ (line : QString) (writeFails flushFails : Bool),
      startsWith (trimmed line) "END" = true →
      bufferLiteral "log on\n" ∈
        writesOf (effectsOf (handleRead c false line writeFails flushFails)) →
      c.stateVariables_.bWasStateNotification = true := by
  constructor
  · simp +decide [runEach, readLines, scenarioS1, step, handleRead, handleReadChain,
      selectBranch, checkErrorAndContinue, StateVariables.reset, handleState, handleByteCount,
      setCurrentState, commandsAndSignals]
  · intro line wf ff _ hw
    unfold handleRead at hw
    simp only [Bool.not_false, if_true] at hw
    cases hch : handleReadChain c (trimmed line) wf with
    | none => rw [hch] at hw; simp [effectsOf, writesOf] at hw
    | some r =>
      obtain ⟨c2, effs2, we⟩ := r
      rw [hch] at hw
      simp only [effectsOf, writesOf_append, List.mem_append] at hw
      rcases hw with (hw | hw) | hw
      · unfold logLine at hw
        split at hw <;> simp [writesOf] at hw
      · exact (selectBranch_endLine c _
          (handleReadChain_writes_log_on c c2 _ wf we effs2 hch hw)).2
      · rcases checkErrorAndContinue_writes c2 we true ff with h0 | h0
        · rw [h0] at hw; simp at hw
        · rw [h0] at hw
          exact absurd hw (by decide)

/-- C3 (witness): a line `END` handled while `bWasStateNotification` is set
writes `log on`. -/
theorem C3_happy_path_and_end_gate_witness :
    startsWith (trimmed "END".toList) "END" = true ∧
    bufferLiteral "log on\n" ∈ writesOf (effectsOf
      (handleRead { attachedConn with stateVariables_.bWasStateNotification := true }
        false "END".toList false false)) ∧
    ({ attachedConn with stateVariables_.bWasStateNotification := true } : Conn
      ).stateVariables_.bWasStateNotification = true :=
  ⟨by decide, by decide,
   (C3_happy_path_and_end_gate exampleTunables
      { attachedConn with stateVariables_.bWasStateNotification := true }).2
      "END".toList false false (by decide) (by decide)⟩


/-! ## Byte-count lines -/

theorem isDigit_not_isSpace (c : Char) (h : isDigit c = true) : isSpace c = false := by
  simp only [isDigit, Bool.and_eq_true, decide_eq_true_eq] at h
  simp only [isSpace, Bool.or_eq_false_iff, decide_eq_false_iff_not, Bool.and_eq_false_imp,
    decide_eq_true_eq]
  omega

theorem isDigit_foldCase (c : Char) (h : isDigit c = true) : foldCase c = c := by
  simp only [isDigit, Bool.and_eq_true, decide_eq_true_eq] at h
  unfold foldCase
  rw [if_neg]
  omega

theorem isDigit_ne (c : Char) (h : isDigit c = true) (x : Char) (hx : isDigit x = false) :
    c ≠ x := by
  intro hc
  rw [hc, hx] at h
  cases h

theorem dropWhile_reverse_of_getLast (s : List Char) (hne : s ≠ [])
    (hl : isSpace (s.getLast hne) = false) : (s.reverse.dropWhile isSpace).reverse = s := by
  have hs : s = s.dropLast ++ [s.getLast hne] := (List.dropLast_append_getLast hne).symm
  rw [hs]
  simp [List.dropWhile, hl]

theorem trimmed_eq_self (s : List Char) (hne : s ≠ []) (hh : isSpace (s.head hne) = false)
    (hl : isSpace (s.getLast hne) = false) : trimmed s = s := by
  unfold trimmed
  have h1 : s.dropWhile isSpace = s := by
    cases s with
    | nil => exact absurd rfl hne
    | cons a as =>
      simp only [List.head_cons] at hh
      simp [List.dropWhile, hh]
  rw [h1]
  exact dropWhile_reverse_of_getLast s hne hl

theorem trimmed_numeral (a : List Char) (h : isNumeral a) : trimmed a = a := by
  obtain ⟨hne, hd, _⟩ := h
  rw [List.all_eq_true] at hd
  exact trimmed_eq_self a hne (isDigit_not_isSpace _ (hd _ (List.head_mem hne)))
    (isDigit_not_isSpace _ (hd _ (List.getLast_mem hne)))

theorem toULongLong_numeral (a : List Char) (h : isNumeral a) :
    toULongLong a = decimalValue a := by
  unfold toULongLong
  simp only [trimmed_numeral a h]
  obtain ⟨hne, hd, hv⟩ := h
  rw [if_pos ⟨hne, hd, hv⟩]

theorem split_of_not_mem (sep : Char) (l : List Char) (h : sep ∉ l) : split sep l = [l] := by
  induction l with
  | nil => rfl
  | cons a as ih =>
    have ha : a ≠ sep := fun e => h (e ▸ List.mem_cons_self _ _)
    have has : sep ∉ as := fun e => h (List.mem_cons_of_mem _ e)
    simp [split, ha, ih has]

theorem split_append_sep (sep : Char) (l r : List Char) (h : sep ∉ l) :
    split sep (l ++ sep :: r) = l :: split sep r := by
  induction l with
  | nil => simp [split]
  | cons a as ih =>
    have ha : a ≠ sep := fun e => h (e ▸ List.mem_cons_self _ _)
    have has : sep ∉ as := fun e => h (List.mem_cons_of_mem _ e)
    simp [split, ha, ih has]

theorem numeral_not_mem (a : List Char) (h : isNumeral a) (x : Char) (hx : isDigit x = false) :
    x ∉ a := by
  intro hm
  have := List.all_eq_true.mp h.2.1 x hm
  rw [hx] at this
  cases this

theorem split_byteCountLine (a b : List Char) (ha : isNumeral a) (hb : isNumeral b) :
    split ':' (byteCountLine a b) = [">BYTECOUNT".toList, a ++ ',' :: b] := by
  have h1 : (':' : Char) ∉ a ++ ',' :: b := by
    simp only [List.mem_append, List.mem_cons, not_or]
    exact ⟨numeral_not_mem a ha _ (by decide), by decide, numeral_not_mem b hb _ (by decide)⟩
  have h2 : byteCountLine a b = ">BYTECOUNT".toList ++ ':' :: (a ++ ',' :: b) := by
    simp [byteCountLine]
  rw [h2, split_append_sep ':' _ _ (by decide), split_of_not_mem ':' _ h1]

theorem split_samples (a b : List Char) (ha : isNumeral a) (hb : isNumeral b) :
    split ',' (a ++ ',' :: b) = [a, b] := by
  rw [split_append_sep ',' _ _ (numeral_not_mem a ha _ (by decide)),
    split_of_not_mem ',' _ (numeral_not_mem b hb _ (by decide))]

theorem containsCS_mem (s p : List Char) (h : containsCS s p = true) : ∀ x ∈ p, x ∈ s := by
  induction s with
  | nil =>
    intro x hx
    simp only [containsCS] at h
    have := List.isPrefixOf_iff_prefix.mp h
    exact this.subset hx
  | cons a as ih =>
    intro x hx
    simp only [containsCS, Bool.or_eq_true] at h
    rcases h with h | h
    · exact (List.isPrefixOf_iff_prefix.mp h).subset hx
    · exact List.mem_cons_of_mem _ (ih h x hx)

/-- A pattern with a character that the line does not have is not contained in
it. -/
theorem containsCI_false_of_not_mem (s : QString) (p : String) (x : Char)
    (hx : x ∈ p.toList.map foldCase) (hs : x ∉ s.map foldCase) : containsCI s p = false := by
  cases h : containsCI s p with
  | false => rfl
  | true => exact absurd (containsCS_mem _ _ h x hx) hs

theorem space_not_mem_fold_numeral (a : List Char) (h : isNumeral a) :
    ' ' ∉ a.map foldCase := by
  intro hm
  obtain ⟨c, hc, hf⟩ := List.mem_map.mp hm
  have hd := List.all_eq_true.mp h.2.1 c hc
  rw [isDigit_foldCase c hd] at hf
  rw [hf] at hd
  exact absurd hd (by decide)

theorem space_not_mem_byteCountLine (a b : List Char) (ha : isNumeral a) (hb : isNumeral b) :
    ' ' ∉ (byteCountLine a b).map foldCase := by
  simp only [byteCountLine, List.map_append, List.map_cons, List.mem_append, List.mem_cons,
    not_or]
  exact ⟨⟨by decide, space_not_mem_fold_numeral a ha⟩, by decide,
    space_not_mem_fold_numeral b hb⟩

theorem startsWithCI_byteCountLine (a b : List Char) :
    startsWithCI (byteCountLine a b) ">BYTECOUNT:" = true := by
  unfold startsWithCI byteCountLine
  rw [List.isPrefixOf_iff_prefix, List.append_assoc, List.map_append]
  exact List.prefix_append _ _

theorem selectBranch_byteCountLine (c : Conn) (a b : List Char) (ha : isNumeral a)
    (hb : isNumeral b) : selectBranch c (byteCountLine a b) = .bytecount := by
  have hsp := space_not_mem_byteCountLine a b ha hb
  have hend : startsWith (byteCountLine a b) "END" = false := by
    simp [startsWith, byteCountLine, List.isPrefixOf]
  unfold selectBranch
  rw [containsCI_false_of_not_mem _ "HOLD:Waiting for hold release" ' ' (by decide) hsp,
    containsCI_false_of_not_mem _ "SUCCESS: real-time state notification set to ON" ' '
      (by decide) hsp,
    containsCI_false_of_not_mem _ "SUCCESS: real-time log notification set to ON" ' '
      (by decide) hsp,
    containsCI_false_of_not_mem _ "SUCCESS: bytecount interval changed" ' ' (by decide) hsp,
    containsCI_false_of_not_mem _ "PASSWORD:Need 'Auth' username/password" ' ' (by decide) hsp,
    containsCI_false_of_not_mem _ "PASSWORD:Need 'HTTP Proxy' username/password" ' '
      (by decide) hsp,
    containsCI_false_of_not_mem _ "'HTTP Proxy' username entered, but not yet verified" ' '
      (by decide) hsp,
    containsCI_false_of_not_mem _ "'Auth' username entered, but not yet verified" ' '
      (by decide) hsp,
    containsCI_false_of_not_mem _ "PASSWORD:Verification Failed: 'Auth'" ' ' (by decide) hsp,
    containsCI_false_of_not_mem _ "There are no TAP-Windows adapters on this system" ' '
      (by decide) hsp,
    hend, startsWithCI_byteCountLine]
  simp

theorem trimmed_byteCountLine (a b : List Char) (hb : isNumeral b) :
    trimmed (byteCountLine a b) = byteCountLine a b := by
  have hne : byteCountLine a b ≠ [] := by simp [byteCountLine]
  refine trimmed_eq_self _ hne ?_ ?_
  · simp [byteCountLine, List.head_append_of_ne_nil]
    decide
  · have hl : (byteCountLine a b).getLast hne = b.getLast hb.1 := by
      simp only [byteCountLine, List.getLast_append_of_ne_nil (List.cons_ne_nil _ _)]
      exact List.getLast_cons hb.1
    rw [hl]
    exact isDigit_not_isSpace _ (List.all_eq_true.mp hb.2.1 _ (List.getLast_mem hb.1))

theorem checkErrorAndContinue_no_error (c : Conn) (rd ff : Bool) :
    (checkErrorAndContinue c false rd ff).1.stateVariables_.bFirstCalcStat
      = c.stateVariables_.bFirstCalcStat ∧
    (checkErrorAndContinue c false rd ff).1.stateVariables_.prevBytesRcved
      = c.stateVariables_.prevBytesRcved ∧
    (checkErrorAndContinue c false rd ff).1.stateVariables_.prevBytesXmited
      = c.stateVariables_.prevBytesXmited ∧
    signalsOf (checkErrorAndContinue c false rd ff).2 = [] := by
  unfold checkErrorAndContinue
  simp only [Bool.false_eq_true, if_false]
  cases rd <;> split_ifs <;> simp [signalsOf, signalsOf_append]

theorem signalsOf_logged (s : QString) :
    signalsOf (logLine s) = [] := by
  unfold logLine
  split <;> rfl

/-- What handling a well-formed byte-count line does to the sample variables
and which signals it emits. -/
theorem handleRead_byteCountLine (c : Conn) (p : Sample) (ha : isNumeral p.rx)
    (hb : isNumeral p.tx) :
    ∃ c1 effs, handleRead c false (byteCountLine p.rx p.tx) p.writeFails p.flushFails
        = some (c1, effs) ∧
      c1.stateVariables_.bFirstCalcStat = false ∧
      c1.stateVariables_.prevBytesRcved = decimalValue p.rx ∧
      c1.stateVariables_.prevBytesXmited = decimalValue p.tx ∧
      signalsOf effs =
        [if c.stateVariables_.bFirstCalcStat then
           Signal.statisticsUpdated (decimalValue p.rx) (decimalValue p.tx) false
         else Signal.statisticsUpdated
           (subU64 (decimalValue p.rx) c.stateVariables_.prevBytesRcved)
           (subU64 (decimalValue p.tx) c.stateVariables_.prevBytesXmited) false] := by
  unfold handleRead
  simp only [Bool.not_false, if_true, trimmed_byteCountLine p.rx p.tx hb]
  unfold handleReadChain
  rw [selectBranch_byteCountLine c p.rx p.tx ha hb]
  simp only
  unfold handleByteCount
  simp only [split_byteCountLine p.rx p.tx ha hb, List.length_cons, List.length_nil,
    List.getD_cons_succ, List.getD_cons_zero, split_samples p.rx p.tx ha hb,
    toULongLong_numeral _ ha, toULongLong_numeral _ hb]
  refine ⟨_, _, rfl, ?_⟩
  cases hf : c.stateVariables_.bFirstCalcStat <;>
    simp [signalsOf_append, signalsOf_logged, signalsOf, hf,
      (checkErrorAndContinue_no_error _ _ _).1, (checkErrorAndContinue_no_error _ _ _).2.1,
      (checkErrorAndContinue_no_error _ _ _).2.2.1, (checkErrorAndContinue_no_error _ _ _).2.2.2]

theorem run_samples (t : Tunables) (samples : List Sample) (c : Conn)
    (hs : ∀ p ∈ samples, isNumeral p.rx ∧ isNumeral p.tx) :
    signalsOf (run t c (samples.map Sample.input)).2 =
      expectedStatistics c.stateVariables_.bFirstCalcStat c.stateVariables_.prevBytesRcved
        c.stateVariables_.prevBytesXmited
        (samples.map fun p => (decimalValue p.rx, decimalValue p.tx)) := by
  induction samples generalizing c with
  | nil => rfl
  | cons p rest ih =>
    obtain ⟨ha, hb⟩ := hs p (List.mem_cons_self _ _)
    obtain ⟨c1, effs, h1, h2, h3, h4, h5⟩ := handleRead_byteCountLine c p ha hb
    have ih1 := ih c1 (fun q hq => hs q (List.mem_cons_of_mem _ hq))
    simp only [List.map_cons, run, Sample.input, step, h1, signalsOf_append, h5, ih1, h2, h3, h4,
      expectedStatistics, List.singleton_append]

theorem expectedStatistics_first (x y : Nat) (l : List (Nat × Nat)) :
    expectedStatistics true x y l = expectedStatistics true 0 0 l := by
  cases l with
  | nil => rfl
  | cons p rest => simp [expectedStatistics]

/-! ## The pending-SIGTERM gate is closed between handlers -/

theorem checkErrorAndContinue_gate (c : Conn) (we rd ff : Bool) :
    sigTermGateClosed (checkErrorAndContinue c we rd ff).1 := by
  unfold checkErrorAndContinue sigTermGateClosed setCurrentStateAndEmitDisconnected
  cases we <;> simp only [] <;> split_ifs <;> simp_all

theorem funcDisconnect_gate (c : Conn) (wf : Bool) (h : sigTermGateClosed c) :
    sigTermGateClosed (funcDisconnect c wf).1 := by
  unfold funcDisconnect
  unfold sigTermGateClosed at h ⊢
  split_ifs <;> simp_all

theorem funcRunOpenVPN_gate (c : Conn) (port : Nat) (launch stop : Nat → Bool)
    (h : sigTermGateClosed c) : sigTermGateClosed (funcRunOpenVPN c port launch stop).1 := by
  unfold funcRunOpenVPN
  unfold sigTermGateClosed at h ⊢
  simp only
  split <;> simpa [setCurrentStateAndEmitError, setCurrentStateAndEmitDisconnected] using h

theorem funcConnectToOpenVPN_gate (t : Tunables) (c : Conn) (err : Bool) (elapsed : Nat)
    (fin wf : Bool) (h : sigTermGateClosed c) :
    sigTermGateClosed (funcConnectToOpenVPN t c err elapsed fin wf).1 := by
  have hd := funcDisconnect_gate (setCurrentState c .STATUS_CONNECTED_TO_SOCKET) wf h
  unfold funcConnectToOpenVPN
  simp only []
  split_ifs
  · exact hd
  all_goals
    unfold sigTermGateClosed at h ⊢
    simpa [setCurrentState, setCurrentStateAndEmitError, setCurrentStateAndEmitDisconnected]
      using h

theorem step_gate (t : Tunables) (c c1 : Conn) (i : Input) (effs : List Effect)
    (hg : sigTermGateClosed c) (h : step t c i = some (c1, effs)) : sigTermGateClosed c1 := by
  cases i with
  | startDisconnect =>
    simp only [step, Option.some.injEq] at h
    have : c1.stateVariables_ = c.stateVariables_ := by
      have h2 : (startDisconnect t c).1.stateVariables_ = c.stateVariables_ := by
        unfold startDisconnect
        simp only []
        split_ifs <;> rfl
      rw [h] at h2
      exact h2
    unfold sigTermGateClosed at hg ⊢
    rw [this]
    exact hg
  | continueWithUsernameAndPassword u p =>
    simp only [step, Option.some.injEq, continueWithUsernameAndPassword, Prod.mk.injEq] at h
    obtain ⟨rfl, rfl⟩ := h
    exact hg
  | continueWithPassword p =>
    simp only [step, Option.some.injEq, continueWithPassword, Prod.mk.injEq] at h
    obtain ⟨rfl, rfl⟩ := h
    exact hg
  | onKillControllerTimer =>
    simp only [step, Option.some.injEq, onKillControllerTimer, Prod.mk.injEq] at h
    obtain ⟨rfl, rfl⟩ := h
    exact hg
  | killTimerStop =>
    simp only [step, Option.some.injEq, killTimerStop, Prod.mk.injEq] at h
    obtain ⟨rfl, rfl⟩ := h
    exact hg
  | funcRunOpenVPN port launch stop =>
    have hb := funcRunOpenVPN_gate c port launch stop hg
    simp only [step, Option.some.injEq] at h
    rw [h] at hb
    exact hb
  | funcConnectToOpenVPN err elapsed fin wf =>
    have hb := funcConnectToOpenVPN_gate t c err elapsed fin wf hg
    simp only [step, Option.some.injEq] at h
    rw [h] at hb
    exact hb
  | handleRead err line wf ff =>
    simp only [step] at h
    unfold handleRead at h
    cases err
    · simp only [Bool.not_false, if_true] at h
      cases hch : handleReadChain c (trimmed line) wf with
      | none => rw [hch] at h; cases h
      | some r =>
        obtain ⟨c2, effs2, we⟩ := r
        rw [hch] at h
        simp only [Option.some.injEq, Prod.mk.injEq] at h
        obtain ⟨rfl, rfl⟩ := h
        exact checkErrorAndContinue_gate c2 we true ff
    · simp [setCurrentStateAndEmitDisconnected] at h
      obtain ⟨rfl, rfl⟩ := h
      exact hg
  | funcDisconnect wf =>
    have hb := funcDisconnect_gate c wf hg
    simp only [step, Option.some.injEq] at h
    rw [h] at hb
    exact hb
  | continueWithUsernameImpl wf ff =>
    simp only [step] at h
    unfold continueWithUsernameImpl at h
    split at h
    · cases h
    · simp only [Option.some.injEq, Prod.mk.injEq] at h
      obtain ⟨rfl, rfl⟩ := h
      exact checkErrorAndContinue_gate c wf false ff
  | continueWithPasswordImpl wf ff =>
    simp only [step] at h
    unfold continueWithPasswordImpl at h
    split at h
    · cases h
    · simp only [Option.some.injEq, Prod.mk.injEq] at h
      obtain ⟨rfl, rfl⟩ := h
      exact checkErrorAndContinue_gate c wf false ff

theorem run_gate (t : Tunables) (ins : List Input) (c : Conn) (hg : sigTermGateClosed c) :
    sigTermGateClosed (run t c ins).1 := by
  induction ins generalizing c with
  | nil => exact hg
  | cons i rest ih =>
    unfold run
    cases hs : step t c i with
    | none => exact hg
    | some r =>
      obtain ⟨c1, effs⟩ := r
      exact ih c1 (step_gate t c c1 i effs hg hs)

theorem sessionState_gate (t : Tunables) (c0 : Conn) (ins : List Input) :
    sigTermGateClosed (sessionState t c0 ins) :=
  run_gate t ins _ (by simp [sigTermGateClosed, StateVariables.reset])

/-- With the gate closed and no write error, `checkErrorAndContinue` only
re-arms the read. -/
theorem checkErrorAndContinue_closed (c : Conn) (we rd ff : Bool) (hg : sigTermGateClosed c) :
    checkErrorAndContinue c we rd ff =
      (if we then setCurrentStateAndEmitDisconnected c .STATUS_DISCONNECTED
       else (c, if rd then [Effect.asyncRead] else [])) := by
  unfold checkErrorAndContinue sigTermGateClosed setCurrentStateAndEmitDisconnected at *
  cases we <;> simp only [] <;> split_ifs <;> simp_all

/-! ## The credential prompts -/

theorem sprintfMessage_fits (pre : String) (v : QString)
    (h : utf8Len (formatted pre v) < 1024) : sprintfMessage pre v = some (formatted pre v) := by
  unfold sprintfMessage
  rw [if_pos h]

theorem writesOf_logged (s : QString) :
    writesOf (logLine s) = [] := by
  unfold logLine
  split <;> rfl

/-- The `PASSWORD:Need 'Auth' username/password` arm with a stored username. -/
theorem handleRead_needAuth_username (c : Conn) (line : QString) (wf ff : Bool)
    (hg : sigTermGateClosed c) (hb : selectBranch c (trimmed line) = .needAuth)
    (hu : c.username_ ≠ []) (hfit : utf8Len (formatted "username \"Auth\" " c.username_) < 1024) :
    ∃ c1 effs, handleRead c false line wf ff = some (c1, effs) ∧
      writesOf effs = [formatted "username \"Auth\" " c.username_] ∧
      signalsOf effs = (if wf then [Signal.disconnected] else []) := by
  have hne : c.username_.isEmpty = false := by
    cases hc : c.username_ with
    | nil => exact absurd hc hu
    | cons a as => rfl
  unfold handleRead handleReadChain
  simp only [Bool.not_false, if_true, hb, hne, sprintfMessage_fits _ _ hfit,
    checkErrorAndContinue_closed _ _ _ _ hg]
  refine ⟨_, _, rfl, ?_, ?_⟩
  · cases wf <;>
      simp [writesOf_append, writesOf_logged, writesOf, setCurrentStateAndEmitDisconnected]
  · cases wf <;>
      simp [signalsOf_append, signalsOf_logged, signalsOf, setCurrentStateAndEmitDisconnected]

/-- The `PASSWORD:Need 'Auth' username/password` arm without a stored
username. -/
theorem handleRead_needAuth_request (c : Conn) (line : QString) (wf ff : Bool)
    (hg : sigTermGateClosed c) (hb : selectBranch c (trimmed line) = .needAuth)
    (hu : c.username_ = []) :
    ∃ c1 effs, handleRead c false line wf ff = some (c1, effs) ∧
      writesOf effs = [] ∧ signalsOf effs = [Signal.requestUsername] := by
  unfold handleRead handleReadChain
  simp only [Bool.not_false, if_true, hb, hu, List.isEmpty_nil, Bool.not_true,
    Bool.false_eq_true, if_false, checkErrorAndContinue_closed _ _ _ _ hg]
  refine ⟨_, _, rfl, ?_, ?_⟩
  · simp [writesOf_append, writesOf_logged, writesOf]
  · simp [signalsOf_append, signalsOf_logged, signalsOf]

/-- The `'Auth' username entered, but not yet verified` arm with a stored
password. -/
theorem handleRead_authUsernameEntered_password (c : Conn) (line : QString) (wf ff : Bool)
    (hg : sigTermGateClosed c) (hb : selectBranch c (trimmed line) = .authUsernameEntered)
    (hp : c.password_ ≠ []) (hfit : utf8Len (formatted "password \"Auth\" " c.password_) < 1024) :
    ∃ c1 effs, handleRead c false line wf ff = some (c1, effs) ∧
      writesOf effs = [formatted "password \"Auth\" " c.password_] ∧
      signalsOf effs = (if wf then [Signal.disconnected] else []) := by
  have hne : c.password_.isEmpty = false := by
    cases hc : c.password_ with
    | nil => exact absurd hc hp
    | cons a as => rfl
  unfold handleRead handleReadChain
  simp only [Bool.not_false, if_true, hb, hne, sprintfMessage_fits _ _ hfit,
    checkErrorAndContinue_closed _ _ _ _ hg]
  refine ⟨_, _, rfl, ?_, ?_⟩
  · cases wf <;>
      simp [writesOf_append, writesOf_logged, writesOf, setCurrentStateAndEmitDisconnected]
  · cases wf <;>
      simp [signalsOf_append, signalsOf_logged, signalsOf, setCurrentStateAndEmitDisconnected]

/-- The `'Auth' username entered, but not yet verified` arm without a stored
password. -/
theorem handleRead_authUsernameEntered_request (c : Conn) (line : QString) (wf ff : Bool)
    (hg : sigTermGateClosed c) (hb : selectBranch c (trimmed line) = .authUsernameEntered)
    (hp : c.password_ = []) :
    ∃ c1 effs, handleRead c false line wf ff = some (c1, effs) ∧
      writesOf effs = [] ∧ signalsOf effs = [Signal.requestPassword] := by
  unfold handleRead handleReadChain
  simp only [Bool.not_false, if_true, hb, hp, List.isEmpty_nil, Bool.not_true,
    Bool.false_eq_true, if_false, checkErrorAndContinue_closed _ _ _ _ hg]
  refine ⟨_, _, rfl, ?_, ?_⟩
  · simp [writesOf_append, writesOf_logged, writesOf]
  · simp [signalsOf_append, signalsOf_logged, signalsOf]

/-- The continuation posted by `continueWithUsernameAndPassword`. -/
theorem continueWithUsernameImpl_writes (c : Conn) (wf ff : Bool) (hg : sigTermGateClosed c)
    (hfit : utf8Len (formatted "username \"Auth\" " c.username_) < 1024) :
    ∃ c1 effs, continueWithUsernameImpl c wf ff = some (c1, effs) ∧
      writesOf effs = [formatted "username \"Auth\" " c.username_] ∧
      c1.password_ = c.password_ ∧ sigTermGateClosed c1 := by
  unfold continueWithUsernameImpl
  simp only [sprintfMessage_fits _ _ hfit, checkErrorAndContinue_closed _ _ _ _ hg]
  refine ⟨_, _, rfl, ?_, ?_, ?_⟩
  · cases wf <;> simp [writesOf, setCurrentStateAndEmitDisconnected]
  · cases wf <;> simp [setCurrentStateAndEmitDisconnected]
  · cases wf <;> simpa [sigTermGateClosed, setCurrentStateAndEmitDisconnected] using hg

/-- C5 (counterexample): a line that contains `PASSWORD:Need 'Auth'
username/password` after `HOLD:Waiting for hold release` is taken by the
first arm of the chain; with the stored username `u` the command written is
`state on all`, not `username "Auth" u`. -/
theorem C5_prompt_after_earlier_pattern :
    containsCI
        (trimmed ">HOLD:Waiting for hold release PASSWORD:Need 'Auth' username/password".toList)
        "PASSWORD:Need 'Auth' username/password" = true ∧
    ({ attachedConn with username_ := "u".toList } : Conn).username_ ≠ [] ∧
    writesOf (effectsOf (handleRead { attachedConn with username_ := "u".toList } false
        ">HOLD:Waiting for hold release PASSWORD:Need 'Auth' username/password".toList
        false false))
      = [bufferLiteral "state on all\n"] ∧
    writesOf (effectsOf (handleRead { attachedConn with username_ := "u".toList } false
        ">HOLD:Waiting for hold release PASSWORD:Need 'Auth' username/password".toList
        false false))
      ≠ ["username \"Auth\" u\n".toList] := by
  decide

/-- C5 (amended): in every state reached in a session, on a line for which the
chain takes the `PASSWORD:Need 'Auth' username/password` arm (the trimmed line
contains it and none of the patterns tested before it), a non-empty stored
username whose command fits the 1024-byte array makes the step write exactly
`username "Auth" <username up to its first NUL>\n` and emit no request (only
`disconnected` if that write fails), and an empty one makes it emit
`requestUsername` and write nothing; after
`continueWithUsernameAndPassword(u, p)` the continuation writes exactly
`username "Auth" <u>\n` when that fits, and a following line that takes the
`'Auth' username entered, but not yet verified` arm writes exactly
`password "Auth" <p>\n` when `p` is non-empty and fits, and emits
`requestPassword` and writes nothing when `p` is empty. -/
theorem C5_credential_prompts (t : Tunables) (c0 : Conn) (ins : List Input) (line : QString)
    (wf ff : Bool) (u p : QString) :
    (selectBranch (sessionState t c0 ins) (trimmed line) = .needAuth →
      (sessionState t c0 ins).username_ ≠ [] →
      utf8Len (formatted "username \"Auth\" " (sessionState t c0 ins).username_) < 1024 →
      ∃ c1 effs, handleRead (sessionState t c0 ins) false line wf ff = some (c1, effs) ∧
        writesOf effs = [formatted "username \"Auth\" " (sessionState t c0 ins).username_] ∧
        signalsOf effs = (if wf then [Signal.disconnected] else [])) ∧
    (selectBranch (sessionState t c0 ins) (trimmed line) = .needAuth →
      (sessionState t c0 ins).username_ = [] →
      ∃ c1 effs, handleRead (sessionState t c0 ins) false line wf ff = some (c1, effs) ∧
        writesOf effs = [] ∧ signalsOf effs = [Signal.requestUsername]) ∧
    (utf8Len (formatted "username \"Auth\" " u) < 1024 →
      ∃ c1 effs,
        continueWithUsernameImpl
          (continueWithUsernameAndPassword (sessionState t c0 ins) u p).1 wf ff
          = some (c1, effs) ∧
        writesOf effs = [formatted "username \"Auth\" " u] ∧
        ∀ (line2 : QString) (wf2 ff2 : Bool),
          selectBranch c1 (trimmed line2) = .authUsernameEntered →
          (p ≠ [] → utf8Len (formatted "password \"Auth\" " p) < 1024 →
            ∃ c2 effs2, handleRead c1 false line2 wf2 ff2 = some (c2, effs2) ∧
              writesOf effs2 = [formatted "password \"Auth\" " p] ∧
              signalsOf effs2 = (if wf2 then [Signal.disconnected] else [])) ∧
          (p = [] →
            ∃ c2 effs2, handleRead c1 false line2 wf2 ff2 = some (c2, effs2) ∧
              writesOf effs2 = [] ∧ signalsOf effs2 = [Signal.requestPassword])) := by
  have hg := sessionState_gate t c0 ins
  refine ⟨fun hb hu hfit => handleRead_needAuth_username _ line wf ff hg hb hu hfit,
    fun hb hu => handleRead_needAuth_request _ line wf ff hg hb hu, fun hfit => ?_⟩
  have hg2 : sigTermGateClosed
      (continueWithUsernameAndPassword (sessionState t c0 ins) u p).1 := hg
  obtain ⟨c1, effs, h1, h2, h3, h4⟩ :=
    continueWithUsernameImpl_writes
      (continueWithUsernameAndPassword (sessionState t c0 ins) u p).1 wf ff hg2 hfit
  have h3 : c1.password_ = p := h3
  refine ⟨c1, effs, h1, h2, fun line2 wf2 ff2 hb => ⟨fun hp hfitp => ?_, fun hp => ?_⟩⟩
  · have := handleRead_authUsernameEntered_password c1 line2 wf2 ff2 h4 hb (h3 ▸ hp)
      (h3 ▸ hfitp)
    rw [h3] at this
    exact this
  · exact handleRead_authUsernameEntered_request c1 line2 wf2 ff2 h4 hb (h3.trans hp)

/-- C5 (witness): scenario S3. With a stored username `bob` the prompt is
answered with `username "Auth" bob`; with none it raises `requestUsername`;
after `continueWithUsernameAndPassword("u", "p")` the continuation writes
`username "Auth" u` and the line `'Auth' username entered, but not yet
verified` is answered with `password "Auth" p`. -/
theorem C5_credential_prompts_witness :
    (∃ c1 effs,
      handleRead
        (sessionState exampleTunables { attachedConn with username_ := "bob".toList } [])
        false ">PASSWORD:Need 'Auth' username/password".toList false false = some (c1, effs) ∧
      writesOf effs = ["username \"Auth\" bob\n".toList] ∧ signalsOf effs = []) ∧
    (∃ c1 effs,
      handleRead (sessionState exampleTunables attachedConn [])
        false ">PASSWORD:Need 'Auth' username/password".toList false false = some (c1, effs) ∧
      writesOf effs = [] ∧ signalsOf effs = [Signal.requestUsername]) ∧
    (∃ c1 effs c2 effs2,
      continueWithUsernameImpl
        (continueWithUsernameAndPassword (sessionState exampleTunables attachedConn [])
          "u".toList "p".toList).1 false false = some (c1, effs) ∧
      writesOf effs = ["username \"Auth\" u\n".toList] ∧
      handleRead c1 false "SUCCESS: 'Auth' username entered, but not yet verified".toList
        false false = some (c2, effs2) ∧
      writesOf effs2 = ["password \"Auth\" p\n".toList] ∧ signalsOf effs2 = []) := by
  refine ⟨?_, ?_, ?_⟩
  · exact (C5_credential_prompts exampleTunables
      { attachedConn with username_ := "bob".toList } []
      ">PASSWORD:Need 'Auth' username/password".toList false false [] []).1
      (by decide) (by decide) (by decide)
  · exact (C5_credential_prompts exampleTunables attachedConn []
      ">PASSWORD:Need 'Auth' username/password".toList false false [] []).2.1
      (by decide) (by decide)
  · obtain ⟨c1, effs, h1, h2, h3⟩ :=
      (C5_credential_prompts exampleTunables attachedConn []
        ">PASSWORD:Need 'Auth' username/password".toList false false
        "u".toList "p".toList).2.2 (by decide)
    have hc : continueWithUsernameImpl
        (continueWithUsernameAndPassword (sessionState exampleTunables attachedConn [])
          "u".toList "p".toList).1 false false
        = some ({ attachedConn with username_ := "u".toList, password_ := "p".toList },
            [Effect.write "username \"Auth\" u\n".toList false]) := by
      decide
    rw [hc] at h1
    simp only [Option.some.injEq, Prod.mk.injEq] at h1
    obtain ⟨hc1, hc2⟩ := h1
    subst hc1
    subst hc2
    obtain ⟨c2, effs2, h4, h5, h6⟩ :=
      (h3 "SUCCESS: 'Auth' username entered, but not yet verified".toList false false
        (by decide)).1 (by decide) (by decide)
    exact ⟨_, _, c2, effs2, hc, by decide, h4, h5.trans (by decide), h6.trans (by decide)⟩


/-! ## The bytes of the commands -/

/-- C6 (the code at the failing inputs): the five fixed commands are written
as the text of the literal, its line feed and one more byte, the NUL that ends
the literal; the byte sequence does not end with the line feed. -/
theorem C6_fixed_commands_end_with_NUL :
    writesOf (run exampleTunables attachedConn
        (readLines [">HOLD:Waiting for hold release",
            "SUCCESS: real-time state notification set to ON", "END",
            "SUCCESS: real-time log notification set to ON",
            "SUCCESS: bytecount interval changed"]
          ++ [Input.funcDisconnect false])).2
      = ["state on all\n\x00".toList, "log on\n\x00".toList, "bytecount 1\n\x00".toList,
         "hold release\n\x00".toList, "signal SIGTERM\n\x00".toList] ∧
    (bufferLiteral "state on all\n").length = "state on all\n".length + 1 ∧
    (bufferLiteral "state on all\n").getLast? = some NUL ∧
    bufferLiteral "state on all\n" ≠ "state on all\n".toList := by
  decide

/-! ## Credential values are written unquoted -/

theorem cStr_of_no_NUL (v : QString) (h : NUL ∉ v) : cStr v = v := by
  unfold cStr
  rw [List.takeWhile_eq_self_iff]
  intro x hx
  simp only [bne_iff_ne, ne_eq]
  intro hc
  exact h (hc ▸ hx)

/-- C7 (counterexample): the username `u`, which contains neither a quote nor
a line feed, is written as `username "Auth" u`: the text `"u"` in double
quotes does not occur in the command. -/
theorem C7_value_written_without_quotes :
    '"' ∉ "u".toList ∧ '\n' ∉ "u".toList ∧
    writesOf (effectsOf (handleRead { attachedConn with username_ := "u".toList } false
        ">PASSWORD:Need 'Auth' username/password".toList false false))
      = ["username \"Auth\" u\n".toList] ∧
    containsCS "username \"Auth\" u\n".toList "\"u\"".toList = false := by
  decide

theorem sprintfMessage_of_no_NUL (pre : String) (v : QString) (h0 : NUL ∉ v)
    (hfit : utf8Len (pre.toList ++ v ++ ['\n']) < 1024) :
    sprintfMessage pre v = some (pre.toList ++ v ++ ['\n']) := by
  have hf : formatted pre v = pre.toList ++ v ++ ['\n'] := by
    unfold formatted
    rw [cStr_of_no_NUL v h0]
  rw [sprintfMessage_fits pre v (hf ▸ hfit), hf]

theorem isEmpty_eq_false_of_ne_nil (v : QString) (h : v ≠ []) : v.isEmpty = false := by
  cases v with
  | nil => exact absurd rfl h
  | cons a as => rfl

/-- C7 (amended): for every credential value `v` that contains no NUL and
whose command fits the 1024-byte array, at each of the six places that write a
credential (the four prompt arms of `handleRead` and the two continuations)
the command written is the keyword, the realm in double quotes, a space, the
characters of `v` copied as they are, not enclosed in quotes, and a line
feed. -/
theorem C7_credential_values_unquoted (c : Conn) (s : QString) (wf ff : Bool) (v : QString)
    (h0 : NUL ∉ v) :
    (selectBranch c s = .needAuth → c.username_ = v → v ≠ [] →
      utf8Len ("username \"Auth\" ".toList ++ v ++ ['\n']) < 1024 →
      handleReadChain c s wf
        = some (c, [.write ("username \"Auth\" ".toList ++ v ++ ['\n']) wf], wf)) ∧
    (selectBranch c s = .authUsernameEntered → c.password_ = v → v ≠ [] →
      utf8Len ("password \"Auth\" ".toList ++ v ++ ['\n']) < 1024 →
      handleReadChain c s wf
        = some (c, [.write ("password \"Auth\" ".toList ++ v ++ ['\n']) wf], wf)) ∧
    (selectBranch c s = .needHttpProxy → c.proxySettings_.getUsername = v →
      utf8Len ("username \"HTTP Proxy\" ".toList ++ v ++ ['\n']) < 1024 →
      handleReadChain c s wf
        = some (c, [.write ("username \"HTTP Proxy\" ".toList ++ v ++ ['\n']) wf], wf)) ∧
    (selectBranch c s = .httpProxyUsernameEntered → c.proxySettings_.getPassword = v →
      utf8Len ("password \"HTTP Proxy\" ".toList ++ v ++ ['\n']) < 1024 →
      handleReadChain c s wf
        = some (c, [.write ("password \"HTTP Proxy\" ".toList ++ v ++ ['\n']) wf], wf)) ∧
    (c.username_ = v → utf8Len ("username \"Auth\" ".toList ++ v ++ ['\n']) < 1024 →
      continueWithUsernameImpl c wf ff
        = some ((checkErrorAndContinue c wf false ff).1,
            .write ("username \"Auth\" ".toList ++ v ++ ['\n']) wf
              :: (checkErrorAndContinue c wf false ff).2)) ∧
    (c.password_ = v → utf8Len ("password \"Auth\" ".toList ++ v ++ ['\n']) < 1024 →
      continueWithPasswordImpl c wf ff
        = some ((checkErrorAndContinue c wf false ff).1,
            .write ("password \"Auth\" ".toList ++ v ++ ['\n']) wf
              :: (checkErrorAndContinue c wf false ff).2)) := by
  refine ⟨?_, ?_, ?_, ?_, ?_, ?_⟩
  · intro hb hv hne hfit
    unfold handleReadChain
    simp only [hb, hv, isEmpty_eq_false_of_ne_nil v hne, Bool.not_false, if_true,
      sprintfMessage_of_no_NUL _ v h0 hfit]
  · intro hb hv hne hfit
    unfold handleReadChain
    simp only [hb, hv, isEmpty_eq_false_of_ne_nil v hne, Bool.not_false, if_true,
      sprintfMessage_of_no_NUL _ v h0 hfit]
  · intro hb hv hfit
    unfold handleReadChain
    simp only [hb, hv, sprintfMessage_of_no_NUL _ v h0 hfit]
  · intro hb hv hfit
    unfold handleReadChain
    simp only [hb, hv, sprintfMessage_of_no_NUL _ v h0 hfit]
  · intro hv hfit
    unfold continueWithUsernameImpl
    simp only [hv, sprintfMessage_of_no_NUL _ v h0 hfit]
  · intro hv hfit
    unfold continueWithPasswordImpl
    simp only [hv, sprintfMessage_of_no_NUL _ v h0 hfit]

/-- C7 (witness): the four credentials `alice`, `s3cret`, `proxyuser`,
`proxypass` at the four prompts and the two continuations. -/
theorem C7_credential_values_unquoted_witness :
    handleReadChain
        { attachedConn with
            username_ := "alice".toList, password_ := "s3cret".toList
            proxySettings_ := ⟨"proxyuser".toList, "proxypass".toList⟩ }
        ">PASSWORD:Need 'Auth' username/password".toList false
      = some ({ attachedConn with
            username_ := "alice".toList, password_ := "s3cret".toList
            proxySettings_ := ⟨"proxyuser".toList, "proxypass".toList⟩ },
          [.write "username \"Auth\" alice\n".toList false], false) ∧
    handleReadChain
        { attachedConn with
            username_ := "alice".toList, password_ := "s3cret".toList
            proxySettings_ := ⟨"proxyuser".toList, "proxypass".toList⟩ }
        "SUCCESS: 'Auth' username entered, but not yet verified".toList false
      = some ({ attachedConn with
            username_ := "alice".toList, password_ := "s3cret".toList
            proxySettings_ := ⟨"proxyuser".toList, "proxypass".toList⟩ },
          [.write "password \"Auth\" s3cret\n".toList false], false) ∧
    handleReadChain
        { attachedConn with
            username_ := "alice".toList, password_ := "s3cret".toList
            proxySettings_ := ⟨"proxyuser".toList, "proxypass".toList⟩ }
        ">PASSWORD:Need 'HTTP Proxy' username/password".toList false
      = some ({ attachedConn with
            username_ := "alice".toList, password_ := "s3cret".toList
            proxySettings_ := ⟨"proxyuser".toList, "proxypass".toList⟩ },
          [.write "username \"HTTP Proxy\" proxyuser\n".toList false], false) ∧
    handleReadChain
        { attachedConn with
            username_ := "alice".toList, password_ := "s3cret".toList
            proxySettings_ := ⟨"proxyuser".toList, "proxypass".toList⟩ }
        "SUCCESS: 'HTTP Proxy' username entered, but not yet verified".toList false
      = some ({ attachedConn with
            username_ := "alice".toList, password_ := "s3cret".toList
            proxySettings_ := ⟨"proxyuser".toList, "proxypass".toList⟩ },
          [.write "password \"HTTP Proxy\" proxypass\n".toList false], false) ∧
    continueWithUsernameImpl
        { attachedConn with username_ := "alice".toList, password_ := "s3cret".toList }
        false false
      = some ({ attachedConn with username_ := "alice".toList, password_ := "s3cret".toList },
          [.write "username \"Auth\" alice\n".toList false]) ∧
    continueWithPasswordImpl
        { attachedConn with username_ := "alice".toList, password_ := "s3cret".toList }
        false false
      = some ({ attachedConn with username_ := "alice".toList, password_ := "s3cret".toList },
          [.write "password \"Auth\" s3cret\n".toList false]) := by
  refine ⟨?_, ?_, ?_, ?_, ?_, ?_⟩
  · exact (C7_credential_values_unquoted _ _ false false "alice".toList (by decide)).1
      (by decide) rfl (by decide) (by decide)
  · exact (C7_credential_values_unquoted _ _ false false "s3cret".toList (by decide)).2.1
      (by decide) rfl (by decide) (by decide)
  · exact (C7_credential_values_unquoted _ _ false false "proxyuser".toList
      (by decide)).2.2.1 (by decide) rfl (by decide)
  · exact (C7_credential_values_unquoted _ _ false false "proxypass".toList
      (by decide)).2.2.2.1 (by decide) rfl (by decide)
  · exact ((C7_credential_values_unquoted _ [] false false "alice".toList
      (by decide)).2.2.2.2.1 rfl (by decide)).trans (by decide)
  · exact ((C7_credential_values_unquoted _ [] false false "s3cret".toList
      (by decide)).2.2.2.2.2 rfl (by decide)).trans (by decide)


/-! ## Classification of `>LOG:` lines -/

theorem handleLog_signals (c : Conn) (s : QString) :
    signalsOf (handleLog c s).2 =
      match firstMatchingKind s with
      | some k => [Signal.error k]
      | none => [] := by
  unfold handleLog firstMatchingKind logErrorTable rowMatches
  simp only [List.find?, List.all_cons, List.all_nil, Bool.and_true]
  cases containsCI s "UDP" <;>
  cases containsCI s "No buffer space available (WSAENOBUFS) (code=10055)" <;>
  cases containsCI s "No Route to Host (WSAEHOSTUNREACH) (code=10065)" <;>
  cases containsCI s "Can't assign requested address (code=49)" <;>
  cases containsCI s "No buffer space available (code=55)" <;>
  cases containsCI s "Network is down (code=50)" <;>
  cases containsCI s "TCP" <;>
  cases containsCI s "failed" <;>
  cases containsCI s "Initialization Sequence Completed With Errors" <;>
  simp [signalsOf] <;> split_ifs <;> simp [signalsOf]

/-- C8 (counterexample): a `>LOG:` line that contains `TCP` and `failed`, the
substrings of the `TcpError` row, and also `UDP` and `Network is down
(code=50)`: the single error emitted is `UDP_NETWORK_DOWN`, not the kind of
the `TcpError` row. -/
theorem C8_line_matching_two_rows :
    startsWithCI
      (trimmed ">LOG:1700000000,N,TCP/UDP: connect failed: Network is down (code=50)".toList)
      ">LOG:" = true ∧
    ((["TCP", "failed"], CONNECTION_ERROR.TCP_ERROR) ∈ logErrorTable) ∧
    rowMatches
      (trimmed ">LOG:1700000000,N,TCP/UDP: connect failed: Network is down (code=50)".toList)
      (["TCP", "failed"], CONNECTION_ERROR.TCP_ERROR) = true ∧
    signalsOf (effectsOf (handleRead attachedConn false
        ">LOG:1700000000,N,TCP/UDP: connect failed: Network is down (code=50)".toList
        false false))
      = [Signal.error .UDP_NETWORK_DOWN] ∧
    signalsOf (effectsOf (handleRead attachedConn false
        ">LOG:1700000000,N,TCP/UDP: connect failed: Network is down (code=50)".toList
        false false))
      ≠ [Signal.error .TCP_ERROR] := by
  decide

/-- C8 (amended): for every line for which the chain takes the `>LOG:` arm
(the trimmed line starts with `>LOG:` and contains none of the patterns tested
before that arm) and that contains all substrings of some row of the error
table, handling the line emits exactly one signal, an error, and its kind is
that of the first row, in table order, that the line matches. -/
theorem C8_log_line_error_kind (c : Conn) (line : QString) (wf ff : Bool)
    (row : List String × CONNECTION_ERROR)
    (hb : selectBranch c (trimmed line) = .log) (hrow : row ∈ logErrorTable)
    (hm : rowMatches (trimmed line) row = true) :
    ∃ c1 effs k, handleRead c false line wf ff = some (c1, effs) ∧
      signalsOf effs = [Signal.error k] ∧ firstMatchingKind (trimmed line) = some k := by
  have hsome : (logErrorTable.find? (rowMatches (trimmed line))).isSome = true :=
    List.find?_isSome.mpr ⟨row, hrow, hm⟩
  obtain ⟨r, hr⟩ := Option.isSome_iff_exists.mp hsome
  have hk : firstMatchingKind (trimmed line) = some r.2 := by
    unfold firstMatchingKind
    rw [hr]
    rfl
  have hs := handleLog_signals c (trimmed line)
  rw [hk] at hs
  unfold handleRead handleReadChain
  simp only [Bool.not_false, if_true, hb]
  exact ⟨_, _, r.2, rfl, by
    simp [signalsOf_append, signalsOf_logged, hs,
      (checkErrorAndContinue_no_error _ _ _).2.2.2], hk⟩

/-- C8 (witness): the `UDP` + `No buffer space available (code=55)` row at a
line that matches only this row. -/
theorem C8_log_line_error_kind_witness :
    selectBranch attachedConn
      (trimmed ">LOG:1700000000,N,write UDP: No buffer space available (code=55)".toList)
      = .log ∧
    ((["UDP", "No buffer space available (code=55)"], CONNECTION_ERROR.UDP_NO_BUFFER_SPACE)
      ∈ logErrorTable) ∧
    rowMatches
      (trimmed ">LOG:1700000000,N,write UDP: No buffer space available (code=55)".toList)
      (["UDP", "No buffer space available (code=55)"], CONNECTION_ERROR.UDP_NO_BUFFER_SPACE)
      = true ∧
    firstMatchingKind
      (trimmed ">LOG:1700000000,N,write UDP: No buffer space available (code=55)".toList)
      = some .UDP_NO_BUFFER_SPACE ∧
    ∃ c1 effs k, handleRead attachedConn false
        ">LOG:1700000000,N,write UDP: No buffer space available (code=55)".toList false false
        = some (c1, effs) ∧
      signalsOf effs = [Signal.error k] ∧
      firstMatchingKind
        (trimmed ">LOG:1700000000,N,write UDP: No buffer space available (code=55)".toList)
        = some k :=
  ⟨by decide, by decide, by decide, by decide,
   C8_log_line_error_kind attachedConn
     ">LOG:1700000000,N,write UDP: No buffer space available (code=55)".toList false false
     (["UDP", "No buffer space available (code=55)"], CONNECTION_ERROR.UDP_NO_BUFFER_SPACE)
     (by decide) (by decide) (by decide)⟩


/-! ## `startDisconnect` -/

/-- C9: when the state is `STATUS_DISCONNECTED`, `startDisconnect` emits
`disconnected` and changes nothing (no timer, no post, same flags and state);
otherwise it emits no signal, leaves the kill timer armed, having started it
with `KILL_TIMEOUT` unless it was already running, sets `bStopThread_`, posts
exactly one `funcDisconnect` and changes nothing else. -/
theorem C9_startDisconnect (t : Tunables) (c : Conn) :
    (c.currentState_ = .STATUS_DISCONNECTED →
      startDisconnect t c = (c, [.emit .disconnected])) ∧
    (c.currentState_ ≠ .STATUS_DISCONNECTED →
      signalsOf (startDisconnect t c).2 = [] ∧
      (startDisconnect t c).1
        = { c with killControllerTimerActive := true, bStopThread_ := true } ∧
      (startDisconnect t c).2
        = (if c.killControllerTimerActive then [] else [.timerStart t.KILL_TIMEOUT])
          ++ [.post .funcDisconnect]) := by
  constructor
  · intro h
    simp [startDisconnect, isDisconnected, h]
  · intro h
    unfold startDisconnect isDisconnected
    simp only [h, decide_False, Bool.false_eq_true, if_false]
    cases hk : c.killControllerTimerActive <;> simp [signalsOf, hk]

/-- C9 (witness): the call on the fresh object, which is disconnected, and on
the attached object, whose kill timer is not running. -/
theorem C9_startDisconnect_witness :
    Conn.init.currentState_ = .STATUS_DISCONNECTED ∧
    startDisconnect exampleTunables Conn.init = (Conn.init, [.emit .disconnected]) ∧
    attachedConn.currentState_ ≠ .STATUS_DISCONNECTED ∧
    (startDisconnect exampleTunables attachedConn).2
      = [.timerStart 5000, .post .funcDisconnect] :=
  ⟨by decide, (C9_startDisconnect exampleTunables Conn.init).1 (by decide), by decide,
   ((C9_startDisconnect exampleTunables attachedConn).2 (by decide)).2.2⟩

/-- C10 (counterexample): after `startDisconnect` has been called and the kill
timer has expired, the session being still attached, a further call starts the
timer again. -/
theorem C10_further_call_rearms_expired_timer :
    (run exampleTunables startedConn killTimerExpired).1.currentState_
      = .STATUS_CONNECTED_TO_SOCKET ∧
    (run exampleTunables startedConn killTimerExpired).1.killControllerTimerActive = false ∧
    (startDisconnect exampleTunables (run exampleTunables startedConn killTimerExpired).1).2
      = [.timerStart 5000, .post .funcDisconnect] := by
  simp [run, step, killTimerExpired, startedConn, startConnect, Conn.init, funcRunOpenVPN,
    launchLoop, funcConnectToOpenVPN, setCurrentState, funcDisconnect, startDisconnect,
    isDisconnected, onKillControllerTimer, StateVariables.reset, exampleTunables]

/-- C10 (amended): in every state of a session in which the kill timer is
running, a further `startDisconnect` does not start it (no `timerStart` among
its effects) and leaves it running; and whatever calls of `startDisconnect`
and runs of `funcDisconnect` a session contains, `signal SIGTERM` is written
at most once in it, and a `funcDisconnect` run when it has been sent writes
nothing. -/
theorem C10_repeated_startDisconnect (t : Tunables) (c0 : Conn) (ins more : List Input)
    (wf : Bool) :
    ((sessionState t c0 ins).killControllerTimerActive = true →
      (∀ ms, Effect.timerStart ms ∉ (startDisconnect t (sessionState t c0 ins)).2) ∧
      (startDisconnect t (sessionState t c0 ins)).1.killControllerTimerActive = true) ∧
    sigTermWrites (run t { c0 with stateVariables_ := StateVariables.reset }
      (ins ++ Input.startDisconnect :: Input.funcDisconnect wf :: more)).2 ≤ 1 ∧
    ((sessionState t c0 ins).stateVariables_.bSigTermSent = true →
      (funcDisconnect (startDisconnect t (sessionState t c0 ins)).1 wf).2 = []) := by
  refine ⟨fun hk => ?_, ?_, fun hs => ?_⟩
  · unfold startDisconnect
    simp only [hk, Bool.not_true, Bool.false_eq_true, if_false]
    split_ifs <;> simp [hk]
  · have h := run_budget t (ins ++ Input.startDisconnect :: Input.funcDisconnect wf :: more)
      { c0 with stateVariables_ := StateVariables.reset }
    have hb : sigTermBudget { c0 with stateVariables_ := StateVariables.reset } = 1 := rfl
    omega
  · have h2 : (startDisconnect t (sessionState t c0 ins)).1.stateVariables_
        = (sessionState t c0 ins).stateVariables_ := by
      unfold startDisconnect
      simp only []
      split_ifs <;> rfl
    unfold funcDisconnect
    simp [h2, hs]

/-- C10 (witness): in the attached session a first `startDisconnect` arms the
timer; the further call does not start it again. -/
theorem C10_repeated_startDisconnect_witness :
    (sessionState exampleTunables attachedConn [Input.startDisconnect]
      ).killControllerTimerActive = true ∧
    (startDisconnect exampleTunables
      (sessionState exampleTunables attachedConn [Input.startDisconnect])).2
      = [.post .funcDisconnect] ∧
    ((∀ ms, Effect.timerStart ms ∉ (startDisconnect exampleTunables
        (sessionState exampleTunables attachedConn [Input.startDisconnect])).2) ∧
      (startDisconnect exampleTunables
        (sessionState exampleTunables attachedConn [Input.startDisconnect])
        ).1.killControllerTimerActive = true) :=
  ⟨by decide, by decide,
   (C10_repeated_startDisconnect exampleTunables attachedConn [Input.startDisconnect] []
      false).1 (by decide)⟩


/-! ## The kill timer -/

theorem handleReadChain_frame (c c1 : Conn) (s : QString) (wf we : Bool) (effs : List Effect)
    (h : handleReadChain c s wf = some (c1, effs, we)) :
    c1.killControllerTimerActive = c.killControllerTimerActive ∧
    c1.bStopThread_ = c.bStopThread_ ∧ c1.username_ = c.username_ ∧
    c1.password_ = c.password_ ∧ c1.proxySettings_ = c.proxySettings_ ∧
    stopQueuedCount effs = 0 := by
  have hbc : (handleByteCount c s).1.killControllerTimerActive = c.killControllerTimerActive ∧
      (handleByteCount c s).1.bStopThread_ = c.bStopThread_ ∧
      (handleByteCount c s).1.username_ = c.username_ ∧
      (handleByteCount c s).1.password_ = c.password_ ∧
      (handleByteCount c s).1.proxySettings_ = c.proxySettings_ ∧
      stopQueuedCount (handleByteCount c s).2 = 0 := by
    unfold handleByteCount
    simp only
    split_ifs <;> simp [stopQueuedCount]
  have hst : (handleState c s).1.killControllerTimerActive = c.killControllerTimerActive ∧
      (handleState c s).1.bStopThread_ = c.bStopThread_ ∧
      (handleState c s).1.username_ = c.username_ ∧
      (handleState c s).1.password_ = c.password_ ∧
      (handleState c s).1.proxySettings_ = c.proxySettings_ ∧
      stopQueuedCount (handleState c s).2 = 0 := by
    unfold handleState setCurrentState
    split_ifs <;> simp [stopQueuedCount]
  have hlg : (handleLog c s).1.killControllerTimerActive = c.killControllerTimerActive ∧
      (handleLog c s).1.bStopThread_ = c.bStopThread_ ∧
      (handleLog c s).1.username_ = c.username_ ∧
      (handleLog c s).1.password_ = c.password_ ∧
      (handleLog c s).1.proxySettings_ = c.proxySettings_ ∧
      stopQueuedCount (handleLog c s).2 = 0 := by
    unfold handleLog
    simp only
    split_ifs <;> simp [stopQueuedCount]
  unfold handleReadChain at h
  cases hb : selectBranch c s <;> rw [hb] at h <;> simp only at h
  all_goals (repeat' split at h)
  all_goals (try cases h)
  all_goals (try simp_all [stopQueuedCount])

theorem handleReadChain_no_disconnected (c c1 : Conn) (s : QString) (wf we : Bool)
    (effs : List Effect) (h : handleReadChain c s wf = some (c1, effs, we)) :
    disconnectedCount effs = 0 := by
  have hbc := (handleByteCount_terminal c s).2.1
  have hlg := (handleLog_terminal c s).2.1
  have hst : disconnectedCount (handleState c s).2 = 0 := by
    unfold handleState setCurrentState
    split_ifs <;> simp [disconnectedCount, signalsOf]
  unfold handleReadChain at h
  cases hb : selectBranch c s <;> rw [hb] at h <;> simp only at h
  all_goals (repeat' split at h)
  all_goals (try cases h)
  all_goals (try simp_all [disconnectedCount, signalsOf])

theorem stopQueuedCount_append (a b : List Effect) :
    stopQueuedCount (a ++ b) = stopQueuedCount a + stopQueuedCount b := by
  simp [stopQueuedCount]

theorem checkErrorAndContinue_frame (c : Conn) (we rd ff : Bool) :
    (checkErrorAndContinue c we rd ff).1.killControllerTimerActive
      = c.killControllerTimerActive ∧
    stopQueuedCount (checkErrorAndContinue c we rd ff).2
      = disconnectedCount (checkErrorAndContinue c we rd ff).2 := by
  unfold checkErrorAndContinue setCurrentStateAndEmitDisconnected
  cases we <;> cases rd <;> simp only [] <;> split_ifs <;>
    simp [stopQueuedCount, disconnectedCount, signalsOf, signalsOf_append]

theorem funcDisconnect_frame (c : Conn) (wf : Bool) :
    (funcDisconnect c wf).1.killControllerTimerActive = c.killControllerTimerActive ∧
    (funcDisconnect c wf).1.currentState_ = c.currentState_ ∧
    stopQueuedCount (funcDisconnect c wf).2 = 0 ∧ signalsOf (funcDisconnect c wf).2 = [] := by
  unfold funcDisconnect
  split_ifs <;> simp [stopQueuedCount, signalsOf]

theorem launchLoop_stopQueued (port : Nat) (launch stop : Nat → Bool) (retries : Nat) :
    stopQueuedCount (launchLoop port launch stop retries).2 = 0 := by
  generalize hn : 3 - retries = n
  induction n generalizing retries with
  | zero =>
    unfold launchLoop
    have : retries ≥ 2 := by omega
    split_ifs <;> simp_all [stopQueuedCount]
  | succ n ih =>
    unfold launchLoop
    split_ifs <;> simp [stopQueuedCount]
    exact ih (retries + 1) (by omega)

theorem funcRunOpenVPN_frame (c : Conn) (port : Nat) (launch stop : Nat → Bool) :
    (funcRunOpenVPN c port launch stop).1.killControllerTimerActive
      = c.killControllerTimerActive ∧
    stopQueuedCount (funcRunOpenVPN c port launch stop).2
      = disconnectedCount (funcRunOpenVPN c port launch stop).2 := by
  have hs := launchLoop_signals port launch stop 0
  have hq : List.count Effect.timerStopQueued (launchLoop port launch stop 0).2 = 0 :=
    launchLoop_stopQueued port launch stop 0
  unfold funcRunOpenVPN
  simp only
  split <;>
    simp [stopQueuedCount_append, disconnectedCount, signalsOf_append, hs, hq, signalsOf,
      setCurrentStateAndEmitError, setCurrentStateAndEmitDisconnected, stopQueuedCount]

theorem funcConnectToOpenVPN_frame (t : Tunables) (c : Conn) (err : Bool) (elapsed : Nat)
    (fin wf : Bool) :
    (funcConnectToOpenVPN t c err elapsed fin wf).1.killControllerTimerActive
      = c.killControllerTimerActive ∧
    stopQueuedCount (funcConnectToOpenVPN t c err elapsed fin wf).2
      = disconnectedCount (funcConnectToOpenVPN t c err elapsed fin wf).2 := by
  obtain ⟨h1, _, h3, h4⟩ := funcDisconnect_frame (setCurrentState c .STATUS_CONNECTED_TO_SOCKET) wf
  have h5 : (setCurrentState c .STATUS_CONNECTED_TO_SOCKET).killControllerTimerActive
      = c.killControllerTimerActive := rfl
  have h3 : List.count Effect.timerStopQueued
      (funcDisconnect (setCurrentState c .STATUS_CONNECTED_TO_SOCKET) wf).2 = 0 := h3
  unfold funcConnectToOpenVPN
  simp only []
  split_ifs
  · simp [stopQueuedCount_append, disconnectedCount, signalsOf_append, h1, h3, h4, h5,
      signalsOf, stopQueuedCount]
  all_goals
    simp [disconnectedCount, signalsOf, setCurrentState, stopQueuedCount,
      setCurrentStateAndEmitError, setCurrentStateAndEmitDisconnected]

/-- The timer flag after an input: `startDisconnect` arms it unless the object
is disconnected, the expiry and the delivery of a queued stop disarm it, and
no other input touches it. In a state other than `STATUS_DISCONNECTED` every
`disconnected` of the step comes with a queued stop of the timer. -/
theorem step_timer (t : Tunables) (c c1 : Conn) (i : Input) (effs : List Effect)
    (h : step t c i = some (c1, effs)) :
    (c1.killControllerTimerActive = true →
      c.killControllerTimerActive = true ∨ i = Input.startDisconnect) ∧
    (c.killControllerTimerActive = true → ¬ i.disarmsTimer →
      c1.killControllerTimerActive = true) ∧
    (c.currentState_ ≠ .STATUS_DISCONNECTED →
      stopQueuedCount effs = disconnectedCount effs) := by
  cases i with
  | startDisconnect =>
    simp only [step, Option.some.injEq] at h
    have h1 : c.killControllerTimerActive = true →
        (startDisconnect t c).1.killControllerTimerActive = true := by
      intro hk
      unfold startDisconnect
      simp only []
      split_ifs <;> simp [hk]
    have h2 : c.currentState_ ≠ .STATUS_DISCONNECTED →
        stopQueuedCount (startDisconnect t c).2 = disconnectedCount (startDisconnect t c).2 := by
      intro hc
      unfold startDisconnect isDisconnected
      simp only [hc, decide_False, Bool.false_eq_true, if_false]
      split_ifs <;> simp [stopQueuedCount, disconnectedCount, signalsOf, signalsOf_append]
    rw [h] at h1 h2
    exact ⟨fun _ => Or.inr rfl, fun hk _ => h1 hk, h2⟩
  | continueWithUsernameAndPassword u p =>
    simp only [step, Option.some.injEq, continueWithUsernameAndPassword, Prod.mk.injEq] at h
    obtain ⟨rfl, rfl⟩ := h
    exact ⟨fun hk => Or.inl hk, fun hk _ => hk,
      fun _ => by simp [stopQueuedCount, disconnectedCount, signalsOf]⟩
  | continueWithPassword p =>
    simp only [step, Option.some.injEq, continueWithPassword, Prod.mk.injEq] at h
    obtain ⟨rfl, rfl⟩ := h
    exact ⟨fun hk => Or.inl hk, fun hk _ => hk,
      fun _ => by simp [stopQueuedCount, disconnectedCount, signalsOf]⟩
  | onKillControllerTimer =>
    simp only [step, Option.some.injEq, onKillControllerTimer, Prod.mk.injEq] at h
    obtain ⟨rfl, rfl⟩ := h
    simp [stopQueuedCount, disconnectedCount, signalsOf, Input.disarmsTimer]
  | killTimerStop =>
    simp only [step, Option.some.injEq, killTimerStop, Prod.mk.injEq] at h
    obtain ⟨rfl, rfl⟩ := h
    simp [stopQueuedCount, disconnectedCount, signalsOf, Input.disarmsTimer]
  | funcRunOpenVPN port launch stop =>
    obtain ⟨h1, h2⟩ := funcRunOpenVPN_frame c port launch stop
    simp only [step, Option.some.injEq] at h
    rw [h] at h1 h2
    simp only at h1 h2
    exact ⟨fun hk => Or.inl (h1 ▸ hk), fun hk _ => h1 ▸ hk, fun _ => h2⟩
  | funcConnectToOpenVPN err elapsed fin wf =>
    obtain ⟨h1, h2⟩ := funcConnectToOpenVPN_frame t c err elapsed fin wf
    simp only [step, Option.some.injEq] at h
    rw [h] at h1 h2
    simp only at h1 h2
    exact ⟨fun hk => Or.inl (h1 ▸ hk), fun hk _ => h1 ▸ hk, fun _ => h2⟩
  | handleRead err line wf ff =>
    simp only [step] at h
    unfold handleRead at h
    cases err
    · simp only [Bool.not_false, if_true] at h
      cases hch : handleReadChain c (trimmed line) wf with
      | none => rw [hch] at h; cases h
      | some r =>
        obtain ⟨c2, effs2, we⟩ := r
        rw [hch] at h
        simp only [Option.some.injEq, Prod.mk.injEq] at h
        obtain ⟨rfl, rfl⟩ := h
        obtain ⟨h1, _, _, _, _, h6⟩ := handleReadChain_frame c c2 _ wf we effs2 hch
        obtain ⟨h7, h8⟩ := checkErrorAndContinue_frame c2 we true ff
        have h9 : disconnectedCount effs2 = 0 := handleReadChain_no_disconnected c c2 _ wf we effs2 hch
        have h10 : stopQueuedCount (logLine (trimmed line)) = 0 := by
          unfold logLine
          split <;> rfl
        have h11 : disconnectedCount (logLine (trimmed line)) = 0 := by
          unfold logLine
          split <;> rfl
        refine ⟨fun hk => Or.inl ?_, fun hk _ => ?_, fun _ => ?_⟩
        · rw [h7, h1] at hk
          exact hk
        · rw [h7, h1]
          exact hk
        · simp only [stopQueuedCount_append, disconnectedCount_append, h6, h8, h9, h10, h11]
    · simp [setCurrentStateAndEmitDisconnected] at h
      obtain ⟨rfl, rfl⟩ := h
      exact ⟨fun hk => Or.inl hk, fun hk _ => hk,
        fun _ => by simp [stopQueuedCount, disconnectedCount, signalsOf]⟩
  | funcDisconnect wf =>
    obtain ⟨h1, _, h3, h4⟩ := funcDisconnect_frame c wf
    simp only [step, Option.some.injEq] at h
    rw [h] at h1 h3 h4
    simp only at h1 h3 h4
    exact ⟨fun hk => Or.inl (h1 ▸ hk), fun hk _ => h1 ▸ hk,
      fun _ => by simp [h3, disconnectedCount, h4]⟩
  | continueWithUsernameImpl wf ff =>
    simp only [step] at h
    unfold continueWithUsernameImpl at h
    split at h
    · cases h
    · simp only [Option.some.injEq, Prod.mk.injEq] at h
      obtain ⟨rfl, rfl⟩ := h
      obtain ⟨h7, h8⟩ := checkErrorAndContinue_frame c wf false ff
      refine ⟨fun hk => Or.inl (h7 ▸ hk), fun hk _ => h7 ▸ hk, fun _ => ?_⟩
      simpa [stopQueuedCount, disconnectedCount, signalsOf] using h8
  | continueWithPasswordImpl wf ff =>
    simp only [step] at h
    unfold continueWithPasswordImpl at h
    split at h
    · cases h
    · simp only [Option.some.injEq, Prod.mk.injEq] at h
      obtain ⟨rfl, rfl⟩ := h
      obtain ⟨h7, h8⟩ := checkErrorAndContinue_frame c wf false ff
      refine ⟨fun hk => Or.inl (h7 ▸ hk), fun hk _ => h7 ▸ hk, fun _ => ?_⟩
      simpa [stopQueuedCount, disconnectedCount, signalsOf] using h8

theorem run_timer_armed (t : Tunables) (ins : List Input) (c : Conn)
    (h : (run t c ins).1.killControllerTimerActive = true) :
    c.killControllerTimerActive = true ∨ Input.startDisconnect ∈ ins := by
  induction ins generalizing c with
  | nil => exact Or.inl h
  | cons i rest ih =>
    unfold run at h
    cases hs : step t c i with
    | none => rw [hs] at h; exact Or.inl h
    | some r =>
      obtain ⟨c1, effs⟩ := r
      rw [hs] at h
      rcases ih c1 h with h1 | h1
      · rcases (step_timer t c c1 i effs hs).1 h1 with h2 | h2
        · exact Or.inl h2
        · exact Or.inr (h2 ▸ List.mem_cons_self _ _)
      · exact Or.inr (List.mem_cons_of_mem _ h1)

theorem run_timer_kept (t : Tunables) (ins : List Input) (c : Conn)
    (hk : c.killControllerTimerActive = true) (hi : ∀ i ∈ ins, ¬ i.disarmsTimer) :
    (run t c ins).1.killControllerTimerActive = true := by
  induction ins generalizing c with
  | nil => exact hk
  | cons i rest ih =>
    unfold run
    cases hs : step t c i with
    | none => exact hk
    | some r =>
      obtain ⟨c1, effs⟩ := r
      exact ih c1 ((step_timer t c c1 i effs hs).2.1 hk (hi i (List.mem_cons_self _ _)))
        (fun j hj => hi j (List.mem_cons_of_mem _ hj))

theorem mem_of_count_pos_signals (effs : List Effect)
    (h : Signal.disconnected ∈ signalsOf effs) : 0 < disconnectedCount effs :=
  List.count_pos_iff.mpr h

/-- C11 (counterexample): in the session that attached, was asked to
disconnect and whose kill timer then expired, `startDisconnect` has been
called and the state is not `STATUS_DISCONNECTED`, yet the timer is not
armed. -/
theorem C11_timer_not_armed_after_expiry :
    Input.startDisconnect ∈ killTimerExpired ∧
    (run exampleTunables startedConn killTimerExpired).1.currentState_
      ≠ .STATUS_DISCONNECTED ∧
    (run exampleTunables startedConn killTimerExpired).1.killControllerTimerActive = false := by
  refine ⟨by simp [killTimerExpired], ?_, ?_⟩ <;>
  simp [run, step, killTimerExpired, startedConn, startConnect, Conn.init, funcRunOpenVPN,
    launchLoop, funcConnectToOpenVPN, setCurrentState, funcDisconnect, startDisconnect,
    isDisconnected, onKillControllerTimer, StateVariables.reset, exampleTunables]

/-- The error path leaves the timer armed: when `startDisconnect` is called
during the dial and the dial then runs out of time, the state becomes
`STATUS_DISCONNECTED` by `setCurrentStateAndEmitError`, no stop of the timer is
queued and the timer stays armed. -/
theorem dial_timeout_leaves_timer_armed :
    (run exampleTunables startedConn dialTimeoutAfterDisconnect).1.currentState_
      = .STATUS_DISCONNECTED ∧
    (run exampleTunables startedConn dialTimeoutAfterDisconnect).1.killControllerTimerActive
      = true ∧
    stopQueuedCount (run exampleTunables startedConn dialTimeoutAfterDisconnect).2 = 0 := by
  simp [run, step, dialTimeoutAfterDisconnect, startedConn, startConnect, Conn.init,
    funcRunOpenVPN, launchLoop, funcConnectToOpenVPN, setCurrentState, startDisconnect,
    isDisconnected, StateVariables.reset, exampleTunables, setCurrentStateAndEmitError,
    stopQueuedCount]

/-- C11 (amended): in a session that begins with the kill timer not armed, the
timer is armed only if `startDisconnect` has been called in the session; a
call of `startDisconnect` in a state other than `STATUS_DISCONNECTED` arms it
and it stays armed as long as it neither expires nor has a queued stop
delivered; and every step from a state other than `STATUS_DISCONNECTED` that
emits `disconnected` queues a stop of the timer, whose delivery leaves the
timer not armed. -/
theorem C11_kill_timer_armed (t : Tunables) (c : Conn) (ins₁ ins₂ : List Input)
    (h0 : c.killControllerTimerActive = false) :
    ((run t c ins₁).1.killControllerTimerActive = true → Input.startDisconnect ∈ ins₁) ∧
    ((run t c ins₁).1.currentState_ ≠ .STATUS_DISCONNECTED →
      (∀ i ∈ ins₂, ¬ i.disarmsTimer) →
      (run t (startDisconnect t (run t c ins₁).1).1 ins₂).1.killControllerTimerActive = true) ∧
    (∀ (i : Input) (c1 : Conn) (effs : List Effect),
      (run t c ins₁).1.currentState_ ≠ .STATUS_DISCONNECTED →
      step t (run t c ins₁).1 i = some (c1, effs) →
      Signal.disconnected ∈ signalsOf effs →
      Effect.timerStopQueued ∈ effs ∧ (killTimerStop c1).1.killControllerTimerActive = false) := by
  refine ⟨fun h => ?_, fun hc hi => ?_, fun i c1 effs hc hs hd => ⟨?_, rfl⟩⟩
  · rcases run_timer_armed t ins₁ c h with h1 | h1
    · rw [h0] at h1; cases h1
    · exact h1
  · refine run_timer_kept t ins₂ _ ?_ hi
    unfold startDisconnect isDisconnected
    simp only [hc, decide_False, Bool.false_eq_true, if_false]
    split_ifs <;> simp_all
  · have h1 := (step_timer t _ c1 i effs hs).2.2 hc
    have h2 := mem_of_count_pos_signals effs hd
    exact List.count_pos_iff.mp (by unfold stopQueuedCount at h1; omega)

/-- C11 (witness): in the session that attaches and is then asked to
disconnect the timer is armed, it is still armed after the disconnect task,
and the read error that ends the session queues its stop. -/
theorem C11_kill_timer_armed_witness :
    startedConn.killControllerTimerActive = false ∧
    (run exampleTunables startedConn attachThenDisconnect).1.killControllerTimerActive = true ∧
    Input.startDisconnect ∈ attachThenDisconnect ∧
    (run exampleTunables
      (startDisconnect exampleTunables
        (run exampleTunables startedConn attachThenDisconnect).1).1
      [Input.funcDisconnect false]).1.killControllerTimerActive = true ∧
    Effect.timerStopQueued ∈
      (setCurrentStateAndEmitDisconnected
        (run exampleTunables startedConn attachThenDisconnect).1 .STATUS_DISCONNECTED).2 := by
  have hrun : (run exampleTunables startedConn attachThenDisconnect).1
      = { attachedConn with
            killControllerTimerActive := true, bStopThread_ := true
            stateVariables_.openVpnPort := 1194 } := by
    simp [run, step, attachThenDisconnect, startedConn, attachedConn, startConnect, Conn.init,
      funcRunOpenVPN, launchLoop, funcConnectToOpenVPN, setCurrentState, startDisconnect,
      isDisconnected, StateVariables.reset, exampleTunables]
  have hne : (run exampleTunables startedConn attachThenDisconnect).1.currentState_
      ≠ .STATUS_DISCONNECTED := by
    rw [hrun]
    decide
  have h := C11_kill_timer_armed exampleTunables startedConn attachThenDisconnect
    [Input.funcDisconnect false] (by decide)
  have hk : (run exampleTunables startedConn attachThenDisconnect).1.killControllerTimerActive
      = true := by
    rw [hrun]
  refine ⟨by decide, hk, h.1 hk, h.2.1 hne (by simp [Input.disarmsTimer]), ?_⟩
  exact (h.2.2 (Input.handleRead true [] false false) _ _ hne rfl (by
    simp [setCurrentStateAndEmitDisconnected, signalsOf])).1


/-! ## `STATUS_DISCONNECTED` and the fatal conditions -/

/-- C12 (the code at the failing input): after the failed write of the
username continuation has set `STATUS_DISCONNECTED` and emitted
`disconnected`, the read armed before it still delivers a line; the
`>STATE:` line sets `STATUS_CONNECTED` and emits `connected`. -/
theorem C12_state_line_leaves_disconnected :
    (run exampleTunables attachedConn (lineAfterFailedContinuation.take 3)).1.currentState_
      = .STATUS_DISCONNECTED ∧
    (run exampleTunables attachedConn lineAfterFailedContinuation).1.currentState_
      = .STATUS_CONNECTED ∧
    signalsOf (run exampleTunables attachedConn lineAfterFailedContinuation).2
      = [.requestUsername, .disconnected, .connected] := by
  decide

/-- C13 (the code at the failing inputs): a failed write of `signal SIGTERM`,
by the disconnect task or by the pending flush, leaves the state
`STATUS_CONNECTED_TO_SOCKET` and emits no `disconnected`. -/
theorem C13_failed_sigterm_write_is_ignored :
    writesOf (run exampleTunables attachedConn failedSigTermWrite).2
      = [bufferLiteral "state on all\n", bufferLiteral "signal SIGTERM\n"] ∧
    (runEach exampleTunables attachedConn failedSigTermWrite).getLast?
      = some [.write (bufferLiteral "signal SIGTERM\n") true] ∧
    (run exampleTunables attachedConn failedSigTermWrite).1.currentState_
      = .STATUS_CONNECTED_TO_SOCKET ∧
    disconnectedCount (run exampleTunables attachedConn failedSigTermWrite).2 = 0 ∧
    (runEach exampleTunables attachedConn failedSigTermFlush).getLast?
      = some [.log "SUCCESS: real-time state notification set to ON".toList, .asyncRead,
          .write (bufferLiteral "signal SIGTERM\n") true] ∧
    (run exampleTunables attachedConn failedSigTermFlush).1.currentState_
      = .STATUS_CONNECTED_TO_SOCKET ∧
    disconnectedCount (run exampleTunables attachedConn failedSigTermFlush).2 = 0 := by
  decide


/-! ## Monotonic byte counts -/

theorem subU64_of_le (a p : Nat) (hp : p ≤ a) (ha : a < 2 ^ 64) : subU64 a p = a - p := by
  unfold subU64
  have h1 : p % 2 ^ 64 = p := Nat.mod_eq_of_lt (by omega)
  rw [h1]
  omega

theorem statisticsValues_expected_later (values : List (Nat × Nat)) (p q : Nat)
    (hb : ∀ v ∈ values, v.1 < 2 ^ 64 ∧ v.2 < 2 ^ 64) (hm : nonDecreasing p q values) :
    statisticsValues (expectedStatistics false p q values) = integerDifferences p q values := by
  induction values generalizing p q with
  | nil => rfl
  | cons v rest ih =>
    obtain ⟨a, b⟩ := v
    obtain ⟨h1, h2, h3⟩ := hm
    obtain ⟨ha, hb'⟩ := hb (a, b) (List.mem_cons_self _ _)
    simp only at ha hb'
    simp only [expectedStatistics, Bool.false_eq_true, if_false, statisticsValues,
      integerDifferences, subU64_of_le a p h1 ha, subU64_of_le b q h2 hb',
      ih a b (fun v hv => hb v (List.mem_cons_of_mem _ hv)) h3]
    rw [Int.ofNat_sub h1, Int.ofNat_sub h2]

theorem statisticsValues_expected_first (values : List (Nat × Nat))
    (hb : ∀ v ∈ values, v.1 < 2 ^ 64 ∧ v.2 < 2 ^ 64) (hm : nonDecreasing 0 0 values) :
    statisticsValues (expectedStatistics true 0 0 values) = integerDifferences 0 0 values := by
  cases values with
  | nil => rfl
  | cons v rest =>
    obtain ⟨a, b⟩ := v
    obtain ⟨_, _, h3⟩ := hm
    simp only [expectedStatistics, if_true, statisticsValues, integerDifferences,
      statisticsValues_expected_later rest a b
        (fun v hv => hb v (List.mem_cons_of_mem _ hv)) h3]
    simp

theorem integerDifferences_nonneg (values : List (Nat × Nat)) (p q : Nat)
    (hm : nonDecreasing p q values) :
    ∀ d ∈ integerDifferences p q values, 0 ≤ d.1 ∧ 0 ≤ d.2 := by
  induction values generalizing p q with
  | nil => intro d hd; cases hd
  | cons v rest ih =>
    obtain ⟨a, b⟩ := v
    obtain ⟨h1, h2, h3⟩ := hm
    intro d hd
    simp only [integerDifferences, List.mem_cons] at hd
    rcases hd with rfl | hd
    · constructor <;> simp <;> omega
    · exact ih a b h3 d hd

/-! ## The no-TAP error -/

theorem noTapErrors_append (a b : List Effect) :
    noTapErrors (a ++ b) = noTapErrors a + noTapErrors b := by
  simp [noTapErrors, signalsOf_append]

theorem checkErrorAndContinue_tap (c : Conn) (we rd ff : Bool) :
    noTapErrors (checkErrorAndContinue c we rd ff).2 = 0 ∧
    noTapBudget (checkErrorAndContinue c we rd ff).1 = noTapBudget c := by
  unfold checkErrorAndContinue setCurrentStateAndEmitDisconnected noTapBudget
  cases we <;> cases rd <;> simp only [] <;> split_ifs <;>
    simp_all [noTapErrors, signalsOf, signalsOf_append]

theorem funcDisconnect_tap (c : Conn) (wf : Bool) :
    noTapErrors (funcDisconnect c wf).2 = 0 ∧
    noTapBudget (funcDisconnect c wf).1 = noTapBudget c := by
  unfold funcDisconnect noTapBudget
  split_ifs <;> simp_all [noTapErrors, signalsOf]

theorem handleByteCount_tap (c : Conn) (s : QString) :
    noTapErrors (handleByteCount c s).2 = 0 ∧
    noTapBudget (handleByteCount c s).1 = noTapBudget c := by
  unfold handleByteCount noTapBudget
  simp only
  split_ifs <;> simp_all [noTapErrors, signalsOf]

theorem handleState_tap (c : Conn) (s : QString) :
    noTapErrors (handleState c s).2 = 0 ∧
    noTapBudget (handleState c s).1 = noTapBudget c := by
  unfold handleState setCurrentState noTapBudget
  split_ifs <;> simp_all [noTapErrors, signalsOf]

theorem handleLog_tap (c : Conn) (s : QString) :
    noTapErrors (handleLog c s).2 = 0 ∧
    noTapBudget (handleLog c s).1 = noTapBudget c := by
  constructor
  · unfold handleLog
    simp only
    split_ifs <;> simp [noTapErrors, signalsOf]
  · unfold noTapBudget
    rw [(handleLog_sv c s).1]

theorem handleReadChain_tap (c c1 : Conn) (s : QString) (wf we : Bool) (effs : List Effect)
    (h : handleReadChain c s wf = some (c1, effs, we)) :
    noTapErrors effs + noTapBudget c1 ≤ noTapBudget c := by
  unfold handleReadChain at h
  cases hb : selectBranch c s <;> rw [hb] at h <;> simp only at h
  case bytecount =>
    cases h
    rw [(handleByteCount_tap c s).1, (handleByteCount_tap c s).2]
    omega
  case state =>
    cases h
    rw [(handleState_tap c s).1, (handleState_tap c s).2]
    omega
  case log =>
    cases h
    rw [(handleLog_tap c s).1, (handleLog_tap c s).2]
    omega
  all_goals (repeat' split at h)
  all_goals (try cases h)
  all_goals (try simp_all [noTapErrors, noTapBudget, signalsOf])

theorem step_tap (t : Tunables) (c c1 : Conn) (i : Input) (effs : List Effect)
    (h : step t c i = some (c1, effs)) :
    noTapErrors effs + noTapBudget c1 ≤ noTapBudget c := by
  cases i with
  | startDisconnect =>
    simp only [step, Option.some.injEq] at h
    have h1 : noTapErrors (startDisconnect t c).2 + noTapBudget (startDisconnect t c).1
        ≤ noTapBudget c := by
      unfold startDisconnect noTapBudget
      simp only []
      split_ifs <;> simp [noTapErrors, signalsOf, signalsOf_append]
    rw [h] at h1
    exact h1
  | continueWithUsernameAndPassword u p =>
    simp only [step, Option.some.injEq, continueWithUsernameAndPassword, Prod.mk.injEq] at h
    obtain ⟨rfl, rfl⟩ := h
    simp [noTapErrors, noTapBudget, signalsOf]
  | continueWithPassword p =>
    simp only [step, Option.some.injEq, continueWithPassword, Prod.mk.injEq] at h
    obtain ⟨rfl, rfl⟩ := h
    simp [noTapErrors, noTapBudget, signalsOf]
  | onKillControllerTimer =>
    simp only [step, Option.some.injEq, onKillControllerTimer, Prod.mk.injEq] at h
    obtain ⟨rfl, rfl⟩ := h
    simp [noTapErrors, noTapBudget, signalsOf]
  | killTimerStop =>
    simp only [step, Option.some.injEq, killTimerStop, Prod.mk.injEq] at h
    obtain ⟨rfl, rfl⟩ := h
    simp [noTapErrors, noTapBudget, signalsOf]
  | funcRunOpenVPN port launch stop =>
    simp only [step, Option.some.injEq] at h
    have h1 : noTapErrors (funcRunOpenVPN c port launch stop).2
        + noTapBudget (funcRunOpenVPN c port launch stop).1 ≤ noTapBudget c := by
      have hs := launchLoop_signals port launch stop 0
      unfold funcRunOpenVPN
      simp only
      split <;>
        simp [signalsOf_append, hs, noTapErrors, signalsOf, noTapBudget,
          setCurrentStateAndEmitError, setCurrentStateAndEmitDisconnected]
    rw [h] at h1
    exact h1
  | funcConnectToOpenVPN err elapsed fin wf =>
    simp only [step, Option.some.injEq] at h
    have h1 : noTapErrors (funcConnectToOpenVPN t c err elapsed fin wf).2
        + noTapBudget (funcConnectToOpenVPN t c err elapsed fin wf).1 ≤ noTapBudget c := by
      obtain ⟨hd1, hd2⟩ := funcDisconnect_tap (setCurrentState c .STATUS_CONNECTED_TO_SOCKET) wf
      have hd3 : noTapBudget (setCurrentState c .STATUS_CONNECTED_TO_SOCKET) = noTapBudget c :=
        rfl
      unfold funcConnectToOpenVPN
      simp only []
      split_ifs
      · rw [noTapErrors_append, hd1, hd2, hd3]
        simp [noTapErrors, signalsOf]
      all_goals
        simp [noTapErrors, signalsOf, noTapBudget, setCurrentState,
          setCurrentStateAndEmitError, setCurrentStateAndEmitDisconnected]
    rw [h] at h1
    exact h1
  | handleRead err line wf ff =>
    simp only [step] at h
    unfold handleRead at h
    cases err
    · simp only [Bool.not_false, if_true] at h
      cases hch : handleReadChain c (trimmed line) wf with
      | none => rw [hch] at h; cases h
      | some r =>
        obtain ⟨c2, effs2, we⟩ := r
        rw [hch] at h
        simp only [Option.some.injEq, Prod.mk.injEq] at h
        obtain ⟨rfl, rfl⟩ := h
        have h1 := handleReadChain_tap c c2 _ wf we effs2 hch
        obtain ⟨h2, h3⟩ := checkErrorAndContinue_tap c2 we true ff
        have h4 : noTapErrors (logLine (trimmed line)) = 0 := by
          unfold logLine
          split <;> rfl
        rw [noTapErrors_append, noTapErrors_append, h2, h3, h4]
        omega
    · simp [setCurrentStateAndEmitDisconnected] at h
      obtain ⟨rfl, rfl⟩ := h
      simp [noTapErrors, noTapBudget, signalsOf]
  | funcDisconnect wf =>
    simp only [step, Option.some.injEq] at h
    obtain ⟨h1, h2⟩ := funcDisconnect_tap c wf
    rw [h] at h1 h2
    simp only at h1 h2
    omega
  | continueWithUsernameImpl wf ff =>
    simp only [step] at h
    unfold continueWithUsernameImpl at h
    split at h
    · cases h
    · simp only [Option.some.injEq, Prod.mk.injEq] at h
      obtain ⟨rfl, rfl⟩ := h
      obtain ⟨h2, h3⟩ := checkErrorAndContinue_tap c wf false ff
      have h4 : ∀ m es, noTapErrors (Effect.write m wf :: es) = noTapErrors es :=
        fun _ _ => rfl
      rw [h4, h2, h3]
      omega
  | continueWithPasswordImpl wf ff =>
    simp only [step] at h
    unfold continueWithPasswordImpl at h
    split at h
    · cases h
    · simp only [Option.some.injEq, Prod.mk.injEq] at h
      obtain ⟨rfl, rfl⟩ := h
      obtain ⟨h2, h3⟩ := checkErrorAndContinue_tap c wf false ff
      have h4 : ∀ m es, noTapErrors (Effect.write m wf :: es) = noTapErrors es :=
        fun _ _ => rfl
      rw [h4, h2, h3]
      omega

theorem run_tap (t : Tunables) (ins : List Input) (c : Conn) :
    noTapErrors (run t c ins).2 + noTapBudget (run t c ins).1 ≤ noTapBudget c := by
  induction ins generalizing c with
  | nil => simp [run, noTapErrors, signalsOf]
  | cons i rest ih =>
    unfold run
    cases hs : step t c i with
    | none => simp [noTapErrors, signalsOf]
    | some r =>
      obtain ⟨c1, effs⟩ := r
      simp only
      have h1 := step_tap t c c1 i effs hs
      have h2 := ih c1
      rw [noTapErrors_append]
      omega

/-- C15 (counterexample): the first line that contains `There are no
TAP-Windows adapters on this system` also contains `HOLD:Waiting for hold
release` and is taken by the first arm of the chain: no error is emitted and
the command written is `state on all`. -/
theorem C15_first_tap_line_taken_by_earlier_arm :
    attachedConn.stateVariables_.bTapErrorEmited = false ∧
    containsCI
      (trimmed (">HOLD:Waiting for hold release " ++
        "(There are no TAP-Windows adapters on this system)").toList)
      "There are no TAP-Windows adapters on this system" = true ∧
    signalsOf (effectsOf (handleRead attachedConn false
        (">HOLD:Waiting for hold release " ++
          "(There are no TAP-Windows adapters on this system)").toList false false)) = [] ∧
    writesOf (effectsOf (handleRead attachedConn false
        (">HOLD:Waiting for hold release " ++
          "(There are no TAP-Windows adapters on this system)").toList false false))
      = [bufferLiteral "state on all\n"] := by
  decide

/-- C15 (amended): in every session `error(NO_INSTALLED_TUN_TAP)` is emitted at
most once, whatever the inputs. In every state reached in a session, a line
for which the chain takes the no-TAP arm (the trimmed line contains the text
and none of the patterns tested before it) emits the error when
`bTapErrorEmited` is false, sets the flag, and writes `signal SIGTERM` exactly
if it has not been sent yet (`disconnected` follows if that write fails); when
the flag is set, such a line emits no signal and writes nothing. -/
theorem C15_no_tap_error_once (t : Tunables) (c0 : Conn) (ins : List Input) (line : QString)
    (wf ff : Bool) :
    noTapErrors (run t { c0 with stateVariables_ := StateVariables.reset } ins).2 ≤ 1 ∧
    (selectBranch (sessionState t c0 ins) (trimmed line) = .noTapAdapters →
      (sessionState t c0 ins).stateVariables_.bTapErrorEmited = false →
      ∃ c1 effs, handleRead (sessionState t c0 ins) false line wf ff = some (c1, effs) ∧
        c1.stateVariables_.bTapErrorEmited = true ∧
        c1.stateVariables_.bSigTermSent = true ∧
        signalsOf effs = Signal.error .NO_INSTALLED_TUN_TAP ::
          (if wf && !(sessionState t c0 ins).stateVariables_.bSigTermSent
            then [Signal.disconnected] else []) ∧
        writesOf effs = (if (sessionState t c0 ins).stateVariables_.bSigTermSent then []
          else [bufferLiteral "signal SIGTERM\n"])) ∧
    (selectBranch (sessionState t c0 ins) (trimmed line) = .noTapAdapters →
      (sessionState t c0 ins).stateVariables_.bTapErrorEmited = true →
      ∃ c1 effs, handleRead (sessionState t c0 ins) false line wf ff = some (c1, effs) ∧
        signalsOf effs = [] ∧ writesOf effs = []) := by
  refine ⟨?_, fun hb ht => ?_, fun hb ht => ?_⟩
  · have h := run_tap t ins { c0 with stateVariables_ := StateVariables.reset }
    have hb : noTapBudget { c0 with stateVariables_ := StateVariables.reset } = 1 := rfl
    omega
  · unfold handleRead handleReadChain
    simp only [Bool.not_false, if_true, hb, ht, Bool.not_false]
    cases hs : (sessionState t c0 ins).stateVariables_.bSigTermSent
    · simp only [Bool.not_false, if_true]
      refine ⟨_, _, rfl, ?_⟩
      unfold checkErrorAndContinue setCurrentStateAndEmitDisconnected
      cases wf <;>
        simp [signalsOf_append, signalsOf_logged, signalsOf, writesOf_append, writesOf_logged,
          writesOf]
    · simp only [Bool.not_true, Bool.false_eq_true, if_false]
      refine ⟨_, _, rfl, ?_⟩
      unfold checkErrorAndContinue
      simp [signalsOf_append, signalsOf_logged, signalsOf, writesOf_append, writesOf_logged,
        writesOf, hs]
  · unfold handleRead handleReadChain
    simp only [Bool.not_false, if_true, hb, ht, Bool.not_true, Bool.false_eq_true, if_false,
      checkErrorAndContinue_closed _ _ _ _ (sessionState_gate t c0 ins)]
    exact ⟨_, _, rfl, by simp [signalsOf_append, signalsOf_logged, signalsOf],
      by simp [writesOf_append, writesOf_logged, writesOf]⟩

/-- C15 (witness): the first line that reports the missing TAP adapter emits
the error and writes `signal SIGTERM`; the same line read again emits nothing
and writes nothing. -/
theorem C15_no_tap_error_once_witness :
    selectBranch (sessionState exampleTunables attachedConn []) (trimmed noTapLine)
      = .noTapAdapters ∧
    (sessionState exampleTunables attachedConn []).stateVariables_.bTapErrorEmited = false ∧
    (∃ c1 effs, handleRead (sessionState exampleTunables attachedConn []) false noTapLine
        false false = some (c1, effs) ∧
      c1.stateVariables_.bTapErrorEmited = true ∧
      c1.stateVariables_.bSigTermSent = true ∧
      signalsOf effs = [Signal.error .NO_INSTALLED_TUN_TAP] ∧
      writesOf effs = [bufferLiteral "signal SIGTERM\n"]) ∧
    (sessionState exampleTunables attachedConn
      [Input.handleRead false noTapLine false false]).stateVariables_.bTapErrorEmited = true ∧
    (∃ c1 effs, handleRead
        (sessionState exampleTunables attachedConn
          [Input.handleRead false noTapLine false false])
        false noTapLine false false = some (c1, effs) ∧
      signalsOf effs = [] ∧ writesOf effs = []) := by
  refine ⟨by decide, by decide, ?_, by decide, ?_⟩
  · obtain ⟨c1, effs, h1, h2, h3, h4, h5⟩ :=
      (C15_no_tap_error_once exampleTunables attachedConn [] noTapLine false false).2.1
        (by decide) (by decide)
    exact ⟨c1, effs, h1, h2, h3, h4.trans (by decide), h5.trans (by decide)⟩
  · exact (C15_no_tap_error_once exampleTunables attachedConn
      [Input.handleRead false noTapLine false false] noTapLine false false).2.2
        (by decide) (by decide)


/-! ## SIGTERM and `isAcceptSigTermCommand_` -/

theorem funcDisconnect_accept (c : Conn) (wf : Bool) :
    (funcDisconnect c wf).1.stateVariables_.isAcceptSigTermCommand_
      = c.stateVariables_.isAcceptSigTermCommand_ ∧
    (sigTermWrites (funcDisconnect c wf).2 ≠ 0 →
      c.stateVariables_.isAcceptSigTermCommand_ = true) := by
  unfold funcDisconnect
  split_ifs <;> simp_all [sigTermWrites, writesOf]

theorem checkErrorAndContinue_accept (c : Conn) (we rd ff : Bool) :
    (checkErrorAndContinue c we rd ff).1.stateVariables_.isAcceptSigTermCommand_
      = c.stateVariables_.isAcceptSigTermCommand_ ∧
    (sigTermWrites (checkErrorAndContinue c we rd ff).2 ≠ 0 →
      c.stateVariables_.isAcceptSigTermCommand_ = true) := by
  unfold checkErrorAndContinue setCurrentStateAndEmitDisconnected
  cases we <;> cases rd <;> simp only [] <;> split_ifs <;>
    simp_all [sigTermWrites, writesOf, writesOf_append]

theorem handleReadChain_sigterm_arm (c c1 : Conn) (s : QString) (wf we : Bool)
    (effs : List Effect) (h : handleReadChain c s wf = some (c1, effs, we))
    (hw : sigTermWrites effs ≠ 0) :
    selectBranch c s = .verificationFailed ∨ selectBranch c s = .noTapAdapters := by
  have hbc := (handleByteCount_sv c s).2
  have hst := (handleState_sv c s).2
  have hlg := (handleLog_sv c s).2
  unfold handleReadChain at h
  cases hb : selectBranch c s <;> rw [hb] at h <;> simp only at h
  case verificationFailed => exact Or.inl rfl
  case noTapAdapters => exact Or.inr rfl
  all_goals (repeat' split at h)
  all_goals (try cases h)
  all_goals (try simp_all [sigTermWrites, writesOf, List.count_singleton])
  all_goals first
    | (exact absurd hw (by decide))
    | exact (sprintfMessage_ne_literal _ _ _ (by assumption) "signal SIGTERM\n") rfl

theorem sigTermWrites_logLine (s : QString) : sigTermWrites (logLine s) = 0 := by
  unfold logLine
  split <;> rfl

/-- C16 (counterexample): in the attached session, where
`isAcceptSigTermCommand_` is false, the line `>PASSWORD:Verification Failed:
'Auth'` makes the step write `signal SIGTERM`, and the flag is still false
after the step. -/
theorem C16_sigterm_written_while_not_acceptable :
    (sessionState exampleTunables attachedConn []).stateVariables_.isAcceptSigTermCommand_
      = false ∧
    (runEach exampleTunables (sessionState exampleTunables attachedConn [])
        [Input.handleRead false ">PASSWORD:Verification Failed: 'Auth'".toList false false]
      ).map writesOf = [[bufferLiteral "signal SIGTERM\n"]] ∧
    (run exampleTunables (sessionState exampleTunables attachedConn [])
        [Input.handleRead false ">PASSWORD:Verification Failed: 'Auth'".toList false false]
      ).1.stateVariables_.isAcceptSigTermCommand_ = false := by
  decide

/-- C16 (amended): for every state and every input, if the step writes
`signal SIGTERM` then either `isAcceptSigTermCommand_` is true when it is
written, and still after the step (the write of the disconnect task and the
pending flush), or the step is a `handleRead` that takes the
`PASSWORD:Verification Failed: 'Auth'` arm or the no-TAP arm, which write it
whatever the flag. -/
theorem C16_sigterm_needs_acceptable (t : Tunables) (c c1 : Conn) (i : Input)
    (effs : List Effect) (h : step t c i = some (c1, effs)) (hw : sigTermWrites effs ≠ 0) :
    c1.stateVariables_.isAcceptSigTermCommand_ = true ∨
    ∃ line wf ff, i = Input.handleRead false line wf ff ∧
      (selectBranch c (trimmed line) = .verificationFailed ∨
       selectBranch c (trimmed line) = .noTapAdapters) := by
  cases i with
  | startDisconnect =>
    simp only [step, Option.some.injEq] at h
    refine absurd ?_ hw
    have h2 : sigTermWrites (startDisconnect t c).2 = 0 := by
      unfold startDisconnect
      simp only []
      split_ifs <;> simp [sigTermWrites, writesOf, writesOf_append]
    rw [h] at h2
    exact h2
  | continueWithUsernameAndPassword u p =>
    simp only [step, Option.some.injEq, continueWithUsernameAndPassword, Prod.mk.injEq] at h
    obtain ⟨rfl, rfl⟩ := h
    exact absurd rfl hw
  | continueWithPassword p =>
    simp only [step, Option.some.injEq, continueWithPassword, Prod.mk.injEq] at h
    obtain ⟨rfl, rfl⟩ := h
    exact absurd rfl hw
  | onKillControllerTimer =>
    simp only [step, Option.some.injEq, onKillControllerTimer, Prod.mk.injEq] at h
    obtain ⟨rfl, rfl⟩ := h
    exact absurd rfl hw
  | killTimerStop =>
    simp only [step, Option.some.injEq, killTimerStop, Prod.mk.injEq] at h
    obtain ⟨rfl, rfl⟩ := h
    exact absurd rfl hw
  | funcRunOpenVPN port launch stop =>
    simp only [step, Option.some.injEq] at h
    refine absurd ?_ hw
    have h2 : sigTermWrites (funcRunOpenVPN c port launch stop).2 = 0 := by
      have hl := launchLoop_writes port launch stop 0
      unfold funcRunOpenVPN
      simp only
      split <;>
        simp [sigTermWrites, writesOf_append, hl, writesOf, setCurrentStateAndEmitError,
          setCurrentStateAndEmitDisconnected]
    rw [h] at h2
    exact h2
  | funcConnectToOpenVPN err elapsed fin wf =>
    simp only [step, Option.some.injEq] at h
    left
    obtain ⟨hd1, hd2⟩ := funcDisconnect_accept (setCurrentState c .STATUS_CONNECTED_TO_SOCKET) wf
    have h2 : sigTermWrites (funcConnectToOpenVPN t c err elapsed fin wf).2 ≠ 0 →
        (funcConnectToOpenVPN t c err elapsed fin wf).1.stateVariables_.isAcceptSigTermCommand_
          = true := by
      unfold funcConnectToOpenVPN
      simp only []
      split_ifs
      · intro hne
        rw [sigTermWrites_append] at hne
        have : sigTermWrites (funcDisconnect (setCurrentState c .STATUS_CONNECTED_TO_SOCKET)
            wf).2 ≠ 0 := by
          intro h0
          rw [h0] at hne
          exact hne (by simp [sigTermWrites, writesOf])
        rw [hd1]
        exact hd2 this
      all_goals
        simp [sigTermWrites, writesOf, setCurrentStateAndEmitError,
          setCurrentStateAndEmitDisconnected]
    rw [h] at h2
    exact h2 hw
  | handleRead err line wf ff =>
    simp only [step] at h
    unfold handleRead at h
    cases err
    · simp only [Bool.not_false, if_true] at h
      cases hch : handleReadChain c (trimmed line) wf with
      | none => rw [hch] at h; cases h
      | some r =>
        obtain ⟨c2, effs2, we⟩ := r
        rw [hch] at h
        simp only [Option.some.injEq, Prod.mk.injEq] at h
        obtain ⟨rfl, rfl⟩ := h
        rw [sigTermWrites_append, sigTermWrites_append, sigTermWrites_logLine] at hw
        by_cases h0 : sigTermWrites effs2 = 0
        · left
          obtain ⟨h1, h2⟩ := checkErrorAndContinue_accept c2 we true ff
          rw [h1]
          exact h2 (by omega)
        · exact Or.inr ⟨line, wf, ff, rfl,
            handleReadChain_sigterm_arm c c2 _ wf we effs2 hch h0⟩
    · simp [setCurrentStateAndEmitDisconnected] at h
      obtain ⟨rfl, rfl⟩ := h
      exact absurd rfl hw
  | funcDisconnect wf =>
    simp only [step, Option.some.injEq] at h
    obtain ⟨h1, h2⟩ := funcDisconnect_accept c wf
    rw [h] at h1 h2
    simp only at h1 h2
    left
    rw [h1]
    exact h2 hw
  | continueWithUsernameImpl wf ff =>
    simp only [step] at h
    unfold continueWithUsernameImpl at h
    split at h
    · cases h
    · rename_i m hm
      simp only [Option.some.injEq, Prod.mk.injEq] at h
      obtain ⟨rfl, rfl⟩ := h
      obtain ⟨h1, h2⟩ := checkErrorAndContinue_accept c wf false ff
      have h3 := sigTermWrites_sprintf _ _ m wf hm
      have h4 := sigTermWrites_append [Effect.write m wf] (checkErrorAndContinue c wf false ff).2
      simp only [List.singleton_append] at h4
      left
      rw [h1]
      exact h2 (by omega)
  | continueWithPasswordImpl wf ff =>
    simp only [step] at h
    unfold continueWithPasswordImpl at h
    split at h
    · cases h
    · rename_i m hm
      simp only [Option.some.injEq, Prod.mk.injEq] at h
      obtain ⟨rfl, rfl⟩ := h
      obtain ⟨h1, h2⟩ := checkErrorAndContinue_accept c wf false ff
      have h3 := sigTermWrites_sprintf _ _ m wf hm
      have h4 := sigTermWrites_append [Effect.write m wf] (checkErrorAndContinue c wf false ff).2
      simp only [List.singleton_append] at h4
      left
      rw [h1]
      exact h2 (by omega)

/-- C16 (witness): the disconnect task run once the child has acknowledged
`state on all` writes `signal SIGTERM`, with `isAcceptSigTermCommand_` true. -/
theorem C16_sigterm_needs_acceptable_witness :
    step exampleTunables notifiedConn (Input.funcDisconnect false)
      = some ((funcDisconnect notifiedConn false).1, (funcDisconnect notifiedConn false).2) ∧
    sigTermWrites (funcDisconnect notifiedConn false).2 ≠ 0 ∧
    ((funcDisconnect notifiedConn false).1.stateVariables_.isAcceptSigTermCommand_ = true ∨
      ∃ line wf ff, Input.funcDisconnect false = Input.handleRead false line wf ff ∧
        (selectBranch notifiedConn (trimmed line) = .verificationFailed ∨
         selectBranch notifiedConn (trimmed line) = .noTapAdapters)) :=
  ⟨rfl, by decide,
   C16_sigterm_needs_acceptable exampleTunables notifiedConn _ (Input.funcDisconnect false) _
     rfl (by decide)⟩


/-! ## The deferred SIGTERM -/

theorem selectBranch_stateNotificationOn (c : Conn) (s : QString)
    (h : selectBranch c s = .stateNotificationOn) :
    containsCI s "SUCCESS: real-time state notification set to ON" = true := by
  by_contra hn
  unfold selectBranch at h
  rw [if_neg hn] at h
  refine absurd h ?_
  repeat' apply ite_ne_branch
  all_goals decide

theorem selectBranch_verificationFailed (c : Conn) (s : QString)
    (h : selectBranch c s = .verificationFailed) :
    containsCI s "PASSWORD:Verification Failed: 'Auth'" = true := by
  by_contra hn
  unfold selectBranch at h
  rw [if_neg hn] at h
  refine absurd h ?_
  repeat' apply ite_ne_branch
  all_goals decide

theorem selectBranch_noTapAdapters (c : Conn) (s : QString)
    (h : selectBranch c s = .noTapAdapters) :
    containsCI s "There are no TAP-Windows adapters on this system" = true := by
  by_contra hn
  unfold selectBranch at h
  rw [if_neg hn] at h
  refine absurd h ?_
  repeat' apply ite_ne_branch
  all_goals decide

/-- The SIGTERM flags after an arm other than the three that touch them. -/
theorem handleReadChain_sigterm_flags (c c1 : Conn) (s : QString) (wf we : Bool)
    (effs : List Effect) (h : handleReadChain c s wf = some (c1, effs, we))
    (h1 : selectBranch c s ≠ .stateNotificationOn)
    (h2 : selectBranch c s ≠ .verificationFailed)
    (h3 : selectBranch c s ≠ .noTapAdapters) :
    c1.stateVariables_.bNeedSendSigTerm = c.stateVariables_.bNeedSendSigTerm ∧
    c1.stateVariables_.bSigTermSent = c.stateVariables_.bSigTermSent ∧
    (c.stateVariables_.isAcceptSigTermCommand_ = false →
      c1.stateVariables_.isAcceptSigTermCommand_ = false) ∧
    sigTermWrites effs = 0 := by
  have hw : sigTermWrites effs = 0 := by
    by_contra hne
    rcases handleReadChain_sigterm_arm c c1 s wf we effs h hne with h4 | h4
    · exact h2 h4
    · exact h3 h4
  refine ⟨?_, ?_, ?_, hw⟩
  all_goals
    have hbc : (handleByteCount c s).1.stateVariables_.bNeedSendSigTerm
          = c.stateVariables_.bNeedSendSigTerm ∧
        (handleByteCount c s).1.stateVariables_.bSigTermSent
          = c.stateVariables_.bSigTermSent ∧
        (handleByteCount c s).1.stateVariables_.isAcceptSigTermCommand_
          = c.stateVariables_.isAcceptSigTermCommand_ := by
      unfold handleByteCount
      simp only
      split_ifs <;> simp
    have hst : (handleState c s).1.stateVariables_.bNeedSendSigTerm
          = c.stateVariables_.bNeedSendSigTerm ∧
        (handleState c s).1.stateVariables_.bSigTermSent
          = c.stateVariables_.bSigTermSent ∧
        (c.stateVariables_.isAcceptSigTermCommand_ = false →
          (handleState c s).1.stateVariables_.isAcceptSigTermCommand_ = false) := by
      unfold handleState setCurrentState
      split_ifs <;> simp
    have hlg := (handleLog_sv c s).1
    unfold handleReadChain at h
    cases hb : selectBranch c s <;> rw [hb] at h <;> simp only at h
    all_goals (first | exact absurd hb h1 | exact absurd hb h2 | exact absurd hb h3 | skip)
    all_goals (repeat' split at h)
    all_goals (try cases h)
    all_goals (try simp_all)

/-- A quiet line handled while a SIGTERM is pending (requested, not yet
acceptable, not yet sent) writes no SIGTERM and keeps it pending. -/
theorem handleRead_quiet (c c1 : Conn) (l : ReadLine) (effs : List Effect) (hq : l.quiet)
    (hp : c.stateVariables_.bNeedSendSigTerm = true)
    (hs : c.stateVariables_.bSigTermSent = false)
    (ha : c.stateVariables_.isAcceptSigTermCommand_ = false)
    (h : handleRead c false l.line l.writeFails l.flushFails = some (c1, effs)) :
    sigTermWrites effs = 0 ∧ c1.stateVariables_.bNeedSendSigTerm = true ∧
    c1.stateVariables_.bSigTermSent = false ∧
    c1.stateVariables_.isAcceptSigTermCommand_ = false := by
  obtain ⟨q1, q2, q3⟩ := hq
  unfold handleRead at h
  simp only [Bool.not_false, if_true] at h
  cases hch : handleReadChain c (trimmed l.line) l.writeFails with
  | none => rw [hch] at h; cases h
  | some r =>
    obtain ⟨c2, effs2, we⟩ := r
    rw [hch] at h
    simp only [Option.some.injEq, Prod.mk.injEq] at h
    obtain ⟨rfl, rfl⟩ := h
    obtain ⟨f1, f2, f3, f4⟩ := handleReadChain_sigterm_flags c c2 _ _ we effs2 hch
      (fun hb => by rw [selectBranch_stateNotificationOn c _ hb] at q1; cases q1)
      (fun hb => by rw [selectBranch_verificationFailed c _ hb] at q2; cases q2)
      (fun hb => by rw [selectBranch_noTapAdapters c _ hb] at q3; cases q3)
    have g1 := f1.trans hp
    have g2 := f2.trans hs
    have g3 := f3 ha
    rw [sigTermWrites_append, sigTermWrites_append, sigTermWrites_logLine, f4]
    unfold checkErrorAndContinue setCurrentStateAndEmitDisconnected
    cases we <;> simp [g1, g2, g3, sigTermWrites, writesOf]

theorem run_quiet (t : Tunables) (lines : List ReadLine) (c : Conn)
    (hq : ∀ l ∈ lines, l.quiet)
    (hp : c.stateVariables_.bNeedSendSigTerm = true)
    (hs : c.stateVariables_.bSigTermSent = false)
    (ha : c.stateVariables_.isAcceptSigTermCommand_ = false) :
    sigTermWrites (run t c (lines.map ReadLine.input)).2 = 0 ∧
    (run t c (lines.map ReadLine.input)).1.stateVariables_.bNeedSendSigTerm = true ∧
    (run t c (lines.map ReadLine.input)).1.stateVariables_.bSigTermSent = false ∧
    (run t c (lines.map ReadLine.input)).1.stateVariables_.isAcceptSigTermCommand_ = false := by
  induction lines generalizing c with
  | nil => exact ⟨rfl, hp, hs, ha⟩
  | cons l rest ih =>
    simp only [List.map_cons, run, ReadLine.input, step]
    cases hr : handleRead c false l.line l.writeFails l.flushFails with
    | none => exact ⟨rfl, hp, hs, ha⟩
    | some r =>
      obtain ⟨c1, effs⟩ := r
      obtain ⟨h1, h2, h3, h4⟩ := handleRead_quiet c c1 l effs (hq l (List.mem_cons_self _ _))
        hp hs ha hr
      obtain ⟨i1, i2, i3, i4⟩ := ih c1 (fun x hx => hq x (List.mem_cons_of_mem _ hx)) h2 h3 h4
      exact ⟨by simp [sigTermWrites_append, h1, i1], i2, i3, i4⟩

theorem selectBranch_stateNotificationLine (c : Conn) :
    selectBranch c (trimmed stateNotificationLine) = .stateNotificationOn := by
  have h1 : containsCI (trimmed stateNotificationLine) "HOLD:Waiting for hold release"
      = false := by decide
  have h2 : startsWith (trimmed stateNotificationLine) "END" = false := by decide
  have h3 : containsCI (trimmed stateNotificationLine)
      "SUCCESS: real-time state notification set to ON" = true := by decide
  unfold selectBranch
  simp only [h1, h2, h3, Bool.false_eq_true, if_false, Bool.false_and, if_true]

/-- The line that makes SIGTERM acceptable flushes a pending SIGTERM. -/
theorem handleRead_flush (c : Conn) (wf ff : Bool)
    (hp : c.stateVariables_.bNeedSendSigTerm = true)
    (hs : c.stateVariables_.bSigTermSent = false) :
    ∃ c1 effs, handleRead c false stateNotificationLine wf ff = some (c1, effs) ∧
      writesOf effs = [bufferLiteral "signal SIGTERM\n"] ∧
      c1.stateVariables_.isAcceptSigTermCommand_ = true ∧
      c1.stateVariables_.bSigTermSent = true ∧ signalsOf effs = [] := by
  unfold handleRead handleReadChain
  simp only [Bool.not_false, if_true, selectBranch_stateNotificationLine]
  refine ⟨_, _, rfl, ?_⟩
  unfold checkErrorAndContinue
  simp [hp, hs, writesOf_append, writesOf_logged, writesOf, signalsOf_append, signalsOf_logged,
    signalsOf]

/-- C17 (counterexample): in the attached session (SIGTERM neither sent nor
acceptable) the disconnect task writes nothing; the intervening line
`>PASSWORD:Verification Failed: 'Auth'`, which does not set
`isAcceptSigTermCommand_`, writes `signal SIGTERM`, and the next
acknowledgement of `state on all` then writes nothing. -/
theorem C17_intervening_line_writes_sigterm :
    (runEach exampleTunables attachedConn
        [Input.funcDisconnect false,
         Input.handleRead false ">PASSWORD:Verification Failed: 'Auth'".toList false false,
         Input.handleRead false stateNotificationLine false false]).map writesOf
      = [[], [bufferLiteral "signal SIGTERM\n"], []] ∧
    (run exampleTunables attachedConn
        [Input.funcDisconnect false,
         Input.handleRead false ">PASSWORD:Verification Failed: 'Auth'".toList false false]
      ).1.stateVariables_.isAcceptSigTermCommand_ = false := by
  decide

/-- C17 (amended): in a state with `STATUS_CONNECTED_TO_SOCKET` or
`STATUS_CONNECTED`, SIGTERM neither sent nor acceptable, the disconnect task
writes nothing and sets `bNeedSendSigTerm`; the intervening lines, as long as
they contain neither the acknowledgement of `state on all` nor
`PASSWORD:Verification Failed: 'Auth'` nor `There are no TAP-Windows adapters
on this system`, write no `signal SIGTERM` and leave SIGTERM pending, not
acceptable and not sent; and the next line `SUCCESS: real-time state
notification set to ON` sets `isAcceptSigTermCommand_`, writes `signal SIGTERM`
exactly once and nothing else, and sets `bSigTermSent`. -/
theorem C17_deferred_sigterm (t : Tunables) (c : Conn) (lines : List ReadLine)
    (wf wf2 ff2 : Bool)
    (hstate : c.currentState_ = .STATUS_CONNECTED_TO_SOCKET ∨
      c.currentState_ = .STATUS_CONNECTED)
    (hs : c.stateVariables_.bSigTermSent = false)
    (ha : c.stateVariables_.isAcceptSigTermCommand_ = false)
    (hq : ∀ l ∈ lines, l.quiet) :
    funcDisconnect c wf = ({ c with stateVariables_.bNeedSendSigTerm := true }, []) ∧
    sigTermWrites (run t (funcDisconnect c wf).1 (lines.map ReadLine.input)).2 = 0 ∧
    ∃ c2 effs,
      handleRead (run t (funcDisconnect c wf).1 (lines.map ReadLine.input)).1 false
        stateNotificationLine wf2 ff2 = some (c2, effs) ∧
      writesOf effs = [bufferLiteral "signal SIGTERM\n"] ∧
      c2.stateVariables_.isAcceptSigTermCommand_ = true ∧
      c2.stateVariables_.bSigTermSent = true := by
  have hd : funcDisconnect c wf = ({ c with stateVariables_.bNeedSendSigTerm := true }, []) := by
    unfold funcDisconnect
    rcases hstate with h | h <;> simp [h, hs, ha]
  rw [hd]
  obtain ⟨h1, h2, h3, _⟩ := run_quiet t lines
    { c with stateVariables_.bNeedSendSigTerm := true } hq rfl hs ha
  obtain ⟨c2, effs, g1, g2, g3, g4, _⟩ := handleRead_flush
    (run t { c with stateVariables_.bNeedSendSigTerm := true } (lines.map ReadLine.input)).1
    wf2 ff2 h2 h3
  exact ⟨rfl, h1, c2, effs, g1, g2, g3, g4⟩

/-- C17 (witness): scenario S5. After a `RECONNECTING` line the disconnect
task only sets `bNeedSendSigTerm`; a hold line and a log line in between write
no SIGTERM; the acknowledgement of `state on all` flushes it. -/
theorem C17_deferred_sigterm_witness :
    (attachedConn.currentState_ = .STATUS_CONNECTED_TO_SOCKET ∨
      attachedConn.currentState_ = .STATUS_CONNECTED) ∧
    attachedConn.stateVariables_.bSigTermSent = false ∧
    attachedConn.stateVariables_.isAcceptSigTermCommand_ = false ∧
    (∀ l ∈ [(⟨">HOLD:Waiting for hold release".toList, false, false⟩ : ReadLine),
        ⟨">LOG:1700000000,I,Restart pause, 5 second(s)".toList, false, false⟩], l.quiet) ∧
    (runEach exampleTunables attachedConn
        ([Input.funcDisconnect false] ++
          [(⟨">HOLD:Waiting for hold release".toList, false, false⟩ : ReadLine),
            ⟨">LOG:1700000000,I,Restart pause, 5 second(s)".toList, false, false⟩].map
              ReadLine.input ++
          [Input.handleRead false stateNotificationLine false false])).map writesOf
      = [[], [bufferLiteral "state on all\n"], [], [bufferLiteral "signal SIGTERM\n"]] ∧
    (funcDisconnect attachedConn false
        = ({ attachedConn with stateVariables_.bNeedSendSigTerm := true }, []) ∧
      sigTermWrites (run exampleTunables (funcDisconnect attachedConn false).1
        ([(⟨">HOLD:Waiting for hold release".toList, false, false⟩ : ReadLine),
          ⟨">LOG:1700000000,I,Restart pause, 5 second(s)".toList, false, false⟩].map
            ReadLine.input)).2 = 0 ∧
      ∃ c2 effs,
        handleRead (run exampleTunables (funcDisconnect attachedConn false).1
          ([(⟨">HOLD:Waiting for hold release".toList, false, false⟩ : ReadLine),
            ⟨">LOG:1700000000,I,Restart pause, 5 second(s)".toList, false, false⟩].map
              ReadLine.input)).1 false stateNotificationLine false false = some (c2, effs) ∧
        writesOf effs = [bufferLiteral "signal SIGTERM\n"] ∧
        c2.stateVariables_.isAcceptSigTermCommand_ = true ∧
        c2.stateVariables_.bSigTermSent = true) :=
  ⟨by decide, by decide, by decide, by decide, by decide,
   C17_deferred_sigterm exampleTunables attachedConn
     [⟨">HOLD:Waiting for hold release".toList, false, false⟩,
      ⟨">LOG:1700000000,I,Restart pause, 5 second(s)".toList, false, false⟩]
     false false false (by decide) (by decide) (by decide) (by decide)⟩


/-! ## `RECONNECTING` -/

theorem handleRead_stateNotificationLine (c : Conn) (wf ff : Bool) :
    ∃ c1 effs, handleRead c false stateNotificationLine wf ff = some (c1, effs) ∧
      c1.stateVariables_.bWasStateNotification = true ∧
      c1.stateVariables_.isAcceptSigTermCommand_ = true := by
  unfold handleRead handleReadChain
  simp only [Bool.not_false, if_true, selectBranch_stateNotificationLine]
  refine ⟨_, _, rfl, ?_⟩
  unfold checkErrorAndContinue
  simp only [Bool.false_eq_true, if_false]
  split_ifs <;> simp

/-- C18 (counterexample): a line that starts with `>STATE:` and contains
`RECONNECTING` (and neither `CONNECTED,SUCCESS` nor `CONNECTED,ERROR`) but
also `HOLD:Waiting for hold release` is taken by the first arm of the chain:
the state stays `STATUS_CONNECTED`, nothing is emitted and `state on all` is
written. -/
theorem C18_reconnecting_line_taken_by_earlier_arm :
    startsWithCI
      (trimmed ">STATE:1700000000,RECONNECTING,HOLD:Waiting for hold release,,".toList)
      ">STATE:" = true ∧
    containsCI
      (trimmed ">STATE:1700000000,RECONNECTING,HOLD:Waiting for hold release,,".toList)
      "RECONNECTING" = true ∧
    containsCI
      (trimmed ">STATE:1700000000,RECONNECTING,HOLD:Waiting for hold release,,".toList)
      "CONNECTED,SUCCESS" = false ∧
    containsCI
      (trimmed ">STATE:1700000000,RECONNECTING,HOLD:Waiting for hold release,,".toList)
      "CONNECTED,ERROR" = false ∧
    (run exampleTunables (setCurrentState notifiedConn .STATUS_CONNECTED)
      [Input.handleRead false
        ">STATE:1700000000,RECONNECTING,HOLD:Waiting for hold release,,".toList false false]
      ).1 = setCurrentState notifiedConn .STATUS_CONNECTED ∧
    commandsAndSignals (run exampleTunables (setCurrentState notifiedConn .STATUS_CONNECTED)
      [Input.handleRead false
        ">STATE:1700000000,RECONNECTING,HOLD:Waiting for hold release,,".toList false false]
      ).2 = [.write (bufferLiteral "state on all\n") false] := by
  decide

/-- C18 (amended): for every state, handling a line for which the chain takes
the `>STATE:` arm (the trimmed line starts with `>STATE:` and contains none of
the patterns tested before that arm) and that contains `RECONNECTING` and
neither `CONNECTED,SUCCESS` nor `CONNECTED,ERROR` sets the state to
`STATUS_CONNECTED_TO_SOCKET`, clears `isAcceptSigTermCommand_` and
`bWasStateNotification`, changes nothing else, emits exactly `reconnecting`
and writes nothing (the line is logged and the read re-armed); and in every
state the line `SUCCESS: real-time state notification set to ON` sets both
flags to true. -/
theorem C18_reconnecting (c c' : Conn) (line : QString) (wf ff wf2 ff2 : Bool)
    (hb : selectBranch c (trimmed line) = .state)
    (hr : containsCI (trimmed line) "RECONNECTING" = true)
    (h1 : containsCI (trimmed line) "CONNECTED,SUCCESS" = false)
    (h2 : containsCI (trimmed line) "CONNECTED,ERROR" = false) :
    handleRead c false line wf ff =
      some ({ c with
                currentState_ := .STATUS_CONNECTED_TO_SOCKET
                stateVariables_.isAcceptSigTermCommand_ := false
                stateVariables_.bWasStateNotification := false },
            logLine (trimmed line) ++ [.emit .reconnecting, .asyncRead]) ∧
    signalsOf (logLine (trimmed line) ++ [.emit .reconnecting, .asyncRead])
      = [Signal.reconnecting] ∧
    writesOf (logLine (trimmed line) ++ [.emit .reconnecting, .asyncRead]) = [] ∧
    ∃ c2 effs2, handleRead c' false stateNotificationLine wf2 ff2 = some (c2, effs2) ∧
      c2.stateVariables_.bWasStateNotification = true ∧
      c2.stateVariables_.isAcceptSigTermCommand_ = true := by
  refine ⟨?_, ?_, ?_, handleRead_stateNotificationLine c' wf2 ff2⟩
  · unfold handleRead handleReadChain
    simp only [Bool.not_false, if_true, hb]
    unfold handleState checkErrorAndContinue setCurrentState
    simp [h1, h2, hr]
  · simp [signalsOf_append, signalsOf_logged, signalsOf]
  · simp [writesOf_append, writesOf_logged, writesOf]

/-- C18 (witness): the line `>STATE:...,RECONNECTING,ping-restart` handled in
the connected session. -/
theorem C18_reconnecting_witness :
    selectBranch (setCurrentState notifiedConn .STATUS_CONNECTED) (trimmed reconnectingLine)
      = .state ∧
    containsCI (trimmed reconnectingLine) "RECONNECTING" = true ∧
    containsCI (trimmed reconnectingLine) "CONNECTED,SUCCESS" = false ∧
    containsCI (trimmed reconnectingLine) "CONNECTED,ERROR" = false ∧
    handleRead (setCurrentState notifiedConn .STATUS_CONNECTED) false reconnectingLine
        false false =
      some ({ setCurrentState notifiedConn .STATUS_CONNECTED with
                currentState_ := .STATUS_CONNECTED_TO_SOCKET
                stateVariables_.isAcceptSigTermCommand_ := false
                stateVariables_.bWasStateNotification := false },
            logLine (trimmed reconnectingLine) ++ [.emit .reconnecting, .asyncRead]) :=
  ⟨by decide, by decide, by decide, by decide,
   (C18_reconnecting (setCurrentState notifiedConn .STATUS_CONNECTED) attachedConn
      reconnectingLine false false false false (by decide) (by decide) (by decide)
      (by decide)).1⟩


/-! ## The launch loop and the cancellation checkpoints -/

/-- C19: with the stop flag never seen set, `funcRunOpenVPN` asks the helper
for at most three launches; when all three fail it emits
`error(CANT_RUN_OPENVPN)` once, sets `STATUS_DISCONNECTED` and starts no
dial; when the first, second or third launch succeeds it makes no further
launch, emits nothing, leaves the state as it is and starts the dial. -/
theorem C19_launch_loop (c : Conn) (port : Nat) (launch : Nat → Bool) :
    launchAttempts (funcRunOpenVPN c port launch (fun _ => false)).2 ≤ 3 ∧
    (launch 0 = false → launch 1 = false → launch 2 = false →
      funcRunOpenVPN c port launch (fun _ => false) =
        ({ c with
            stateVariables_.openVpnPort := port
            currentState_ := .STATUS_DISCONNECTED },
         [.runOpenVPN port false, .msleep 1000, .runOpenVPN port false, .msleep 1000,
          .runOpenVPN port false, .emit (.error .CANT_RUN_OPENVPN)])) ∧
    (launch 0 = true →
      funcRunOpenVPN c port launch (fun _ => false) =
        ({ c with stateVariables_.openVpnPort := port },
         [.runOpenVPN port true, .asyncConnect port])) ∧
    (launch 0 = false → launch 1 = true →
      funcRunOpenVPN c port launch (fun _ => false) =
        ({ c with stateVariables_.openVpnPort := port },
         [.runOpenVPN port false, .msleep 1000, .runOpenVPN port true,
          .asyncConnect port])) ∧
    (launch 0 = false → launch 1 = false → launch 2 = true →
      funcRunOpenVPN c port launch (fun _ => false) =
        ({ c with stateVariables_.openVpnPort := port },
         [.runOpenVPN port false, .msleep 1000, .runOpenVPN port false, .msleep 1000,
          .runOpenVPN port true, .asyncConnect port])) := by
  refine ⟨?_, ?_, ?_, ?_, ?_⟩
  · cases h0 : launch 0 <;> cases h1 : launch 1 <;> cases h2 : launch 2 <;>
      simp [funcRunOpenVPN, launchLoop, h0, h1, h2, launchAttempts,
        setCurrentStateAndEmitError]
  · intro h0 h1 h2
    simp [funcRunOpenVPN, launchLoop, h0, h1, h2, setCurrentStateAndEmitError]
  · intro h0
    simp [funcRunOpenVPN, launchLoop, h0]
  · intro h0 h1
    simp [funcRunOpenVPN, launchLoop, h0, h1]
  · intro h0 h1 h2
    simp [funcRunOpenVPN, launchLoop, h0, h1, h2]

/-- C19 at a concrete oracle: the first launch fails and the second succeeds. -/
theorem C19_launch_loop_witness :
    launchAttempts (funcRunOpenVPN startedConn 1194 (fun i => decide (i = 1))
      (fun _ => false)).2 ≤ 3 ∧
    funcRunOpenVPN startedConn 1194 (fun i => decide (i = 1)) (fun _ => false) =
      ({ startedConn with stateVariables_.openVpnPort := 1194 },
       [.runOpenVPN 1194 false, .msleep 1000, .runOpenVPN 1194 true,
        .asyncConnect 1194]) :=
  ⟨(C19_launch_loop startedConn 1194 (fun i => decide (i = 1))).1,
   (C19_launch_loop startedConn 1194 (fun i => decide (i = 1))).2.2.2.1 (by decide)
     (by decide)⟩


/-- C20, counterexample: with the stop flag set all along, `funcRunOpenVPN`
still asks the helper for the first launch, and when that launch succeeds it
starts the dial and emits nothing; when the flag becomes set only after the
second check (during the pause before the third launch), the third launch is
still made and its failure emits `error(CANT_RUN_OPENVPN)`. -/
theorem C20_first_launch_made_with_stop_set :
    (funcRunOpenVPN startedConn 1194 (fun _ => true) (fun _ => true)).2 =
      [.runOpenVPN 1194 true, .asyncConnect 1194] ∧
    signalsOf (funcRunOpenVPN startedConn 1194 (fun _ => false) (fun i => decide (2 ≤ i))).2 =
      [.error .CANT_RUN_OPENVPN] := by
  constructor <;> simp [funcRunOpenVPN, launchLoop, signalsOf, setCurrentStateAndEmitError]

/-- C20, amended: `funcRunOpenVPN` always makes the first launch; the stop
flag is read after the first and after the second failed launch, and when it
is set there no further launch is made and the disconnect path is taken
(`STATUS_DISCONNECTED`, `disconnected`, no error); after a third failed launch
the flag is not read and `error(CANT_RUN_OPENVPN)` is emitted; when the socket
connects with the flag set, `funcDisconnect` runs right after the first read is
armed. -/
theorem C20_cancellation_checkpoints (t : Tunables) (c : Conn) (port : Nat)
    (launch stop : Nat → Bool) (elapsed : Nat) (bFinished writeFails : Bool) :
    (funcRunOpenVPN c port launch stop).2.head? = some (.runOpenVPN port (launch 0)) ∧
    (launch 0 = false → stop 0 = true →
      funcRunOpenVPN c port launch stop =
        ({ c with
            stateVariables_.openVpnPort := port
            currentState_ := .STATUS_DISCONNECTED },
         [.runOpenVPN port false, .timerStopQueued, .emit .disconnected])) ∧
    (launch 0 = false → stop 0 = false → launch 1 = false → stop 1 = true →
      funcRunOpenVPN c port launch stop =
        ({ c with
            stateVariables_.openVpnPort := port
            currentState_ := .STATUS_DISCONNECTED },
         [.runOpenVPN port false, .msleep 1000, .runOpenVPN port false,
          .timerStopQueued, .emit .disconnected])) ∧
    (launch 0 = false → stop 0 = false → launch 1 = false → stop 1 = false →
      launch 2 = false →
      funcRunOpenVPN c port launch stop =
        ({ c with
            stateVariables_.openVpnPort := port
            currentState_ := .STATUS_DISCONNECTED },
         [.runOpenVPN port false, .msleep 1000, .runOpenVPN port false, .msleep 1000,
          .runOpenVPN port false, .emit (.error .CANT_RUN_OPENVPN)])) ∧
    (c.bStopThread_ = true →
      funcConnectToOpenVPN t c false elapsed bFinished writeFails =
        ((funcDisconnect (setCurrentState c .STATUS_CONNECTED_TO_SOCKET) writeFails).1,
         [.clearUnblockingCmd, .asyncRead] ++
           (funcDisconnect (setCurrentState c .STATUS_CONNECTED_TO_SOCKET) writeFails).2)) ∧
    (c.bStopThread_ = false →
      funcConnectToOpenVPN t c false elapsed bFinished writeFails =
        (setCurrentState c .STATUS_CONNECTED_TO_SOCKET, [.clearUnblockingCmd, .asyncRead])) := by
  refine ⟨?_, ?_, ?_, ?_, ?_, ?_⟩
  · cases h0 : launch 0 <;> cases s0 : stop 0 <;> cases h1 : launch 1 <;>
      cases s1 : stop 1 <;> cases h2 : launch 2 <;>
      simp [funcRunOpenVPN, launchLoop, h0, h1, h2, s0, s1,
        setCurrentStateAndEmitError, setCurrentStateAndEmitDisconnected]
  · intro h0 s0
    simp [funcRunOpenVPN, launchLoop, h0, s0, setCurrentStateAndEmitDisconnected]
  · intro h0 s0 h1 s1
    simp [funcRunOpenVPN, launchLoop, h0, s0, h1, s1, setCurrentStateAndEmitDisconnected]
  · intro h0 s0 h1 s1 h2
    simp [funcRunOpenVPN, launchLoop, h0, s0, h1, s1, h2, setCurrentStateAndEmitError]
  · intro hs
    simp [funcConnectToOpenVPN, setCurrentState, hs]
  · intro hs
    simp [funcConnectToOpenVPN, setCurrentState, hs]

/-- C20, amended claim at a concrete launch: the first launch fails with the
stop flag set. -/
theorem C20_cancellation_checkpoints_witness :
    (funcRunOpenVPN startedConn 1194 (fun _ => false) (fun _ => true)).2.head? =
      some (.runOpenVPN 1194 false) ∧
    funcRunOpenVPN startedConn 1194 (fun _ => false) (fun _ => true) =
      ({ startedConn with
          stateVariables_.openVpnPort := 1194
          currentState_ := .STATUS_DISCONNECTED },
       [.runOpenVPN 1194 false, .timerStopQueued, .emit .disconnected]) :=
  ⟨(C20_cancellation_checkpoints exampleTunables startedConn 1194 (fun _ => false)
      (fun _ => true) 0 false false).1,
   (C20_cancellation_checkpoints exampleTunables startedConn 1194 (fun _ => false)
      (fun _ => true) 0 false false).2.1 rfl rfl⟩


/-! ## The relaunch of the child -/

theorem relaunchPosts_append (a b : List Effect) :
    relaunchPosts (a ++ b) = relaunchPosts a + relaunchPosts b := by
  simp [relaunchPosts]

theorem checkErrorAndContinue_relaunch (c : Conn) (we rd ff : Bool) :
    relaunchPosts (checkErrorAndContinue c we rd ff).2 = 0 ∧
    relaunchBudget (checkErrorAndContinue c we rd ff).1 = relaunchBudget c := by
  unfold checkErrorAndContinue setCurrentStateAndEmitDisconnected relaunchBudget
  cases we <;> cases rd <;> simp only [] <;> split_ifs <;>
    simp_all [relaunchPosts]

theorem funcDisconnect_relaunch (c : Conn) (wf : Bool) :
    relaunchPosts (funcDisconnect c wf).2 = 0 ∧
    relaunchBudget (funcDisconnect c wf).1 = relaunchBudget c := by
  unfold funcDisconnect relaunchBudget
  split_ifs <;> simp_all [relaunchPosts]

theorem handleByteCount_relaunch (c : Conn) (s : QString) :
    relaunchPosts (handleByteCount c s).2 = 0 ∧
    relaunchBudget (handleByteCount c s).1 = relaunchBudget c := by
  unfold handleByteCount relaunchBudget
  simp only
  split_ifs <;> simp_all [relaunchPosts]

theorem handleState_relaunch (c : Conn) (s : QString) :
    relaunchPosts (handleState c s).2 = 0 ∧
    relaunchBudget (handleState c s).1 = relaunchBudget c := by
  unfold handleState setCurrentState relaunchBudget
  split_ifs <;> simp_all [relaunchPosts]

theorem handleLog_relaunch (c : Conn) (s : QString) :
    relaunchPosts (handleLog c s).2 = 0 ∧
    relaunchBudget (handleLog c s).1 = relaunchBudget c := by
  constructor
  · unfold handleLog
    simp only
    split_ifs <;> simp [relaunchPosts]
  · unfold relaunchBudget
    rw [(handleLog_sv c s).1]

theorem handleReadChain_relaunch (c c1 : Conn) (s : QString) (wf we : Bool)
    (effs : List Effect) (h : handleReadChain c s wf = some (c1, effs, we)) :
    relaunchPosts effs = 0 ∧ relaunchBudget c1 = relaunchBudget c := by
  unfold handleReadChain at h
  cases hb : selectBranch c s <;> rw [hb] at h <;> simp only at h
  case bytecount =>
    cases h
    exact handleByteCount_relaunch c s
  case state =>
    cases h
    exact handleState_relaunch c s
  case log =>
    cases h
    exact handleLog_relaunch c s
  all_goals (repeat' split at h)
  all_goals (try cases h)
  all_goals (try simp_all [relaunchPosts, relaunchBudget])

theorem launchLoop_relaunch (port : Nat) (launch stop : Nat → Bool) (retries : Nat) :
    relaunchPosts (launchLoop port launch stop retries).2 = 0 := by
  generalize hn : 3 - retries = n
  induction n generalizing retries with
  | zero =>
    unfold launchLoop
    have : retries ≥ 2 := by omega
    split_ifs <;> simp_all [relaunchPosts]
  | succ n ih =>
    unfold launchLoop
    split_ifs <;> simp [relaunchPosts]
    exact ih (retries + 1) (by omega)

theorem step_relaunch (t : Tunables) (c c1 : Conn) (i : Input) (effs : List Effect)
    (h : step t c i = some (c1, effs)) :
    relaunchPosts effs + relaunchBudget c1 ≤ relaunchBudget c := by
  cases i with
  | startDisconnect =>
    simp only [step, Option.some.injEq] at h
    have h1 : relaunchPosts (startDisconnect t c).2 + relaunchBudget (startDisconnect t c).1
        ≤ relaunchBudget c := by
      unfold startDisconnect relaunchBudget
      simp only []
      split_ifs <;> simp [relaunchPosts]
    rw [h] at h1
    exact h1
  | continueWithUsernameAndPassword u p =>
    simp only [step, Option.some.injEq, continueWithUsernameAndPassword, Prod.mk.injEq] at h
    obtain ⟨rfl, rfl⟩ := h
    simp [relaunchPosts, relaunchBudget]
  | continueWithPassword p =>
    simp only [step, Option.some.injEq, continueWithPassword, Prod.mk.injEq] at h
    obtain ⟨rfl, rfl⟩ := h
    simp [relaunchPosts, relaunchBudget]
  | onKillControllerTimer =>
    simp only [step, Option.some.injEq, onKillControllerTimer, Prod.mk.injEq] at h
    obtain ⟨rfl, rfl⟩ := h
    simp [relaunchPosts, relaunchBudget]
  | killTimerStop =>
    simp only [step, Option.some.injEq, killTimerStop, Prod.mk.injEq] at h
    obtain ⟨rfl, rfl⟩ := h
    simp [relaunchPosts, relaunchBudget]
  | funcRunOpenVPN port launch stop =>
    simp only [step, Option.some.injEq] at h
    have h1 : relaunchPosts (funcRunOpenVPN c port launch stop).2
        + relaunchBudget (funcRunOpenVPN c port launch stop).1 ≤ relaunchBudget c := by
      have hs := launchLoop_relaunch port launch stop 0
      unfold funcRunOpenVPN
      simp only
      split <;>
        simp [relaunchPosts_append, hs, relaunchBudget,
          setCurrentStateAndEmitError, setCurrentStateAndEmitDisconnected] <;>
        simp [relaunchPosts]
    rw [h] at h1
    exact h1
  | funcConnectToOpenVPN err elapsed fin wf =>
    simp only [step, Option.some.injEq] at h
    have h1 : relaunchPosts (funcConnectToOpenVPN t c err elapsed fin wf).2
        + relaunchBudget (funcConnectToOpenVPN t c err elapsed fin wf).1 ≤ relaunchBudget c := by
      obtain ⟨hd1, hd2⟩ :=
        funcDisconnect_relaunch (setCurrentState c .STATUS_CONNECTED_TO_SOCKET) wf
      have hd3 : relaunchBudget (setCurrentState c .STATUS_CONNECTED_TO_SOCKET)
          = relaunchBudget c := rfl
      unfold funcConnectToOpenVPN
      simp only []
      split_ifs
      · rw [relaunchPosts_append, hd1, hd2, hd3]
        simp [relaunchPosts]
      all_goals
        simp_all [relaunchPosts, relaunchBudget, setCurrentState,
          setCurrentStateAndEmitError, setCurrentStateAndEmitDisconnected]
    rw [h] at h1
    exact h1
  | handleRead err line wf ff =>
    simp only [step] at h
    unfold handleRead at h
    cases err
    · simp only [Bool.not_false, if_true] at h
      cases hch : handleReadChain c (trimmed line) wf with
      | none => rw [hch] at h; cases h
      | some r =>
        obtain ⟨c2, effs2, we⟩ := r
        rw [hch] at h
        simp only [Option.some.injEq, Prod.mk.injEq] at h
        obtain ⟨rfl, rfl⟩ := h
        obtain ⟨h1, h1b⟩ := handleReadChain_relaunch c c2 _ wf we effs2 hch
        obtain ⟨h2, h3⟩ := checkErrorAndContinue_relaunch c2 we true ff
        have h4 : relaunchPosts (logLine (trimmed line)) = 0 := by
          unfold logLine
          split <;> rfl
        rw [relaunchPosts_append, relaunchPosts_append, h2, h3, h4, h1, h1b]
        omega
    · simp [setCurrentStateAndEmitDisconnected] at h
      obtain ⟨rfl, rfl⟩ := h
      simp [relaunchPosts, relaunchBudget]
  | funcDisconnect wf =>
    simp only [step, Option.some.injEq] at h
    obtain ⟨h1, h2⟩ := funcDisconnect_relaunch c wf
    rw [h] at h1 h2
    simp only at h1 h2
    omega
  | continueWithUsernameImpl wf ff =>
    simp only [step] at h
    unfold continueWithUsernameImpl at h
    split at h
    · cases h
    · simp only [Option.some.injEq, Prod.mk.injEq] at h
      obtain ⟨rfl, rfl⟩ := h
      obtain ⟨h2, h3⟩ := checkErrorAndContinue_relaunch c wf false ff
      have h5 : ∀ (m : List Char) (es : List Effect),
          relaunchPosts (Effect.write m wf :: es) = relaunchPosts es := by
        intro m es
        simp [relaunchPosts]
      rw [h5, h2, h3]
      omega
  | continueWithPasswordImpl wf ff =>
    simp only [step] at h
    unfold continueWithPasswordImpl at h
    split at h
    · cases h
    · simp only [Option.some.injEq, Prod.mk.injEq] at h
      obtain ⟨rfl, rfl⟩ := h
      obtain ⟨h2, h3⟩ := checkErrorAndContinue_relaunch c wf false ff
      have h5 : ∀ (m : List Char) (es : List Effect),
          relaunchPosts (Effect.write m wf :: es) = relaunchPosts es := by
        intro m es
        simp [relaunchPosts]
      rw [h5, h2, h3]
      omega

theorem run_relaunch (t : Tunables) (ins : List Input) (c : Conn) :
    relaunchPosts (run t c ins).2 + relaunchBudget (run t c ins).1 ≤ relaunchBudget c := by
  induction ins generalizing c with
  | nil => simp [run, relaunchPosts]
  | cons i rest ih =>
    unfold run
    cases hs : step t c i with
    | none => simp [relaunchPosts]
    | some r =>
      obtain ⟨c1, effs⟩ := r
      simp only
      have h1 := step_relaunch t c c1 i effs hs
      have h2 := ih c1
      rw [relaunchPosts_append]
      omega


/-- C21: a failed dial within the time budget, with the stop flag not set.
When the helper reports the child finished and
`bWasSecondAttemptToStartOpenVpn` is false, the flag is set and
`funcRunOpenVPN` is posted again after a 2 s pause, with no signal; when the
flag is already set, `error(NO_OPENVPN_SOCKET)` is emitted, the state becomes
`STATUS_DISCONNECTED` and nothing is posted; while the child is reported
running only the dial is repeated. The flag, once set, stays set whatever
inputs follow, so the next report of a finished child takes the error path;
and in a whole session, from `startConnect` on, `funcRunOpenVPN` is posted at
most twice. -/
theorem C21_one_relaunch (t : Tunables) (c c0 : Conn) (elapsed elapsed2 : Nat) (wf wf2 : Bool)
    (ins : List Input) (cfg u p : QString) (px : ProxySettings)
    (hstop : c.bStopThread_ = false) (hel : elapsed ≤ t.MAX_WAIT_OPENVPN_ON_START) :
    (c.stateVariables_.bWasSecondAttemptToStartOpenVpn = false →
      funcConnectToOpenVPN t c true elapsed true wf =
        ({ c with stateVariables_.bWasSecondAttemptToStartOpenVpn := true },
         [.msleep 2000, .post .funcRunOpenVPN])) ∧
    (c.stateVariables_.bWasSecondAttemptToStartOpenVpn = true →
      funcConnectToOpenVPN t c true elapsed true wf =
        ({ c with currentState_ := .STATUS_DISCONNECTED },
         [.emit (.error .NO_OPENVPN_SOCKET)])) ∧
    funcConnectToOpenVPN t c true elapsed false wf
      = (c, [.asyncConnect c.stateVariables_.openVpnPort]) ∧
    ((run t (funcConnectToOpenVPN t c true elapsed true wf).1 ins).1.bStopThread_ = false →
      elapsed2 ≤ t.MAX_WAIT_OPENVPN_ON_START →
      funcConnectToOpenVPN t (run t (funcConnectToOpenVPN t c true elapsed true wf).1 ins).1
          true elapsed2 true wf2 =
        ({ (run t (funcConnectToOpenVPN t c true elapsed true wf).1 ins).1 with
            currentState_ := .STATUS_DISCONNECTED },
         [.emit (.error .NO_OPENVPN_SOCKET)])) ∧
    relaunchPosts ((startConnect c0 cfg u p px).2 ++
      (run t (startConnect c0 cfg u p px).1 ins).2) ≤ 2 := by
  have hle : ¬ elapsed > t.MAX_WAIT_OPENVPN_ON_START := by omega
  refine ⟨fun hf => ?_, fun hf => ?_, ?_, fun hs2 hel2 => ?_, ?_⟩
  · unfold funcConnectToOpenVPN
    simp [hle, hstop, hf]
  · unfold funcConnectToOpenVPN
    simp [hle, hstop, hf, setCurrentStateAndEmitError]
  · unfold funcConnectToOpenVPN
    simp [hle]
  · have hle2 : ¬ elapsed2 > t.MAX_WAIT_OPENVPN_ON_START := by omega
    have hb0 : relaunchBudget (funcConnectToOpenVPN t c true elapsed true wf).1 = 0 := by
      unfold funcConnectToOpenVPN relaunchBudget
      cases hf : c.stateVariables_.bWasSecondAttemptToStartOpenVpn <;>
        simp [hle, hstop, hf, setCurrentStateAndEmitError]
    have hb := run_relaunch t ins (funcConnectToOpenVPN t c true elapsed true wf).1
    have hf2 : (run t (funcConnectToOpenVPN t c true elapsed true wf).1 ins
        ).1.stateVariables_.bWasSecondAttemptToStartOpenVpn = true := by
      rw [hb0] at hb
      unfold relaunchBudget at hb
      split at hb
      · assumption
      · omega
    generalize (run t (funcConnectToOpenVPN t c true elapsed true wf).1 ins).1 = c2 at hs2 hf2
    unfold funcConnectToOpenVPN
    simp [hle2, hs2, hf2, setCurrentStateAndEmitError]
  · have hb := run_relaunch t ins (startConnect c0 cfg u p px).1
    have h1 : relaunchBudget (startConnect c0 cfg u p px).1 = 1 := rfl
    have h2 : relaunchPosts (startConnect c0 cfg u p px).2 = 1 := by
      simp [startConnect, relaunchPosts]
    rw [relaunchPosts_append, h2]
    omega

/-- C21 at a concrete session: the child dies twice before its socket opens. -/
theorem C21_one_relaunch_witness :
    startedConn.bStopThread_ = false ∧
    100 ≤ exampleTunables.MAX_WAIT_OPENVPN_ON_START ∧
    startedConn.stateVariables_.bWasSecondAttemptToStartOpenVpn = false ∧
    funcConnectToOpenVPN exampleTunables startedConn true 100 true false =
      ({ startedConn with stateVariables_.bWasSecondAttemptToStartOpenVpn := true },
       [.msleep 2000, .post .funcRunOpenVPN]) ∧
    (runEach exampleTunables startedConn
      [.funcRunOpenVPN 1194 (fun _ => true) (fun _ => false),
       .funcConnectToOpenVPN true 100 false false,
       .funcConnectToOpenVPN true 200 true false,
       .funcRunOpenVPN 1195 (fun _ => true) (fun _ => false),
       .funcConnectToOpenVPN true 100 true false]).map commandsAndSignals
      = [[], [], [], [], [.emit (.error .NO_OPENVPN_SOCKET)]] ∧
    relaunchPosts ((startConnect Conn.init [] [] [] ⟨[], []⟩).2 ++
      (run exampleTunables (startConnect Conn.init [] [] [] ⟨[], []⟩).1
        [.funcRunOpenVPN 1194 (fun _ => true) (fun _ => false),
         .funcConnectToOpenVPN true 100 false false,
         .funcConnectToOpenVPN true 200 true false,
         .funcRunOpenVPN 1195 (fun _ => true) (fun _ => false),
         .funcConnectToOpenVPN true 100 true false]).2) ≤ 2 := by
  have h := C21_one_relaunch exampleTunables startedConn Conn.init 100 100 false false
    [.funcRunOpenVPN 1194 (fun _ => true) (fun _ => false),
     .funcConnectToOpenVPN true 100 false false,
     .funcConnectToOpenVPN true 200 true false,
     .funcRunOpenVPN 1195 (fun _ => true) (fun _ => false),
     .funcConnectToOpenVPN true 100 true false] [] [] [] ⟨[], []⟩ (by decide) (by decide)
  refine ⟨by decide, by decide, by decide, h.1 (by decide), ?_, h.2.2.2.2⟩
  simp [runEach, step, startedConn, startConnect, Conn.init, funcRunOpenVPN, launchLoop,
    funcConnectToOpenVPN, StateVariables.reset, exampleTunables, commandsAndSignals,
    setCurrentStateAndEmitError]


/-! ## The adapter name -/

/-- A `>LOG:` line that matches no row of the error table reaches the adapter
test of `handleLog`. -/
theorem handleLog_no_row (c : Conn) (s : QString) (h : firstMatchingKind s = none) :
    handleLog c s =
      if containsCI s "TAP-WIN32 device" && containsCI s "opened" then
        (if indexOf s (Char.ofNat 123) ≠ -1 ∧ indexOf s (Char.ofNat 125) ≠ -1 ∧
            indexOf s (Char.ofNat 123) < indexOf s (Char.ofNat 125) then
          ({ c with tapAdapter_ := (mid s (indexOf s (Char.ofNat 123)).toNat
              (indexOf s (Char.ofNat 125) - indexOf s (Char.ofNat 123) + 1).toNat) }, [])
        else ({ c with tapAdapter_ := [] }, []))
      else (c, []) := by
  revert h
  unfold handleLog firstMatchingKind logErrorTable rowMatches
  simp only [List.find?, List.all_cons, List.all_nil, Bool.and_true]
  cases containsCI s "UDP" <;>
  cases containsCI s "No buffer space available (WSAENOBUFS) (code=10055)" <;>
  cases containsCI s "No Route to Host (WSAEHOSTUNREACH) (code=10065)" <;>
  cases containsCI s "Can't assign requested address (code=49)" <;>
  cases containsCI s "No buffer space available (code=55)" <;>
  cases containsCI s "Network is down (code=50)" <;>
  cases containsCI s "TCP" <;>
  cases containsCI s "failed" <;>
  cases containsCI s "Initialization Sequence Completed With Errors" <;>
  first
    | (intro _; rfl)
    | (intro h; simp at h)

theorem indexOfFrom_of_not_mem (ch : Char) (s : QString) (i : Nat) (h : ch ∉ s) :
    indexOfFrom ch s i = -1 := by
  induction s generalizing i with
  | nil => rfl
  | cons a as ih =>
    have ha : a ≠ ch := fun e => h (e ▸ List.mem_cons_self _ _)
    simp [indexOfFrom, ha, ih (i + 1) (fun e => h (List.mem_cons_of_mem _ e))]

theorem indexOfFrom_append (ch : Char) (pre post : QString) (i : Nat) (h : ch ∉ pre) :
    indexOfFrom ch (pre ++ post) i = indexOfFrom ch post (i + pre.length) := by
  induction pre generalizing i with
  | nil => rfl
  | cons a as ih =>
    have ha : a ≠ ch := fun e => h (e ▸ List.mem_cons_self _ _)
    simp only [List.cons_append, indexOfFrom, ha, if_false, List.length_cons]
    rw [show as.append post = as ++ post from rfl,
      ih (i + 1) (fun e => h (List.mem_cons_of_mem _ e))]
    congr 1
    omega

theorem indexOfFrom_ge (ch : Char) (s : QString) (i : Nat) :
    indexOfFrom ch s i = -1 ∨ (i : Int) ≤ indexOfFrom ch s i := by
  induction s generalizing i with
  | nil => exact Or.inl rfl
  | cons a as ih =>
    unfold indexOfFrom
    split_ifs
    · exact Or.inr (le_refl _)
    · rcases ih (i + 1) with h | h
      · exact Or.inl h
      · exact Or.inr (by push_cast at h; omega)

theorem dropWhile_append_stop (p : Char → Bool) (l1 l2 : List Char) (h2 : l2 ≠ [])
    (hh : p (l2.head h2) = false) : (l1 ++ l2).dropWhile p = l1.dropWhile p ++ l2 := by
  induction l1 with
  | nil =>
    cases l2 with
    | nil => exact absurd rfl h2
    | cons a as =>
      simp only [List.head_cons] at hh
      simp [List.dropWhile, hh]
  | cons a as ih =>
    cases ha : p a <;> simp [List.dropWhile, ha, ih]

/-- Trimming a line around a core that neither begins nor ends with white
space leaves the core in place. -/
theorem trimmed_core (pre core post : List Char) (hne : core ≠ [])
    (hh : isSpace (core.head hne) = false) (hl : isSpace (core.getLast hne) = false) :
    trimmed (pre ++ core ++ post) =
      pre.dropWhile isSpace ++ core ++ (post.reverse.dropWhile isSpace).reverse := by
  unfold trimmed
  have h1 : (pre ++ core ++ post).dropWhile isSpace = pre.dropWhile isSpace ++ (core ++ post) := by
    rw [List.append_assoc]
    refine dropWhile_append_stop isSpace pre (core ++ post) (by simp [hne]) ?_
    rw [List.head_append_of_ne_nil hne]
    exact hh
  rw [h1]
  have hr : core.reverse ++ (pre.dropWhile isSpace).reverse ≠ [] := by simp [hne]
  have h2 : (pre.dropWhile isSpace ++ (core ++ post)).reverse =
      post.reverse ++ (core.reverse ++ (pre.dropWhile isSpace).reverse) := by
    simp
  rw [h2, dropWhile_append_stop isSpace post.reverse _ hr ?_]
  · simp
  · have hcr : core.reverse ≠ [] := by simp [hne]
    rw [List.head_append_of_ne_nil hcr, List.head_reverse]
    exact hl


theorem mem_of_mem_dropWhile (p : Char → Bool) (l : List Char) (x : Char)
    (h : x ∈ l.dropWhile p) : x ∈ l :=
  (List.dropWhile_suffix p).subset h

theorem mem_of_mem_trimmed (s : QString) (x : Char) (h : x ∈ trimmed s) : x ∈ s := by
  unfold trimmed at h
  rw [List.mem_reverse] at h
  have h1 := mem_of_mem_dropWhile _ _ _ h
  rw [List.mem_reverse] at h1
  exact mem_of_mem_dropWhile _ _ _ h1

theorem checkErrorAndContinue_tapAdapter (c : Conn) (we rd ff : Bool) :
    (checkErrorAndContinue c we rd ff).1.tapAdapter_ = c.tapAdapter_ := by
  unfold checkErrorAndContinue setCurrentStateAndEmitDisconnected
  cases we <;> simp only [] <;> split_ifs <;> rfl

/-- The positions and the substring `handleLog` computes on a text whose first
opening brace comes before its first closing brace. -/
theorem braces_found (pre body post : QString)
    (h1 : Char.ofNat 123 ∉ pre) (h2 : Char.ofNat 125 ∉ pre) (h3 : Char.ofNat 125 ∉ body) :
    indexOf (pre ++ Char.ofNat 123 :: body ++ Char.ofNat 125 :: post) (Char.ofNat 123)
      = pre.length ∧
    indexOf (pre ++ Char.ofNat 123 :: body ++ Char.ofNat 125 :: post) (Char.ofNat 125)
      = pre.length + body.length + 1 ∧
    mid (pre ++ Char.ofNat 123 :: body ++ Char.ofNat 125 :: post) pre.length (body.length + 2)
      = Char.ofNat 123 :: body ++ [Char.ofNat 125] := by
  refine ⟨?_, ?_, ?_⟩
  · unfold indexOf
    rw [List.append_assoc, indexOfFrom_append _ _ _ _ h1]
    simp [indexOfFrom]
  · unfold indexOf
    have h4 : Char.ofNat 125 ∉ pre ++ Char.ofNat 123 :: body := by
      simp only [List.mem_append, List.mem_cons, not_or]
      exact ⟨h2, by decide, h3⟩
    have h5 : pre ++ Char.ofNat 123 :: body ++ Char.ofNat 125 :: post
        = (pre ++ Char.ofNat 123 :: body) ++ Char.ofNat 125 :: post := by simp
    rw [h5, indexOfFrom_append _ _ _ _ h4]
    simp [indexOfFrom]
    omega
  · unfold mid
    have h5 : pre ++ Char.ofNat 123 :: body ++ Char.ofNat 125 :: post
        = pre ++ ((Char.ofNat 123 :: body ++ [Char.ofNat 125]) ++ post) := by simp
    rw [h5, List.drop_left]
    have h6 : body.length + 2 = (Char.ofNat 123 :: body ++ [Char.ofNat 125]).length := by simp
    rw [h6, List.take_left]

/-- Without a brace pair in order, the test of `handleLog` on the positions
fails. -/
theorem braces_not_found (s : QString)
    (h : Char.ofNat 123 ∉ s ∨ Char.ofNat 125 ∉ s ∨
      ∃ pre post, s = pre ++ Char.ofNat 125 :: post ∧ Char.ofNat 123 ∉ pre ∧
        Char.ofNat 125 ∉ pre) :
    ¬ (indexOf s (Char.ofNat 123) ≠ -1 ∧ indexOf s (Char.ofNat 125) ≠ -1 ∧
        indexOf s (Char.ofNat 123) < indexOf s (Char.ofNat 125)) := by
  rintro ⟨hb, he, hlt⟩
  rcases h with h | h | ⟨pre, post, rfl, h1, h2⟩
  · exact hb (indexOfFrom_of_not_mem _ _ 0 h)
  · exact he (indexOfFrom_of_not_mem _ _ 0 h)
  · unfold indexOf at hb he hlt
    rw [indexOfFrom_append _ _ _ _ h2] at he hlt
    rw [indexOfFrom_append _ _ _ _ h1] at hb hlt
    have hne : Char.ofNat 125 ≠ Char.ofNat 123 := by decide
    simp only [indexOfFrom, if_true, if_neg hne] at hb hlt
    rcases indexOfFrom_ge (Char.ofNat 123) post (0 + pre.length + 1) with h | h
    · exact hb h
    · push_cast at h hlt
      omega

theorem handleLog_tapAdapter (c : Conn) (s : QString) (hrow : firstMatchingKind s = none)
    (htap : containsCI s "TAP-WIN32 device" = true) (hop : containsCI s "opened" = true) :
    (handleLog c s).2 = [] ∧
    (∀ pre body post : QString,
      s = pre ++ Char.ofNat 123 :: body ++ Char.ofNat 125 :: post →
      Char.ofNat 123 ∉ pre → Char.ofNat 125 ∉ pre → Char.ofNat 125 ∉ body →
      (handleLog c s).1.tapAdapter_ = Char.ofNat 123 :: body ++ [Char.ofNat 125]) ∧
    ((Char.ofNat 123 ∉ s ∨ Char.ofNat 125 ∉ s ∨
        ∃ pre post, s = pre ++ Char.ofNat 125 :: post ∧ Char.ofNat 123 ∉ pre ∧
          Char.ofNat 125 ∉ pre) →
      (handleLog c s).1.tapAdapter_ = []) := by
  rw [handleLog_no_row c s hrow]
  simp only [htap, hop, Bool.and_self, if_true]
  refine ⟨by split_ifs <;> rfl, ?_, ?_⟩
  · rintro pre body post rfl h1 h2 h3
    obtain ⟨g1, g2, g3⟩ := braces_found pre body post h1 h2 h3
    rw [g1, g2]
    have hc : ((pre.length : Int) ≠ -1 ∧ ((pre.length : Int) + body.length + 1) ≠ -1 ∧
        (pre.length : Int) < pre.length + body.length + 1) := by
      refine ⟨by omega, by omega, by omega⟩
    rw [if_pos hc]
    have e1 : ((pre.length : Int)).toNat = pre.length := by simp
    have e2 : ((pre.length : Int) + body.length + 1 - pre.length + 1).toNat
        = body.length + 2 := by omega
    simp only [e1, e2]
    exact g3
  · intro h
    rw [if_neg (braces_not_found s h)]


/-- C22 (counterexample): a line that starts with `>LOG:`, contains `TAP-WIN32
device` and `opened`, matches no error row and carries a brace pair, but also
contains `HOLD:Waiting for hold release`, is taken by the first arm of the
chain: the adapter name stays empty and `state on all` is written. -/
theorem C22_adapter_line_taken_by_earlier_arm :
    startsWithCI (trimmed tapOpenedHoldLine) ">LOG:" = true ∧
    containsCI (trimmed tapOpenedHoldLine) "TAP-WIN32 device" = true ∧
    containsCI (trimmed tapOpenedHoldLine) "opened" = true ∧
    firstMatchingKind (trimmed tapOpenedHoldLine) = none ∧
    (run exampleTunables attachedConn
      [Input.handleRead false tapOpenedHoldLine false false]).1.tapAdapter_ = [] ∧
    commandsAndSignals (run exampleTunables attachedConn
      [Input.handleRead false tapOpenedHoldLine false false]).2
      = [.write (bufferLiteral "state on all\n") false] := by
  decide

/-- C22 (amended): for every state and every line for which the chain takes
the `>LOG:` arm (the trimmed line starts with `>LOG:` and contains none of the
patterns tested before that arm), that matches no error row and contains
`TAP-WIN32 device` and `opened`, handling the line emits no signal, and the
stored adapter name becomes the text from the first opening brace through the
first closing brace, both included, when the first opening brace comes before
the first closing brace; it becomes empty when the line has no opening brace,
or no closing brace, or its first closing brace comes before any opening
brace. -/
theorem C22_adapter_name (c : Conn) (line : QString) (wf ff : Bool)
    (hb : selectBranch c (trimmed line) = .log)
    (hrow : firstMatchingKind (trimmed line) = none)
    (htap : containsCI (trimmed line) "TAP-WIN32 device" = true)
    (hop : containsCI (trimmed line) "opened" = true) :
    ∃ c1 effs, handleRead c false line wf ff = some (c1, effs) ∧
      signalsOf effs = [] ∧
      (∀ pre body post : QString,
        line = pre ++ Char.ofNat 123 :: body ++ Char.ofNat 125 :: post →
        Char.ofNat 123 ∉ pre → Char.ofNat 125 ∉ pre → Char.ofNat 125 ∉ body →
        c1.tapAdapter_ = Char.ofNat 123 :: body ++ [Char.ofNat 125]) ∧
      ((Char.ofNat 123 ∉ line ∨ Char.ofNat 125 ∉ line ∨
          ∃ pre post, line = pre ++ Char.ofNat 125 :: post ∧ Char.ofNat 123 ∉ pre ∧
            Char.ofNat 125 ∉ pre) →
        c1.tapAdapter_ = []) := by
  obtain ⟨g1, g2, g3⟩ := handleLog_tapAdapter c (trimmed line) hrow htap hop
  unfold handleRead handleReadChain
  simp only [Bool.not_false, if_true, hb]
  refine ⟨_, _, rfl, ?_, ?_, ?_⟩
  · simp [signalsOf_append, signalsOf_logged, g1, signalsOf,
      (checkErrorAndContinue_no_error _ _ _).2.2.2]
  · rintro pre body post rfl h1 h2 h3
    rw [checkErrorAndContinue_tapAdapter]
    have ht : trimmed (pre ++ Char.ofNat 123 :: body ++ Char.ofNat 125 :: post)
        = pre.dropWhile isSpace ++ Char.ofNat 123 :: body ++
          Char.ofNat 125 :: (post.reverse.dropWhile isSpace).reverse := by
      have hne : Char.ofNat 123 :: body ++ [Char.ofNat 125] ≠ [] := by simp
      have hh : isSpace ((Char.ofNat 123 :: body ++ [Char.ofNat 125]).head hne) = false := by
        simp; decide
      have hl : isSpace ((Char.ofNat 123 :: body ++ [Char.ofNat 125]).getLast hne) = false := by
        simp; decide
      have h := trimmed_core pre (Char.ofNat 123 :: body ++ [Char.ofNat 125]) post hne hh hl
      simpa using h
    exact g2 (pre.dropWhile isSpace) body _ ht
      (fun hm => h1 (mem_of_mem_dropWhile _ _ _ hm))
      (fun hm => h2 (mem_of_mem_dropWhile _ _ _ hm)) h3
  · intro h
    rw [checkErrorAndContinue_tapAdapter]
    refine g3 ?_
    rcases h with h | h | ⟨pre, post, rfl, h1, h2⟩
    · exact Or.inl (fun hm => h (mem_of_mem_trimmed _ _ hm))
    · exact Or.inr (Or.inl (fun hm => h (mem_of_mem_trimmed _ _ hm)))
    · refine Or.inr (Or.inr ⟨pre.dropWhile isSpace, (post.reverse.dropWhile isSpace).reverse,
        ?_, fun hm => h1 (mem_of_mem_dropWhile _ _ _ hm),
        fun hm => h2 (mem_of_mem_dropWhile _ _ _ hm)⟩)
      have hne : [Char.ofNat 125] ≠ [] := by simp
      have hh : isSpace (([Char.ofNat 125] : List Char).head hne) = false := by
        simp; decide
      have hl : isSpace (([Char.ofNat 125] : List Char).getLast hne) = false := by
        simp; decide
      have h := trimmed_core pre [Char.ofNat 125] post hne hh hl
      simpa using h

/-- C22 (witness): the line that reports the opened adapter, handled in the
attached session, stores the braced name. -/
theorem C22_adapter_name_witness :
    selectBranch attachedConn (trimmed tapOpenedLine) = .log ∧
    firstMatchingKind (trimmed tapOpenedLine) = none ∧
    containsCI (trimmed tapOpenedLine) "TAP-WIN32 device" = true ∧
    containsCI (trimmed tapOpenedLine) "opened" = true ∧
    (run exampleTunables attachedConn
      [Input.handleRead false tapOpenedLine false false]).1.tapAdapter_
      = "\x7b4FA0C8E2-7A3B\x7d".toList ∧
    ∃ c1 effs, handleRead attachedConn false tapOpenedLine false false = some (c1, effs) ∧
      signalsOf effs = [] ∧
      (∀ pre body post : QString,
        tapOpenedLine = pre ++ Char.ofNat 123 :: body ++ Char.ofNat 125 :: post →
        Char.ofNat 123 ∉ pre → Char.ofNat 125 ∉ pre → Char.ofNat 125 ∉ body →
        c1.tapAdapter_ = Char.ofNat 123 :: body ++ [Char.ofNat 125]) ∧
      ((Char.ofNat 123 ∉ tapOpenedLine ∨ Char.ofNat 125 ∉ tapOpenedLine ∨
          ∃ pre post, tapOpenedLine = pre ++ Char.ofNat 125 :: post ∧ Char.ofNat 123 ∉ pre ∧
            Char.ofNat 125 ∉ pre) →
        c1.tapAdapter_ = []) :=
  ⟨by decide, by decide, by decide, by decide, by decide,
   C22_adapter_name attachedConn tapOpenedLine false false (by decide) (by decide)
     (by decide) (by decide)⟩



/-! ## The pending-SIGTERM gate -/

theorem handleByteCount_gate (c : Conn) (s : QString) (hg : sigTermGateClosed c) :
    sigTermGateClosed (handleByteCount c s).1 := by
  unfold handleByteCount
  unfold sigTermGateClosed at hg ⊢
  simp only
  split_ifs <;> simpa using hg

theorem handleState_gate (c : Conn) (s : QString) (hg : sigTermGateClosed c) :
    sigTermGateClosed (handleState c s).1 := by
  unfold handleState setCurrentState
  unfold sigTermGateClosed at hg ⊢
  split_ifs <;> simp_all

theorem handleLog_gate (c : Conn) (s : QString) (hg : sigTermGateClosed c) :
    sigTermGateClosed (handleLog c s).1 := by
  unfold sigTermGateClosed at hg ⊢
  rw [(handleLog_sv c s).1]
  exact hg

/-- Only the acknowledgement of `state on all` opens the gate, and its arm
writes nothing. -/
theorem handleReadChain_opens_gate (c c1 : Conn) (s : QString) (wf we : Bool)
    (effs : List Effect) (hg : sigTermGateClosed c)
    (h : handleReadChain c s wf = some (c1, effs, we)) (ho : ¬ sigTermGateClosed c1) :
    selectBranch c s = .stateNotificationOn ∧ we = false ∧ effs = [] := by
  have hbc := handleByteCount_gate c s hg
  have hst := handleState_gate c s hg
  have hlg := handleLog_gate c s hg
  unfold handleReadChain at h
  cases hb : selectBranch c s <;> rw [hb] at h <;> simp only at h
  case stateNotificationOn =>
    simp only [Option.some.injEq, Prod.mk.injEq] at h
    exact ⟨rfl, h.2.2.symm, h.2.1.symm⟩
  case bytecount => cases h; exact absurd hbc ho
  case state => cases h; exact absurd hst ho
  case log => cases h; exact absurd hlg ho
  all_goals (repeat' split at h)
  all_goals (try cases h)
  all_goals first
    | exact absurd hg ho
    | (exfalso; apply ho; unfold sigTermGateClosed at hg ⊢; simp_all)

/-- C24: in every state reached from freshly reset session variables, after
any inputs, it is not the case that a SIGTERM is pending and acceptable but
not sent. So in a `handleRead` only the arm of the `state on all`
acknowledgement, which writes nothing and sets no write error, can leave the
condition of the pending flush true for `checkErrorAndContinue`; after a
failed write of the chain `checkErrorAndContinue` only takes the disconnect
path; and the call in a credential continuation never flushes. -/
theorem C24_sigterm_gate (t : Tunables) (c0 : Conn) (ins : List Input) (line : QString)
    (wf ff : Bool) :
    sigTermGateClosed (sessionState t c0 ins) ∧
    (∀ c1 effs we,
      handleReadChain (sessionState t c0 ins) (trimmed line) wf = some (c1, effs, we) →
      ¬ sigTermGateClosed c1 →
      selectBranch (sessionState t c0 ins) (trimmed line) = .stateNotificationOn ∧
        we = false ∧ effs = []) ∧
    (∀ c1 effs,
      handleReadChain (sessionState t c0 ins) (trimmed line) wf = some (c1, effs, true) →
      checkErrorAndContinue c1 true true ff
        = setCurrentStateAndEmitDisconnected c1 .STATUS_DISCONNECTED) ∧
    checkErrorAndContinue (sessionState t c0 ins) wf false ff =
      (if wf then setCurrentStateAndEmitDisconnected (sessionState t c0 ins) .STATUS_DISCONNECTED
       else (sessionState t c0 ins, [])) := by
  have hg := sessionState_gate t c0 ins
  refine ⟨hg, fun c1 effs we h ho => handleReadChain_opens_gate _ c1 _ wf we effs hg h ho,
    fun c1 effs h => ?_, ?_⟩
  · have hc : sigTermGateClosed c1 := by
      by_contra ho
      have := (handleReadChain_opens_gate _ c1 _ wf true effs hg h ho).2.1
      cases this
    rw [checkErrorAndContinue_closed c1 true true ff hc]
    rfl
  · rw [checkErrorAndContinue_closed _ wf false ff hg]
    cases wf <;> rfl

/-- C24 (witness): after a disconnect task that found SIGTERM not yet
acceptable, the acknowledgement of `state on all` opens the gate in its arm,
with no write; the flush then closes it. -/
theorem C24_sigterm_gate_witness :
    handleReadChain (sessionState exampleTunables attachedConn [Input.funcDisconnect false])
        (trimmed stateNotificationLine) false
      = some ({ sessionState exampleTunables attachedConn [Input.funcDisconnect false] with
                  stateVariables_.bWasStateNotification := true
                  stateVariables_.isAcceptSigTermCommand_ := true }, [], false) ∧
    ¬ sigTermGateClosed
      { sessionState exampleTunables attachedConn [Input.funcDisconnect false] with
          stateVariables_.bWasStateNotification := true
          stateVariables_.isAcceptSigTermCommand_ := true } ∧
    selectBranch (sessionState exampleTunables attachedConn [Input.funcDisconnect false])
      (trimmed stateNotificationLine) = .stateNotificationOn ∧
    sigTermGateClosed (sessionState exampleTunables attachedConn
      [Input.funcDisconnect false,
       Input.handleRead false stateNotificationLine false false]) := by
  have hA : handleReadChain
      (sessionState exampleTunables attachedConn [Input.funcDisconnect false])
        (trimmed stateNotificationLine) false
      = some ({ sessionState exampleTunables attachedConn [Input.funcDisconnect false] with
                  stateVariables_.bWasStateNotification := true
                  stateVariables_.isAcceptSigTermCommand_ := true }, [], false) := by
    decide
  have hB : ¬ sigTermGateClosed
      { sessionState exampleTunables attachedConn [Input.funcDisconnect false] with
          stateVariables_.bWasStateNotification := true
          stateVariables_.isAcceptSigTermCommand_ := true } := by
    unfold sigTermGateClosed
    decide
  exact ⟨hA, hB,
    ((C24_sigterm_gate exampleTunables attachedConn [Input.funcDisconnect false]
      stateNotificationLine false false).2.1 _ _ _ hA hB).1,
    (C24_sigterm_gate exampleTunables attachedConn
      [Input.funcDisconnect false,
       Input.handleRead false stateNotificationLine false false]
      stateNotificationLine false false).1⟩


/-! ## Telescoping of the byte statistics -/

theorem add_subU64 (a p : Nat) (hp : p < 2 ^ 64) : (p + subU64 a p) % 2 ^ 64 = a % 2 ^ 64 := by
  unfold subU64
  have h1 : p % 2 ^ 64 = p := Nat.mod_eq_of_lt hp
  rw [h1]
  omega

theorem telescope_later (values : List (Nat × Nat)) (p q : Nat) (hp : p < 2 ^ 64)
    (hq : q < 2 ^ 64) (hb : ∀ v ∈ values, v.1 < 2 ^ 64 ∧ v.2 < 2 ^ 64) :
    (p + rxTotal (expectedStatistics false p q values)) % 2 ^ 64 = (values.getLastD (p, q)).1 ∧
    (q + txTotal (expectedStatistics false p q values)) % 2 ^ 64
      = (values.getLastD (p, q)).2 := by
  induction values generalizing p q with
  | nil =>
    simp only [expectedStatistics, rxTotal, txTotal, List.getLastD_nil, Nat.add_zero]
    exact ⟨Nat.mod_eq_of_lt hp, Nat.mod_eq_of_lt hq⟩
  | cons v rest ih =>
    obtain ⟨a, b⟩ := v
    obtain ⟨ha, hb'⟩ := hb (a, b) (List.mem_cons_self _ _)
    simp only at ha hb'
    obtain ⟨i1, i2⟩ := ih a b ha hb' (fun v hv => hb v (List.mem_cons_of_mem _ hv))
    simp only [expectedStatistics, Bool.false_eq_true, if_false, rxTotal, txTotal,
      List.getLastD_cons]
    rw [← i1, ← i2]
    constructor
    · rw [← Nat.add_assoc, Nat.add_mod, add_subU64 a p hp, ← Nat.add_mod]
    · rw [← Nat.add_assoc, Nat.add_mod, add_subU64 b q hq, ← Nat.add_mod]


/-! ## Byte-count samples among the other inputs of a session -/

theorem statisticsOf_append (a b : List Signal) :
    statisticsOf (a ++ b) = statisticsOf a ++ statisticsOf b := by
  induction a with
  | nil => rfl
  | cons s rest ih => cases s <;> simp [statisticsOf, ih]

theorem baselinesKept_refl (c : Conn) : baselinesKept c c := ⟨rfl, rfl, rfl⟩

theorem baselinesKept_trans (a b c : Conn) (h1 : baselinesKept a b) (h2 : baselinesKept b c) :
    baselinesKept a c :=
  ⟨h2.1.trans h1.1, h2.2.1.trans h1.2.1, h2.2.2.trans h1.2.2⟩

theorem checkErrorAndContinue_baselines (c : Conn) (we rd ff : Bool) :
    baselinesKept c (checkErrorAndContinue c we rd ff).1 ∧
    statisticsOf (signalsOf (checkErrorAndContinue c we rd ff).2) = [] := by
  unfold checkErrorAndContinue setCurrentStateAndEmitDisconnected baselinesKept
  cases we <;> cases rd <;> simp only [] <;> split_ifs <;>
    simp [signalsOf, signalsOf_append, statisticsOf]

theorem funcDisconnect_baselines (c : Conn) (wf : Bool) :
    baselinesKept c (funcDisconnect c wf).1 ∧
    statisticsOf (signalsOf (funcDisconnect c wf).2) = [] := by
  unfold funcDisconnect baselinesKept
  split_ifs <;> simp [signalsOf, statisticsOf]

theorem handleState_baselines (c : Conn) (s : QString) :
    baselinesKept c (handleState c s).1 ∧
    statisticsOf (signalsOf (handleState c s).2) = [] := by
  unfold handleState setCurrentState baselinesKept
  split_ifs <;> simp [signalsOf, statisticsOf]

theorem handleLog_baselines (c : Conn) (s : QString) :
    baselinesKept c (handleLog c s).1 ∧
    statisticsOf (signalsOf (handleLog c s).2) = [] := by
  constructor
  · unfold baselinesKept
    rw [(handleLog_sv c s).1]
    exact ⟨rfl, rfl, rfl⟩
  · unfold handleLog
    simp only
    split_ifs <;> simp [signalsOf, statisticsOf]

/-- A line that starts with `>BYTECOUNT:` without the two fields of a sample
is ignored by the byte-count arm. -/
theorem handleByteCount_malformed (c : Conn) (s : QString)
    (h : (split ':' s).length ≤ 1 ∨ (split ',' ((split ':' s).getD 1 [])).length ≠ 2) :
    handleByteCount c s = (c, []) := by
  unfold handleByteCount
  simp only
  rcases h with h | h
  · rw [if_neg (by omega)]
  · split_ifs <;> rfl

theorem selectBranch_bytecount (c : Conn) (s : QString) (h : selectBranch c s = .bytecount) :
    startsWithCI s ">BYTECOUNT:" = true := by
  by_contra hn
  unfold selectBranch at h
  rw [if_neg hn] at h
  refine absurd h ?_
  repeat' apply ite_ne_branch
  all_goals decide

theorem handleReadChain_baselines (c c1 : Conn) (s : QString) (wf we : Bool)
    (effs : List Effect) (h : handleReadChain c s wf = some (c1, effs, we))
    (hn : startsWithCI s ">BYTECOUNT:" = false ∨ (split ':' s).length ≤ 1 ∨
      (split ',' ((split ':' s).getD 1 [])).length ≠ 2) :
    baselinesKept c c1 ∧ statisticsOf (signalsOf effs) = [] := by
  have hst := handleState_baselines c s
  have hlg := handleLog_baselines c s
  unfold handleReadChain at h
  cases hb : selectBranch c s <;> rw [hb] at h <;> simp only at h
  case bytecount =>
    have hm : handleByteCount c s = (c, []) := by
      rcases hn with hn | hn
      · rw [selectBranch_bytecount c s hb] at hn
        cases hn
      · exact handleByteCount_malformed c s hn
    rw [hm] at h
    cases h
    exact ⟨baselinesKept_refl c, rfl⟩
  case state => cases h; exact hst
  case log => cases h; exact hlg
  all_goals (repeat' split at h)
  all_goals (try cases h)
  all_goals (try simp [baselinesKept, signalsOf, statisticsOf])

/-- An input that is not a sample leaves the byte-count baselines as they are
and emits no `statisticsUpdated`. -/
theorem step_baselines (t : Tunables) (c c1 : Conn) (i : Input) (effs : List Effect)
    (h : step t c i = some (c1, effs)) (hn : i.notSample) :
    baselinesKept c c1 ∧ statisticsOf (signalsOf effs) = [] := by
  cases i with
  | startDisconnect =>
    simp only [step, Option.some.injEq] at h
    have h1 : baselinesKept c (startDisconnect t c).1 ∧
        statisticsOf (signalsOf (startDisconnect t c).2) = [] := by
      unfold startDisconnect baselinesKept
      simp only []
      split_ifs <;> simp [signalsOf, signalsOf_append, statisticsOf]
    rw [h] at h1
    exact h1
  | continueWithUsernameAndPassword u p =>
    simp only [step, Option.some.injEq, continueWithUsernameAndPassword, Prod.mk.injEq] at h
    obtain ⟨rfl, rfl⟩ := h
    simp [baselinesKept, signalsOf, statisticsOf]
  | continueWithPassword p =>
    simp only [step, Option.some.injEq, continueWithPassword, Prod.mk.injEq] at h
    obtain ⟨rfl, rfl⟩ := h
    simp [baselinesKept, signalsOf, statisticsOf]
  | onKillControllerTimer =>
    simp only [step, Option.some.injEq, onKillControllerTimer, Prod.mk.injEq] at h
    obtain ⟨rfl, rfl⟩ := h
    simp [baselinesKept, signalsOf, statisticsOf]
  | killTimerStop =>
    simp only [step, Option.some.injEq, killTimerStop, Prod.mk.injEq] at h
    obtain ⟨rfl, rfl⟩ := h
    simp [baselinesKept, signalsOf, statisticsOf]
  | funcRunOpenVPN port launch stop =>
    simp only [step, Option.some.injEq] at h
    have h1 : baselinesKept c (funcRunOpenVPN c port launch stop).1 ∧
        statisticsOf (signalsOf (funcRunOpenVPN c port launch stop).2) = [] := by
      have hs := launchLoop_signals port launch stop 0
      unfold funcRunOpenVPN baselinesKept
      simp only
      split <;>
        simp [signalsOf_append, hs, signalsOf, statisticsOf,
          setCurrentStateAndEmitError, setCurrentStateAndEmitDisconnected]
    rw [h] at h1
    exact h1
  | funcConnectToOpenVPN err elapsed fin wf =>
    simp only [step, Option.some.injEq] at h
    have h1 : baselinesKept c (funcConnectToOpenVPN t c err elapsed fin wf).1 ∧
        statisticsOf (signalsOf (funcConnectToOpenVPN t c err elapsed fin wf).2) = [] := by
      obtain ⟨hd1, hd2⟩ :=
        funcDisconnect_baselines (setCurrentState c .STATUS_CONNECTED_TO_SOCKET) wf
      have hd3 : baselinesKept c (setCurrentState c .STATUS_CONNECTED_TO_SOCKET) :=
        ⟨rfl, rfl, rfl⟩
      unfold funcConnectToOpenVPN
      simp only []
      split_ifs
      · exact ⟨baselinesKept_trans _ _ _ hd3 hd1, by
          simp [signalsOf_append, signalsOf, statisticsOf_append, hd2, statisticsOf]⟩
      all_goals
        simp [baselinesKept, signalsOf, statisticsOf, setCurrentState,
          setCurrentStateAndEmitError, setCurrentStateAndEmitDisconnected]
    rw [h] at h1
    exact h1
  | handleRead err line wf ff =>
    simp only [step] at h
    unfold handleRead at h
    cases err
    · simp only [Bool.not_false, if_true] at h
      cases hch : handleReadChain c (trimmed line) wf with
      | none => rw [hch] at h; cases h
      | some r =>
        obtain ⟨c2, effs2, we⟩ := r
        rw [hch] at h
        simp only [Option.some.injEq, Prod.mk.injEq] at h
        obtain ⟨rfl, rfl⟩ := h
        obtain ⟨h1, h1b⟩ := handleReadChain_baselines c c2 _ wf we effs2 hch hn
        obtain ⟨h2, h3⟩ := checkErrorAndContinue_baselines c2 we true ff
        refine ⟨baselinesKept_trans _ _ _ h1 h2, ?_⟩
        simp [signalsOf_append, signalsOf_logged, statisticsOf_append, h1b, h3, statisticsOf]
    · simp [setCurrentStateAndEmitDisconnected] at h
      obtain ⟨rfl, rfl⟩ := h
      simp [baselinesKept, signalsOf, statisticsOf]
  | funcDisconnect wf =>
    simp only [step, Option.some.injEq] at h
    have h1 := funcDisconnect_baselines c wf
    rw [h] at h1
    exact h1
  | continueWithUsernameImpl wf ff =>
    simp only [step] at h
    unfold continueWithUsernameImpl at h
    split at h
    · cases h
    · simp only [Option.some.injEq, Prod.mk.injEq] at h
      obtain ⟨rfl, rfl⟩ := h
      obtain ⟨h2, h3⟩ := checkErrorAndContinue_baselines c wf false ff
      exact ⟨h2, by simpa [signalsOf_write_cons] using h3⟩
  | continueWithPasswordImpl wf ff =>
    simp only [step] at h
    unfold continueWithPasswordImpl at h
    split at h
    · cases h
    · simp only [Option.some.injEq, Prod.mk.injEq] at h
      obtain ⟨rfl, rfl⟩ := h
      obtain ⟨h2, h3⟩ := checkErrorAndContinue_baselines c wf false ff
      exact ⟨h2, by simpa [signalsOf_write_cons] using h3⟩

/-- The `statisticsUpdated` signals of a session are those of its samples,
whatever other inputs come between them. -/
theorem run_items (t : Tunables) (items : List SessionItem) (c : Conn)
    (hw : ∀ x ∈ items, x.wellFormed)
    (hc : completes t c (items.map SessionItem.input) = true) :
    statisticsOf (signalsOf (run t c (items.map SessionItem.input)).2) =
      expectedStatistics c.stateVariables_.bFirstCalcStat c.stateVariables_.prevBytesRcved
        c.stateVariables_.prevBytesXmited (itemValues items) := by
  induction items generalizing c with
  | nil => rfl
  | cons x rest ih =>
    have hx := hw x (List.mem_cons_self _ _)
    have hrest : ∀ y ∈ rest, y.wellFormed := fun y hy => hw y (List.mem_cons_of_mem _ hy)
    cases x with
    | sample p =>
      obtain ⟨ha, hb⟩ := hx
      obtain ⟨c1, effs, h1, h2, h3, h4, h5⟩ := handleRead_byteCountLine c p ha hb
      have hc1 : completes t c1 (rest.map SessionItem.input) = true := by
        simpa [completes, SessionItem.input, Sample.input, step, h1] using hc
      have ih1 := ih c1 hrest hc1
      simp only [List.map_cons, SessionItem.input, run, Sample.input, step, h1,
        signalsOf_append, statisticsOf_append, h5, ih1, h2, h3, h4, itemValues,
        expectedStatistics]
      cases c.stateVariables_.bFirstCalcStat <;> simp [statisticsOf]
    | other i =>
      cases hs : step t c i with
      | none => simp [completes, SessionItem.input, hs] at hc
      | some r =>
        obtain ⟨c1, effs⟩ := r
        have hc1 : completes t c1 (rest.map SessionItem.input) = true := by
          simpa [completes, SessionItem.input, hs] using hc
        obtain ⟨⟨k1, k2, k3⟩, k4⟩ := step_baselines t c c1 i effs hs hx
        have ih1 := ih c1 hrest hc1
        simp only [List.map_cons, SessionItem.input, run, hs, signalsOf_append,
          statisticsOf_append, k4, ih1, k1, k2, k3, itemValues, List.nil_append]

theorem itemValues_bound (items : List SessionItem) (hw : ∀ x ∈ items, x.wellFormed) :
    ∀ v ∈ itemValues items, v.1 < 2 ^ 64 ∧ v.2 < 2 ^ 64 := by
  induction items with
  | nil => intro v hv; cases hv
  | cons x rest ih =>
    have hx := hw x (List.mem_cons_self _ _)
    have hrest : ∀ y ∈ rest, y.wellFormed := fun y hy => hw y (List.mem_cons_of_mem _ hy)
    cases x with
    | sample p =>
      intro v hv
      simp only [itemValues, List.mem_cons] at hv
      rcases hv with rfl | hv
      · exact ⟨hx.1.2.2, hx.2.2.2⟩
      · exact ih hrest v hv
    | other i => exact ih hrest

theorem statisticsValues_statisticsOf (l : List Signal) :
    statisticsValues (statisticsOf l) = statisticsValues l := by
  induction l with
  | nil => rfl
  | cons s rest ih => cases s <;> simp [statisticsOf, statisticsValues, ih]

theorem rxTotal_statisticsOf (l : List Signal) : rxTotal (statisticsOf l) = rxTotal l := by
  induction l with
  | nil => rfl
  | cons s rest ih => cases s <;> simp [statisticsOf, rxTotal, ih]

theorem txTotal_statisticsOf (l : List Signal) : txTotal (statisticsOf l) = txTotal l := by
  induction l with
  | nil => rfl
  | cons s rest ih => cases s <;> simp [statisticsOf, txTotal, ih]

theorem getLastD_of_ne_nil (l : List (Nat × Nat)) (hne : l ≠ []) (d : Nat × Nat) :
    l.getLastD d = l.getLast hne := by
  induction l generalizing d with
  | nil => exact absurd rfl hne
  | cons a as ih =>
    cases as with
    | nil => rfl
    | cons b bs =>
      rw [List.getLastD_cons, ih (List.cons_ne_nil _ _)]
      rfl


theorem integerDifferences_length (values : List (Nat × Nat)) (p q : Int) :
    (integerDifferences p q values).length = values.length := by
  induction values generalizing p q with
  | nil => rfl
  | cons v rest ih =>
    obtain ⟨a, b⟩ := v
    simp [integerDifferences, ih]

theorem telescope_first (values : List (Nat × Nat)) (hne : values ≠ [])
    (hb : ∀ v ∈ values, v.1 < 2 ^ 64 ∧ v.2 < 2 ^ 64) :
    rxTotal (expectedStatistics true 0 0 values) % 2 ^ 64 = (values.getLast hne).1 ∧
    txTotal (expectedStatistics true 0 0 values) % 2 ^ 64 = (values.getLast hne).2 := by
  cases values with
  | nil => exact absurd rfl hne
  | cons v rest =>
    obtain ⟨a, b⟩ := v
    obtain ⟨ha, hb'⟩ := hb (a, b) (List.mem_cons_self _ _)
    simp only at ha hb'
    obtain ⟨i1, i2⟩ := telescope_later rest a b ha hb'
      (fun v hv => hb v (List.mem_cons_of_mem _ hv))
    have hl := getLastD_of_ne_nil ((a, b) :: rest) hne (0, 0)
    rw [List.getLastD_cons] at hl
    simp only [expectedStatistics, if_true, rxTotal, txTotal]
    rw [i1, i2, hl]
    exact ⟨rfl, rfl⟩

/-- C4: in every session in which `bFirstCalcStat` is initially true, made of
well-formed `>BYTECOUNT:a,b` samples and, between them, any other inputs
(calls, timer events, handler runs, lines that are not samples), whatever the
write outcomes, the `statisticsUpdated` signals emitted are exactly one per
sample: `(a, b, false)` for the first sample and, for every later one, the
64-bit differences to the values of the sample before it. When the samples
come alone these are the only signals; in particular the samples `(100,200),
(150,260), (150,260)` emit `(100,200,false)`, `(50,60,false)`,
`(0,0,false)`. -/
theorem C4_bytecount_statistics (t : Tunables) (c : Conn) (items : List SessionItem)
    (samples : List Sample)
    (hfirst : c.stateVariables_.bFirstCalcStat = true)
    (hw : ∀ x ∈ items, x.wellFormed)
    (hc : completes t c (items.map SessionItem.input) = true)
    (hs : ∀ p ∈ samples, isNumeral p.rx ∧ isNumeral p.tx) :
    statisticsOf (signalsOf (run t c (items.map SessionItem.input)).2) =
      expectedStatistics true 0 0 (itemValues items) ∧
    signalsOf (run t c (samples.map Sample.input)).2 =
      expectedStatistics true 0 0
        (samples.map fun p => (decimalValue p.rx, decimalValue p.tx)) ∧
    signalsOf (run t c (roundTripSamples.map Sample.input)).2 =
      [.statisticsUpdated 100 200 false, .statisticsUpdated 50 60 false,
       .statisticsUpdated 0 0 false] := by
  refine ⟨?_, ?_, ?_⟩
  · rw [run_items t items c hw hc, hfirst]
    exact expectedStatistics_first _ _ _
  · rw [run_samples t samples c hs, hfirst]
    exact expectedStatistics_first _ _ _
  · rw [run_samples t roundTripSamples c (by decide), hfirst, expectedStatistics_first]
    decide

/-- C4 (witness): the samples `(100,200), (150,260), (150,260)` with a
`CONNECTED` line, a `RECONNECTING` line, a malformed byte-count line and a
call of `startDisconnect` between them; and the samples `(7,9), (4,9)` alone,
whose second receive count is smaller, so that its difference wraps around
modulo `2^64`. -/
theorem C4_bytecount_statistics_witness :
    attachedConn.stateVariables_.bFirstCalcStat = true ∧
    (∀ x ∈ interleavedSession, x.wellFormed) ∧
    completes exampleTunables attachedConn (interleavedSession.map SessionItem.input) = true ∧
    (∀ p ∈ [(⟨"7".toList, "9".toList, false, false⟩ : Sample),
        ⟨"4".toList, "9".toList, true, false⟩], isNumeral p.rx ∧ isNumeral p.tx) ∧
    signalsOf (run exampleTunables attachedConn (interleavedSession.map SessionItem.input)).2
      = [.statisticsUpdated 100 200 false, .connected, .statisticsUpdated 50 60 false,
         .reconnecting, .statisticsUpdated 0 0 false] ∧
    signalsOf (run exampleTunables attachedConn
        ([(⟨"7".toList, "9".toList, false, false⟩ : Sample),
          ⟨"4".toList, "9".toList, true, false⟩].map Sample.input)).2
      = [.statisticsUpdated 7 9 false, .statisticsUpdated (2 ^ 64 - 3) 0 false] ∧
    (statisticsOf (signalsOf
        (run exampleTunables attachedConn (interleavedSession.map SessionItem.input)).2) =
      expectedStatistics true 0 0 (itemValues interleavedSession) ∧
    signalsOf (run exampleTunables attachedConn
        ([(⟨"7".toList, "9".toList, false, false⟩ : Sample),
          ⟨"4".toList, "9".toList, true, false⟩].map Sample.input)).2 =
      expectedStatistics true 0 0
        ([(⟨"7".toList, "9".toList, false, false⟩ : Sample),
          ⟨"4".toList, "9".toList, true, false⟩].map
            fun p => (decimalValue p.rx, decimalValue p.tx)) ∧
    signalsOf (run exampleTunables attachedConn (roundTripSamples.map Sample.input)).2 =
      [.statisticsUpdated 100 200 false, .statisticsUpdated 50 60 false,
       .statisticsUpdated 0 0 false]) :=
  ⟨by decide, by decide, by decide, by decide, by decide, by decide,
   C4_bytecount_statistics exampleTunables attachedConn interleavedSession
     [⟨"7".toList, "9".toList, false, false⟩, ⟨"4".toList, "9".toList, true, false⟩]
     (by decide) (by decide) (by decide) (by decide)⟩

/-- C14: in every session in which `bFirstCalcStat` is initially true, made of
well-formed `>BYTECOUNT:` samples and, between them, any other inputs, if the
receive values and the transmit values of the samples are each
non-decreasing, the values emitted by `statisticsUpdated` are, as integers,
exactly the differences between consecutive samples (the first sample
compared with zero): the 64-bit subtraction does not wrap around, one signal
is emitted per sample, and every emitted value is non-negative. -/
theorem C14_monotonic_deltas_exact (t : Tunables) (c : Conn) (items : List SessionItem)
    (hfirst : c.stateVariables_.bFirstCalcStat = true)
    (hw : ∀ x ∈ items, x.wellFormed)
    (hc : completes t c (items.map SessionItem.input) = true)
    (hm : nonDecreasing 0 0 (itemValues items)) :
    statisticsValues (signalsOf (run t c (items.map SessionItem.input)).2)
      = integerDifferences 0 0 (itemValues items) ∧
    (statisticsValues (signalsOf (run t c (items.map SessionItem.input)).2)).length
      = (itemValues items).length ∧
    ∀ d ∈ statisticsValues (signalsOf (run t c (items.map SessionItem.input)).2),
      0 ≤ d.1 ∧ 0 ≤ d.2 := by
  have h1 : statisticsOf (signalsOf (run t c (items.map SessionItem.input)).2)
      = expectedStatistics true 0 0 (itemValues items) := by
    rw [run_items t items c hw hc, hfirst]
    exact expectedStatistics_first _ _ _
  have h2 := statisticsValues_expected_first (itemValues items) (itemValues_bound items hw) hm
  have h3 : statisticsValues (signalsOf (run t c (items.map SessionItem.input)).2)
      = integerDifferences 0 0 (itemValues items) := by
    rw [← statisticsValues_statisticsOf, h1, h2]
  rw [h3]
  exact ⟨rfl, by simpa using integerDifferences_length (itemValues items) 0 0,
    integerDifferences_nonneg _ 0 0 hm⟩

/-- C14 (witness): the non-decreasing samples `(100,200), (150,260),
(150,260)`, with other inputs between them, give the differences `(100,200),
(50,60), (0,0)`. -/
theorem C14_monotonic_deltas_exact_witness :
    attachedConn.stateVariables_.bFirstCalcStat = true ∧
    (∀ x ∈ interleavedSession, x.wellFormed) ∧
    completes exampleTunables attachedConn (interleavedSession.map SessionItem.input) = true ∧
    nonDecreasing 0 0 (itemValues interleavedSession) ∧
    integerDifferences 0 0 (itemValues interleavedSession) = [(100, 200), (50, 60), (0, 0)] ∧
    (statisticsValues (signalsOf
        (run exampleTunables attachedConn (interleavedSession.map SessionItem.input)).2)
      = integerDifferences 0 0 (itemValues interleavedSession) ∧
    (statisticsValues (signalsOf
        (run exampleTunables attachedConn (interleavedSession.map SessionItem.input)).2)).length
      = (itemValues interleavedSession).length ∧
    ∀ d ∈ statisticsValues (signalsOf
        (run exampleTunables attachedConn (interleavedSession.map SessionItem.input)).2),
      0 ≤ d.1 ∧ 0 ≤ d.2) :=
  ⟨by decide, by decide, by decide, by simp +decide [nonDecreasing, itemValues,
      interleavedSession], by decide,
   C14_monotonic_deltas_exact exampleTunables attachedConn interleavedSession
     (by decide) (by decide) (by decide)
     (by simp +decide [nonDecreasing, itemValues, interleavedSession])⟩

/-- C25: in every session in which `bFirstCalcStat` is initially true, made of
well-formed `>BYTECOUNT:a,b` samples, at least one, and between them any
other inputs (a `RECONNECTING` line for one), whatever the write outcomes and
whether or not the samples are monotonic, the sum modulo `2^64` of the receive
values emitted by `statisticsUpdated` is the receive value of the last sample,
and the sum modulo `2^64` of the transmit values is its transmit value. -/
theorem C25_statistics_telescope (t : Tunables) (c : Conn) (items : List SessionItem)
    (hne : itemValues items ≠ [])
    (hfirst : c.stateVariables_.bFirstCalcStat = true)
    (hw : ∀ x ∈ items, x.wellFormed)
    (hc : completes t c (items.map SessionItem.input) = true) :
    rxTotal (signalsOf (run t c (items.map SessionItem.input)).2) % 2 ^ 64
      = ((itemValues items).getLast hne).1 ∧
    txTotal (signalsOf (run t c (items.map SessionItem.input)).2) % 2 ^ 64
      = ((itemValues items).getLast hne).2 := by
  have h1 : statisticsOf (signalsOf (run t c (items.map SessionItem.input)).2)
      = expectedStatistics true 0 0 (itemValues items) := by
    rw [run_items t items c hw hc, hfirst]
    exact expectedStatistics_first _ _ _
  rw [← rxTotal_statisticsOf, ← txTotal_statisticsOf, h1]
  exact telescope_first (itemValues items) hne (itemValues_bound items hw)

/-- C25 (witness): the samples `(500,600), (100,50), (200,80)`, whose counters
restart after a `RECONNECTING` line: the baselines are kept, the second
difference wraps around, and the emitted values sum, modulo `2^64`, to
`(200, 80)`. -/
theorem C25_statistics_telescope_witness :
    itemValues restartSession = [(500, 600), (100, 50), (200, 80)] ∧
    attachedConn.stateVariables_.bFirstCalcStat = true ∧
    (∀ x ∈ restartSession, x.wellFormed) ∧
    completes exampleTunables attachedConn (restartSession.map SessionItem.input) = true ∧
    signalsOf (run exampleTunables attachedConn (restartSession.map SessionItem.input)).2
      = [.statisticsUpdated 500 600 false, .reconnecting,
         .statisticsUpdated (2 ^ 64 - 400) (2 ^ 64 - 550) false,
         .statisticsUpdated 100 30 false] ∧
    rxTotal (signalsOf (run exampleTunables attachedConn
      (restartSession.map SessionItem.input)).2) % 2 ^ 64 = 200 ∧
    txTotal (signalsOf (run exampleTunables attachedConn
      (restartSession.map SessionItem.input)).2) % 2 ^ 64 = 80 := by
  have hv : itemValues restartSession = [(500, 600), (100, 50), (200, 80)] := by decide
  have hne : itemValues restartSession ≠ [] := by rw [hv]; exact List.cons_ne_nil _ _
  have h := C25_statistics_telescope exampleTunables attachedConn restartSession hne
    (by decide) (by decide) (by decide)
  have e : (itemValues restartSession).getLast hne = (200, 80) := by
    simp only [hv, List.getLast_cons_cons, List.getLast_singleton]
  rw [e] at h
  exact ⟨hv, by decide, by decide, by decide, by decide, h.1, h.2⟩


/-! ## Lines that are not recognised -/

/-- C23: in every state reached in a session from freshly reset session
variables, a line that the chain does not recognise is logged and the read is
re-armed; the object (state, session variables, adapter name and all other
fields) is unchanged, no signal is emitted and nothing is written. Such a
line is one for which no condition of the chain holds, a `>LOG:` line that
matches no error row and is not the adapter line, a `>STATE:` line that names
none of `CONNECTED,SUCCESS`, `CONNECTED,ERROR`, `RECONNECTING`, or a
`>BYTECOUNT:` line without the two fields of a sample. -/
theorem C23_unrecognised_line_frame (t : Tunables) (c0 : Conn) (ins : List Input)
    (line : QString) (wf ff : Bool)
    (h : selectBranch (sessionState t c0 ins) (trimmed line) = .other ∨
      (selectBranch (sessionState t c0 ins) (trimmed line) = .log ∧
        firstMatchingKind (trimmed line) = none ∧
        (containsCI (trimmed line) "TAP-WIN32 device" &&
          containsCI (trimmed line) "opened") = false) ∨
      (selectBranch (sessionState t c0 ins) (trimmed line) = .state ∧
        containsCI (trimmed line) "CONNECTED,SUCCESS" = false ∧
        containsCI (trimmed line) "CONNECTED,ERROR" = false ∧
        containsCI (trimmed line) "RECONNECTING" = false) ∨
      (selectBranch (sessionState t c0 ins) (trimmed line) = .bytecount ∧
        ((split ':' (trimmed line)).length ≤ 1 ∨
          (split ',' ((split ':' (trimmed line)).getD 1 [])).length ≠ 2))) :
    handleRead (sessionState t c0 ins) false line wf ff =
      some (sessionState t c0 ins, logLine (trimmed line) ++ [.asyncRead]) ∧
    signalsOf (logLine (trimmed line) ++ [.asyncRead]) = [] ∧
    writesOf (logLine (trimmed line) ++ [.asyncRead]) = [] := by
  refine ⟨?_, by simp [signalsOf_append, signalsOf_logged, signalsOf],
    by simp [writesOf_append, writesOf_logged, writesOf]⟩
  have hg := sessionState_gate t c0 ins
  unfold handleRead handleReadChain
  rcases h with hb | ⟨hb, hrow, htap⟩ | ⟨hb, h1, h2, h3⟩ | ⟨hb, hm⟩
  · simp only [Bool.not_false, if_true, hb, checkErrorAndContinue_closed _ _ _ _ hg]
    simp
  · have hl := handleLog_no_row (sessionState t c0 ins) (trimmed line) hrow
    rw [htap] at hl
    simp only [Bool.false_eq_true, if_false] at hl
    simp only [Bool.not_false, if_true, hb, hl, checkErrorAndContinue_closed _ _ _ _ hg]
    simp
  · have hl : handleState (sessionState t c0 ins) (trimmed line)
        = (sessionState t c0 ins, []) := by
      unfold handleState
      simp only [h1, h2, h3, Bool.false_eq_true, if_false]
    simp only [Bool.not_false, if_true, hb, hl, checkErrorAndContinue_closed _ _ _ _ hg]
    simp
  · have hl := handleByteCount_malformed (sessionState t c0 ins) (trimmed line) hm
    simp only [Bool.not_false, if_true, hb, hl, checkErrorAndContinue_closed _ _ _ _ hg]
    simp

/-- C23 (witness): the greeting of the management interface, read after the
child has acknowledged `state on all`; and, in the same state, a `>STATE:`
line that names none of the three states and a `>BYTECOUNT:` line with one
field. -/
theorem C23_unrecognised_line_frame_witness :
    selectBranch notifiedConn (trimmed greetingLine) = .other ∧
    handleRead notifiedConn false greetingLine false false =
      some (notifiedConn, logLine (trimmed greetingLine) ++ [.asyncRead]) ∧
    handleRead notifiedConn false ">STATE:1700000000,WAIT,,,".toList false false =
      some (notifiedConn, [.log ">STATE:1700000000,WAIT,,,".toList, .asyncRead]) ∧
    handleRead notifiedConn false ">BYTECOUNT:77".toList false false =
      some (notifiedConn, [.asyncRead]) :=
  ⟨by decide,
   (C23_unrecognised_line_frame exampleTunables attachedConn
      (readLines [">HOLD:Waiting for hold release",
        "SUCCESS: real-time state notification set to ON"])
      greetingLine false false (Or.inl (by decide))).1,
   by decide, by decide⟩


/-! ## How a session ends -/

end OpenVPN
